import Mathlib

/-!
Verification of the IEC 60287 cable thermal engine (analytical ampacity model,
structured mesh builder, FEM solver input validation and heat bookkeeping).

The definitions below are a shallow embedding of the Python sources:
  * `src/iec60287/gui/ampacity_calculator.py`  (analytical model)
  * `src/iec60287/fem/mesh_builder.py`         (mesh builder)
  * `src/iec60287/fem/analyzer.py`             (FEM solver prefix / heat values)
Floats are modelled as real numbers; Python `None` as `Option`; the mutable
`issues` list as explicitly threaded `List String` values (each function
returns the issues it appends, in source order); Python object identity
(`is`) as equality of explicit identifier fields, which are unique in the
program (uuid4 for systems, list position for phase instances).  Python
`while` loops are modelled with an explicit fuel parameter bounding the
number of iterations; every property proved below holds for every fuel.
-/

namespace IEC60287Spec

noncomputable section

open Real

open scoped Classical

/-! ## Geometry model (`model/cable_system.py`, `gui/placement_scene.py`) -/

/-- `LayerRole` enum. -/
inductive LayerRole
  | innerScreen
  | insulation
  | outerScreen
  | sheath
  | armour
  | serving
  | jacket
  deriving DecidableEq

/-- `Material` dataclass (fields used by the thermal engine). -/
structure Material where
  name : String
  electrical_resistivity_ohm_mm2_per_m : Option ℝ
  thermal_resistivity_k_m_per_w : Option ℝ
  temp_coefficient_per_c : Option ℝ

/-- `LayerSpec` dataclass. -/
structure LayerSpec where
  role : LayerRole
  thickness_mm : ℝ
  material : Material
  electrical_resistivity_override_ohm_mm2_per_m : Option ℝ
  thermal_resistivity_override_k_m_per_w : Option ℝ

/-- `LayerSpec.thermal_resistivity()`: override if set, else the material value. -/
def LayerSpec.thermal_resistivity (l : LayerSpec) : Option ℝ :=
  match l.thermal_resistivity_override_k_m_per_w with
  | some v => some v
  | none => l.material.thermal_resistivity_k_m_per_w

/-- `ConductorSpec` dataclass. -/
structure ConductorSpec where
  area_mm2 : ℝ
  diameter_mm : ℝ
  material : Material
  electrical_resistivity_override_ohm_mm2_per_m : Option ℝ
  thermal_resistivity_override_k_m_per_w : Option ℝ

/-- `ConductorSpec.electrical_resistivity()`. -/
def ConductorSpec.electrical_resistivity (c : ConductorSpec) : Option ℝ :=
  match c.electrical_resistivity_override_ohm_mm2_per_m with
  | some v => some v
  | none => c.material.electrical_resistivity_ohm_mm2_per_m

/-- `ConductorSpec.thermal_resistivity()`. -/
def ConductorSpec.thermal_resistivity (c : ConductorSpec) : Option ℝ :=
  match c.thermal_resistivity_override_k_m_per_w with
  | some v => some v
  | none => c.material.thermal_resistivity_k_m_per_w

/-- `CablePhase` dataclass. -/
structure CablePhase where
  name : String
  conductor : ConductorSpec
  layers : List LayerSpec

/-- Helper for `CablePhase.radial_profile_mm`: running outer radius. -/
def radialProfileAux (radius : ℝ) : List LayerSpec → List (LayerSpec × ℝ × ℝ)
  | [] => []
  | l :: ls => (l, radius, radius + l.thickness_mm) :: radialProfileAux (radius + l.thickness_mm) ls

/-- `CablePhase.radial_profile_mm()`: `[(layer, inner_radius, outer_radius)]`. -/
def CablePhase.radial_profile_mm (p : CablePhase) : List (LayerSpec × ℝ × ℝ) :=
  radialProfileAux (p.conductor.diameter_mm / 2) p.layers

/-- `CablePhase.overall_diameter_mm()`. -/
def CablePhase.overall_diameter_mm (p : CablePhase) : ℝ :=
  (p.layers.foldl (fun r l => r + l.thickness_mm) (p.conductor.diameter_mm / 2)) * 2

/-- `CablePhase.get_layer(role)`: first layer with the given role. -/
def CablePhase.get_layer (p : CablePhase) (role : LayerRole) : Option LayerSpec :=
  p.layers.find? (fun l => l.role == role)

/-- `DuctContactConstants` dataclass. -/
structure DuctContactConstants where
  u : ℝ
  v : ℝ
  y : ℝ

/-- `DuctContactConstants.denominator(medium_temp_c)` = `0.1 * (V + Y * θ_m)`. -/
def DuctContactConstants.denominator (c : DuctContactConstants) (medium_temp_c : ℝ) : ℝ :=
  0.1 * (c.v + c.y * medium_temp_c)

/-- `DuctMaterial` dataclass. -/
structure DuctMaterial where
  name : String
  thermal_resistivity_k_m_per_w : ℝ
  is_metallic : Bool
  contact_defaults : DuctContactConstants

/-- `DuctOccupancy` enum. -/
inductive DuctOccupancy
  | singlePhasePerDuct
  | threePhasesPerDuct
  deriving DecidableEq

/-- `DuctSpecification` dataclass.  `medium_temperature_c` is optional to mirror
the `is not None` guard in the calculator. -/
structure DuctSpecification where
  material : DuctMaterial
  inner_diameter_mm : ℝ
  wall_thickness_mm : ℝ
  occupancy : DuctOccupancy
  contact_override : Option DuctContactConstants
  medium_temperature_c : Option ℝ

/-- `DuctSpecification.outer_diameter_mm` property. -/
def DuctSpecification.outer_diameter_mm (d : DuctSpecification) : ℝ :=
  max (d.inner_diameter_mm + 2 * d.wall_thickness_mm) 0

/-- `DuctSpecification.equivalent_cable_diameter_mm(cable_diameter_mm)`. -/
def DuctSpecification.equivalent_cable_diameter_mm (d : DuctSpecification) (cable_diameter_mm : ℝ) : ℝ :=
  if d.occupancy = DuctOccupancy.threePhasesPerDuct then 2.15 * cable_diameter_mm else cable_diameter_mm

/-- `DuctSpecification.has_valid_geometry()`. -/
def DuctSpecification.has_valid_geometry (d : DuctSpecification) : Prop :=
  0 < d.inner_diameter_mm ∧ d.inner_diameter_mm < d.outer_diameter_mm

/-- `DuctSpecification.contact_constants()`. -/
def DuctSpecification.contact_constants (d : DuctSpecification) : DuctContactConstants :=
  match d.contact_override with
  | some c => c
  | none => d.material.contact_defaults

/-- `CableSystemKind` enum. -/
inductive CableSystemKind
  | singleCore
  | multicore
  deriving DecidableEq

/-- `SingleCoreArrangement` enum. -/
inductive SingleCoreArrangement
  | flat
  | trefoil
  deriving DecidableEq

/-- `MultiCoreCable` dataclass (fields used here). -/
structure MultiCoreCable where
  outer_diameter_mm : ℝ
  phase : CablePhase

/-- `CableSystem` dataclass.  `identifier` models the uuid4 hex string used for
object identity comparisons (`is`); the program assigns a fresh one per system. -/
structure CableSystem where
  identifier : ℕ
  name : String
  kind : CableSystemKind
  phase_spacing_mm : ℝ
  arrangement : Option SingleCoreArrangement
  single_core_phase : Option CablePhase
  multicore : Option MultiCoreCable
  nominal_current_a : Option ℝ
  duct : Option DuctSpecification

/-- `CableSystem.phase_offsets_mm()`. -/
def CableSystem.phase_offsets_mm (s : CableSystem) : List (ℝ × ℝ) :=
  match s.kind with
  | CableSystemKind.singleCore =>
    let arrangement := s.arrangement.getD SingleCoreArrangement.flat
    let spacing := s.phase_spacing_mm
    match arrangement with
    | SingleCoreArrangement.flat => [(-spacing, 0), (0, 0), (spacing, 0)]
    | SingleCoreArrangement.trefoil =>
      let r := spacing / Real.sqrt 3
      [(0, 2 * (-r) / Real.sqrt 3), (-spacing / 2, r / 3), (spacing / 2, r / 3)]
  | CableSystemKind.multicore => [(0, 0)]

/-- `TrenchLayerKind` enum. -/
inductive TrenchLayerKind
  | ground
  | backfill
  | concrete
  | air
  | custom
  deriving DecidableEq

/-- `TrenchLayer` dataclass. -/
structure TrenchLayer where
  name : String
  kind : TrenchLayerKind
  thickness_mm : ℝ
  thermal_resistivity_k_m_per_w : ℝ

instance : DecidableEq TrenchLayer := fun _ _ => Classical.propDecidable _

/-- `SceneConfig` dataclass (fields used by the thermal engine). -/
structure SceneConfig where
  trench_width_mm : ℝ
  trench_depth_mm : ℝ
  surface_level_y : ℝ
  layers : List TrenchLayer

/-! ## Analytical calculator data (`gui/ampacity_calculator.py`) -/

/-- `CalculatorParams` dataclass. -/
structure CalculatorParams where
  ambient_temp_c : ℝ
  conductor_temp_c : ℝ
  dielectric_loss_w_per_m : ℝ
  sheath_loss_factor : ℝ
  armour_loss_factor : ℝ
  loaded_conductors : ℤ

/-- `CablePhaseInstance` dataclass.  `inst_id` models Python object identity of
the per-refresh instance objects (`other is target`), which are pairwise
distinct within a population. -/
structure CablePhaseInstance where
  inst_id : ℕ
  system : CableSystem
  phase_index : ℕ
  label : String
  position_mm : ℝ × ℝ
  outer_diameter_mm : Option ℝ

/-- `AmpacityResult` dataclass. -/
structure AmpacityResult where
  label : String
  system : CableSystem
  position_mm : ℝ × ℝ
  conductor_resistance_ohm_per_m : Option ℝ
  t1 : Option ℝ
  t2 : Option ℝ
  t3 : Option ℝ
  t4 : Option ℝ
  ampacity_a : Option ℝ
  issues : List String

/-- `CableAmpacityCalculator._conductor_resistance`. -/
def conductor_resistance (system : CableSystem) (conductor_temp_c : ℝ) :
    Option ℝ × List String :=
  match system.kind, system.single_core_phase with
  | CableSystemKind.singleCore, some phase =>
    let conductor := phase.conductor
    let area := max conductor.area_mm2 0
    if area ≤ 0 then (none, ["Conductor area must be positive."])
    else
      match conductor.electrical_resistivity with
      | none => (none, ["Conductor electrical resistivity unavailable."])
      | some resistivity =>
        let alpha := conductor.material.temp_coefficient_per_c.getD 0
        let rho_theta := resistivity * (1 + alpha * (conductor_temp_c - 20))
        let resistance := rho_theta / area
        if resistance ≤ 0 then (none, ["Computed conductor resistance is non-positive."])
        else (some resistance, [])
  | _, _ => (none, ["Ampacity calculator currently supports single-core systems only."])

/-- Resolution of a layer's thermal resistivity in `_sum_layer_resistances`:
`spec.thermal_resistivity()` already falls back to the material value, and the
source's second material lookup is therefore the same value. -/
def layer_rho (spec : LayerSpec) : Option ℝ :=
  match spec.thermal_resistivity with
  | some v => some v
  | none => spec.material.thermal_resistivity_k_m_per_w

/-- Printable role name (used in issue messages). -/
def roleText : LayerRole → String
  | LayerRole.innerScreen => "LayerRole.INNER_SCREEN"
  | LayerRole.insulation => "LayerRole.INSULATION"
  | LayerRole.outerScreen => "LayerRole.OUTER_SCREEN"
  | LayerRole.sheath => "LayerRole.SHEATH"
  | LayerRole.armour => "LayerRole.ARMOUR"
  | LayerRole.serving => "LayerRole.SERVING"
  | LayerRole.jacket => "LayerRole.JACKET"

/-- Issue message of `_sum_layer_resistances`. -/
def missing_rho_msg (label : String) (spec : LayerSpec) : String :=
  label ++ ": Missing thermal resistivity for " ++ roleText spec.role ++ "."

/-- Loop body of `_sum_layer_resistances` (accumulator = `total`). -/
def sum_layers_from (label : String) (acc : ℝ) :
    List (LayerSpec × ℝ × ℝ) → Option ℝ × List String
  | [] => (some acc, [])
  | (spec, inner_radius, outer_radius) :: rest =>
    match layer_rho spec with
    | none => (none, [missing_rho_msg label spec])
    | some rho =>
      if rho ≤ 0 then (none, [missing_rho_msg label spec])
      else if outer_radius ≤ inner_radius then sum_layers_from label acc rest
      else
        let inner_m := if 0 < inner_radius then inner_radius / 1000 else 1e-9
        let outer_m := outer_radius / 1000
        if outer_m ≤ inner_m then sum_layers_from label acc rest
        else sum_layers_from label (acc + (rho / (2 * Real.pi)) * Real.log (outer_m / inner_m)) rest

/-- `CableAmpacityCalculator._sum_layer_resistances`. -/
def sum_layer_resistances (layers : List (LayerSpec × ℝ × ℝ)) (label : String) :
    Option ℝ × List String :=
  match layers with
  | [] => (some 0, [])
  | _ => sum_layers_from label 0 layers

/-- `CableAmpacityCalculator._find_layer_index` (indices counted from `idx`). -/
def find_layer_index_from (role : LayerRole) (idx : ℕ) :
    List (LayerSpec × ℝ × ℝ) → Option ℕ
  | [] => none
  | (layer, _, _) :: rest =>
    if layer.role = role then some idx else find_layer_index_from role (idx + 1) rest

/-- `CableAmpacityCalculator._find_layer_index`. -/
def find_layer_index (profile : List (LayerSpec × ℝ × ℝ)) (role : LayerRole) : Option ℕ :=
  find_layer_index_from role 0 profile

/-- `CableAmpacityCalculator._radial_resistances`. -/
def radial_resistances (system : CableSystem) :
    (Option ℝ × Option ℝ × Option ℝ) × List String :=
  match system.kind, system.single_core_phase with
  | CableSystemKind.singleCore, some phase =>
    let profile := phase.radial_profile_mm
    match profile with
    | [] => ((none, none, none), ["Cable phase layers unavailable."])
    | _ =>
      let sheath_index := find_layer_index profile LayerRole.sheath
      let armour_index := find_layer_index profile LayerRole.armour
      let layers_before_sheath :=
        match sheath_index with
        | some i => profile.take i
        | none => profile
      let t1p := sum_layer_resistances layers_before_sheath ("T1")
      match sheath_index with
      | none =>
        -- No sheath present: only internal resistance is modelled (t3 layers empty).
        let t3p := sum_layer_resistances [] ("T3")
        ((t1p.1, some 0, t3p.1), t1p.2 ++ t3p.2)
      | some i =>
        match armour_index with
        | none =>
          -- Sheath present but no armour: T3 gathers everything from the sheath outward.
          let t3p := sum_layer_resistances (profile.drop i) ("T3")
          ((t1p.1, some 0, t3p.1), t1p.2 ++ t3p.2)
        | some j =>
          let t2p := sum_layer_resistances ((profile.take j).drop i) ("T2")
          let t3p := sum_layer_resistances (profile.drop j) ("T3")
          ((t1p.1, t2p.1, t3p.1), t1p.2 ++ t2p.2 ++ t3p.2)
  | _, _ => ((none, none, none), [])

/-- One loop iteration of `CableAmpacityCalculator._mutual_factor`. -/
def mutual_factor_step (target : CablePhaseInstance) (mirror_y : ℝ) (skip_id : Option ℕ)
    (acc : ℝ × List String) (other : CablePhaseInstance) : ℝ × List String :=
  if other.inst_id = target.inst_id then acc
  else if (match skip_id with | some s => other.system.identifier = s | none => False) then acc
  else
    let xp := target.position_mm.1
    let yp := target.position_mm.2
    let xo := other.position_mm.1
    let yo := other.position_mm.2
    let direct := Real.sqrt ((xp - xo) ^ 2 + (yp - yo) ^ 2)
    if direct ≤ 0 then
      -- Co-located phases share conduits; their mutual image contribution is ignored.
      acc
    else
      let image_distance := Real.sqrt ((xp - xo) ^ 2 + (mirror_y - yo) ^ 2)
      if image_distance ≤ 0 then
        (acc.1, acc.2 ++ ["Image distance invalid between " ++ target.label ++ " and " ++ other.label ++ "."])
      else (acc.1 * (image_distance / direct), acc.2)

/-- `CableAmpacityCalculator._mutual_factor` (skip by system identity). -/
def mutual_factor (target : CablePhaseInstance) (population : List CablePhaseInstance)
    (surface_level_y : ℝ) (skip_id : Option ℕ) : ℝ × List String :=
  population.foldl (mutual_factor_step target ((2 * surface_level_y) - target.position_mm.2) skip_id) (1, [])

/-- `_sheath_category`'s inner `_is_metallic` check. -/
def layer_is_metallic (phase : CablePhase) (role : LayerRole) : Prop :=
  match phase.get_layer role with
  | none => False
  | some layer =>
    match layer.material.electrical_resistivity_ohm_mm2_per_m with
    | none => False
    | some r => 0 < r ∧ r < 1

/-- `CableAmpacityCalculator._sheath_category` as a proposition (`= "metallic"`). -/
def sheath_is_metallic (system : CableSystem) : Prop :=
  match system.kind, system.single_core_phase with
  | CableSystemKind.singleCore, some phase =>
    layer_is_metallic phase LayerRole.sheath ∨ layer_is_metallic phase LayerRole.armour
  | _, _ => False

/-- All pairwise phase distances, in the iteration order of the source's
`min(...)` generator expression. -/
def pair_distances : List (ℝ × ℝ) → List ℝ
  | [] => []
  | (x1, y1) :: rest =>
    rest.map (fun p => Real.sqrt ((x1 - p.1) ^ 2 + (y1 - p.2) ^ 2)) ++ pair_distances rest

/-- `min_spacing` of `_grouped_direct_burial_resistance` (None when < 2 offsets). -/
def min_spacing_of (offsets : List (ℝ × ℝ)) : Option ℝ :=
  match pair_distances offsets with
  | [] => none
  | d :: ds => some (ds.foldl min d)

/-- `CableAmpacityCalculator._grouped_direct_burial_resistance`. -/
def grouped_direct_burial_resistance (system : CableSystem) (soil_resistivity u outer_diameter_mm : ℝ) :
    Option ℝ × List String :=
  match system.kind with
  | CableSystemKind.multicore => (none, [])
  | CableSystemKind.singleCore =>
    let arrangement := system.arrangement.getD SingleCoreArrangement.flat
    let offsets := system.phase_offsets_mm
    let phase_count := if offsets.length = 0 then 1 else offsets.length
    let not_touching :=
      if offsets ≠ [] ∧ 1 < offsets.length ∧ 0 < outer_diameter_mm then
        match min_spacing_of offsets with
        | some ms => 1.05 * outer_diameter_mm < ms
        | none => False
      else False
    if not_touching then (none, [])
    else if arrangement = SingleCoreArrangement.trefoil ∧ phase_count = 3 then
      if u ≤ 0 then (none, ["Invalid burial ratio for trefoil grouping."])
      else if sheath_is_metallic system then
        if 2 * u ≤ 0 then (none, ["Invalid logarithm argument for trefoil metallic T4."])
        else (some ((soil_resistivity / (1.5 * Real.pi)) * Real.log (2 * u) - 0.63 * soil_resistivity), [])
      else
        -- Treat part-metallic as metallic for conservatism (source comment).
        if u ≤ 0 then (none, ["Invalid burial ratio for trefoil grouping."])
        else (some ((soil_resistivity / (2 * Real.pi)) * (Real.log (2 * u) + Real.log u)), [])
    else if arrangement = SingleCoreArrangement.flat then
      if phase_count = 3 then
        if u < 5 then (none, [])
        else
          let argument :=
            if sheath_is_metallic system then 0.475 * Real.log (2 * u) - 0.346
            else 0.475 * Real.log (2 * u) - 0.142
          if argument ≤ 0 then (none, ["Invalid logarithm argument for flat grouping T4."])
          else (some (soil_resistivity * argument), [])
      else if phase_count = 2 then
        if u < 5 then (none, [])
        else
          let argument :=
            if sheath_is_metallic system then 1.5 * u - 0.45 else 0.95 * u - 0.29
          if argument ≤ 0 then (none, ["Invalid logarithm argument for flat grouping T4."])
          else (some ((soil_resistivity / Real.pi) * Real.log argument), [])
      else (none, [])
    else (none, [])

/-- `CableAmpacityCalculator._buried_medium_resistance`. -/
def buried_medium_resistance (outer_diameter_mm depth_mm soil_resistivity : ℝ)
    (instance_ : CablePhaseInstance) (population : List CablePhaseInstance)
    (surface_level_y : ℝ) (skip_id : Option ℕ) : Option ℝ × List String :=
  if depth_mm ≤ 0 then (none, ["Cable axis must be below surface for T4."])
  else if outer_diameter_mm ≤ 0 then (none, ["Outer diameter required for T4."])
  else
    let u := (2 * depth_mm) / outer_diameter_mm
    if u ≤ 1 then (none, ["Depth-to-diameter ratio too small for T4."])
    else
      let base_term := if 10 < u then 2 * u else u + Real.sqrt (u * u - 1)
      let mfp := mutual_factor instance_ population surface_level_y skip_id
      let log_arg := base_term * mfp.1
      if log_arg ≤ 0 then (none, mfp.2 ++ ["Invalid logarithm argument for T4."])
      else (some ((soil_resistivity / (2 * Real.pi)) * Real.log log_arg), mfp.2)

/-- `CableAmpacityCalculator._t4_direct_buried`. -/
def t4_direct_buried (instance_ : CablePhaseInstance) (population : List CablePhaseInstance)
    (surface_level_y outer_diameter_mm depth_mm soil_resistivity : ℝ) :
    Option ℝ × List String :=
  if soil_resistivity ≤ 0 then (none, ["Thermal resistivity for soil layer unavailable."])
  else
    let u := (2 * depth_mm) / outer_diameter_mm
    if u ≤ 1 then (none, ["Depth-to-diameter ratio too small for T4."])
    else
      let gp := grouped_direct_burial_resistance instance_.system soil_resistivity u outer_diameter_mm
      match gp.1 with
      | some group_term =>
        let mfp := mutual_factor instance_ population surface_level_y (some instance_.system.identifier)
        if mfp.1 ≤ 0 then (none, gp.2 ++ mfp.2 ++ ["Invalid logarithm argument for T4."])
        else if mfp.1 = 1 then (some group_term, gp.2 ++ mfp.2)
        else (some (group_term + (soil_resistivity / (2 * Real.pi)) * Real.log mfp.1), gp.2 ++ mfp.2)
      | none =>
        let bp := buried_medium_resistance outer_diameter_mm depth_mm soil_resistivity
          instance_ population surface_level_y none
        (bp.1, gp.2 ++ bp.2)

/-- `CableAmpacityCalculator._t4_air`. -/
def t4_air (depth_mm : ℝ) : Option ℝ × List String :=
  (none, ["Air installation thermal resistance requires additional ambient data."] ++
    (if 0 < depth_mm then ["Air branch selected but cable is below surface."] else []))

/-- `CableAmpacityCalculator._outer_diameter_mm`. -/
def outer_diameter_mm_of (system : CableSystem) : Option ℝ :=
  match system.kind, system.single_core_phase, system.multicore with
  | CableSystemKind.singleCore, some phase, _ => some phase.overall_diameter_mm
  | CableSystemKind.multicore, _, some mc => some mc.outer_diameter_mm
  | _, _, _ => none

/-- Python `instance.outer_diameter_mm or self._outer_diameter_mm(system)`:
falsy (`None` or `0.0`) falls back to the system-derived diameter. -/
def resolve_outer_diameter (instance_ : CablePhaseInstance) : Option ℝ :=
  match instance_.outer_diameter_mm with
  | some d => if d = 0 then outer_diameter_mm_of instance_.system else some d
  | none => outer_diameter_mm_of instance_.system

/-- `CableAmpacityCalculator._t4_trough`. -/
def t4_trough (instance_ : CablePhaseInstance) (soil_layer : Option TrenchLayer)
    (depth_mm : ℝ) (population : List CablePhaseInstance) (surface_level_y : ℝ) :
    Option ℝ × List String :=
  match soil_layer with
  | none => (none, ["Trough installation lacks surrounding material data."])
  | some layer =>
    if layer.kind = TrenchLayerKind.concrete then
      let resistivity := layer.thermal_resistivity_k_m_per_w
      let msg0 := ["Concrete trough modelling not yet implemented; treating as direct burial."]
      match resolve_outer_diameter instance_ with
      | none => (none, msg0 ++ ["Outer diameter required for trough model."])
      | some od =>
        if od ≤ 0 then (none, msg0 ++ ["Outer diameter required for trough model."])
        else
          let bp := buried_medium_resistance od depth_mm resistivity instance_ population surface_level_y none
          (bp.1, msg0 ++ bp.2)
    else (none, ["Open trough installations not supported; assuming ambient air cooling."])

/-- `CableAmpacityCalculator._t4_duct`. -/
def t4_duct (instance_ : CablePhaseInstance) (system : CableSystem) (duct : DuctSpecification)
    (soil_resistivity depth_mm : ℝ) (population : List CablePhaseInstance)
    (surface_level_y : ℝ) (params : CalculatorParams) : Option ℝ × List String :=
  if depth_mm ≤ 0 then (none, ["Cable axis must be below surface for T4."])
  else
    match system.kind, system.single_core_phase with
    | CableSystemKind.singleCore, some phase =>
      let cable_diameter_mm := phase.overall_diameter_mm
      if cable_diameter_mm ≤ 0 then (none, ["Cable diameter required for duct thermal model."])
      else
        let equivalent_diameter_m := duct.equivalent_cable_diameter_mm cable_diameter_mm / 1000
        if equivalent_diameter_m ≤ 0 then (none, ["Equivalent cable diameter for duct must be positive."])
        else
          let contact := duct.contact_constants
          if contact.u ≤ 0 then (none, ["Duct contact constant U must be positive."])
          else
            let medium_temp_c := duct.medium_temperature_c.getD params.ambient_temp_c
            let denominator := contact.denominator medium_temp_c
            if denominator ≤ 0 then (none, ["Duct contact denominator is non-positive."])
            else
              let t4_prime := contact.u / (1 + denominator * equivalent_diameter_m)
              let inner_m := duct.inner_diameter_mm / 1000
              let outer_m := duct.outer_diameter_mm / 1000
              if inner_m ≤ 0 ∨ outer_m ≤ inner_m then
                (none, ["Duct geometry invalid for wall thermal resistance."])
              else
                let rho_t := duct.material.thermal_resistivity_k_m_per_w
                if duct.material.is_metallic = false ∧ rho_t ≤ 0 then
                  (none, ["Thermal resistivity for duct material unavailable."])
                else
                  let t4_double_prime :=
                    if duct.material.is_metallic = false then
                      (rho_t / (2 * Real.pi)) * Real.log (outer_m / inner_m)
                    else 0
                  let bp := buried_medium_resistance duct.outer_diameter_mm depth_mm soil_resistivity
                    instance_ population surface_level_y none
                  match bp.1 with
                  | none => (none, bp.2)
                  | some t4_triple_prime => (some (t4_prime + t4_double_prime + t4_triple_prime), bp.2)
    | _, _ => (none, ["Duct modelling currently supports single-core systems only."])

/-- One candidate of `_find_adjacent_soil_layer`. -/
def adjacent_candidate (layers : List TrenchLayer) (ni : ℤ) : Option TrenchLayer :=
  if ni < 0 then none
  else
    match layers[ni.toNat]? with
    | none => none
    | some candidate =>
      if candidate.kind ≠ TrenchLayerKind.concrete ∧ 0 < candidate.thermal_resistivity_k_m_per_w then
        some candidate
      else none

/-- `CableAmpacityCalculator._find_adjacent_soil_layer` (`list.index` is value
equality in Python; dataclass equality is structural). -/
def find_adjacent_soil_layer (layers : List TrenchLayer) (target : TrenchLayer) : Option TrenchLayer :=
  match layers.findIdx? (fun l => decide (l = target)) with
  | none => none
  | some index =>
    match adjacent_candidate layers ((index : ℤ) + 1) with
    | some c => some c
    | none => adjacent_candidate layers ((index : ℤ) - 1)

/-- `CableAmpacityCalculator._equivalent_bank_radius`. -/
def equivalent_bank_radius (x_m y_m : ℝ) : ℝ :=
  let ratio := if y_m ≠ 0 then x_m / y_m else 0
  if y_m = 0 ∨ ratio ≤ 0 then -1
  else
    let term := 0.5 * ratio * (4 / Real.pi - ratio) * Real.log (1 + (y_m * y_m) / (x_m * x_m))
    Real.exp (term + Real.log (x_m / 2))

/-- `CableAmpacityCalculator._t4_concrete_duct`. -/
def t4_concrete_duct (instance_ : CablePhaseInstance) (system : CableSystem)
    (duct : DuctSpecification) (soil_layer : Option TrenchLayer) (depth_mm : ℝ)
    (population : List CablePhaseInstance) (surface_level_y : ℝ)
    (params : CalculatorParams) (config : SceneConfig) : Option ℝ × List String :=
  match soil_layer with
  | none => (none, [])
  | some layer =>
    if layer.kind ≠ TrenchLayerKind.concrete then (none, [])
    else
      let rho_c := layer.thermal_resistivity_k_m_per_w
      if rho_c ≤ 0 then (none, ["Concrete layer requires thermal resistivity."])
      else
        let surrounding := find_adjacent_soil_layer config.layers layer
        let rho_e := match surrounding with
          | some s => s.thermal_resistivity_k_m_per_w
          | none => rho_c
        match system.single_core_phase with
        | none => (none, ["Concrete duct bank requires single-core phase definition."])
        | some phase =>
          let cable_diameter_mm := phase.overall_diameter_mm
          let equivalent_diameter_m := duct.equivalent_cable_diameter_mm cable_diameter_mm / 1000
          if equivalent_diameter_m ≤ 0 then
            (none, ["Equivalent cable diameter for duct must be positive."])
          else
            let contact := duct.contact_constants
            let medium_temp_c := duct.medium_temperature_c.getD params.ambient_temp_c
            let denominator := contact.denominator medium_temp_c
            if denominator ≤ 0 then (none, ["Duct contact denominator is non-positive."])
            else
              let t4_prime := contact.u / (denominator * equivalent_diameter_m)
              let rho_t := duct.material.thermal_resistivity_k_m_per_w
              if duct.material.is_metallic = false ∧ rho_t ≤ 0 then
                (none, ["Thermal resistivity for duct material unavailable."])
              else
                let inner_m := duct.inner_diameter_mm / 1000
                let outer_m := duct.outer_diameter_mm / 1000
                if duct.material.is_metallic = false ∧ (inner_m ≤ 0 ∨ outer_m ≤ inner_m) then
                  (none, ["Duct geometry invalid for wall thermal resistance."])
                else
                  let duct_wall_term :=
                    if duct.material.is_metallic = false then
                      (rho_t / (2 * Real.pi)) * Real.log (outer_m / inner_m)
                    else 0
                  let x_m := config.trench_width_mm / 1000
                  let y_m := max layer.thickness_mm 0 / 1000
                  if x_m ≤ 0 ∨ y_m ≤ 0 then (none, ["Concrete duct bank dimensions invalid."])
                  else if 3 ≤ y_m / x_m then
                    (none, ["Concrete duct bank aspect ratio exceeds IEC correlation limit."])
                  else
                    let r_b := equivalent_bank_radius x_m y_m
                    if r_b ≤ 0 then (none, ["Equivalent duct bank radius invalid."])
                    else
                      let u_b := (depth_mm / 1000) / r_b
                      if u_b ≤ 1 then (none, ["Concrete duct bank burial ratio too small."])
                      else
                        let sqrt_term := Real.sqrt (u_b * u_b - 1)
                        let t4_concrete := (rho_c / (2 * Real.pi)) * Real.log (u_b + sqrt_term)
                        let n_loaded : ℝ := (max system.phase_offsets_mm.length 1 : ℕ)
                        let delta_t4 := (n_loaded / (2 * Real.pi)) * (rho_e - rho_c) * Real.log (u_b + sqrt_term)
                        let mfp := mutual_factor instance_ population surface_level_y (some instance_.system.identifier)
                        if mfp.1 ≤ 0 then
                          (none, mfp.2 ++ ["Invalid logarithm argument for concrete duct mutual factor."])
                        else
                          let adjustment :=
                            if mfp.1 ≠ 1 then (rho_e / (2 * Real.pi)) * Real.log mfp.1 else 0
                          (some (t4_prime + duct_wall_term + t4_concrete + delta_t4 + adjustment), mfp.2)

/-- `CableAmpacityCalculator._soil_layer_for_depth`. -/
def soil_layer_for_depth : List TrenchLayer → ℝ → Option TrenchLayer
  | [], _ => none
  | layer :: rest, remaining =>
    let thickness := max layer.thickness_mm 0
    if remaining ≤ thickness then some layer
    else
      match rest with
      | [] => some layer   -- `layers[-1]` fallback after the loop
      | r :: rs => soil_layer_for_depth (r :: rs) (remaining - thickness)

/-- Installation environment strings of `_determine_environment`. -/
inductive InstallEnvironment
  | air
  | duct
  | concreteDuct
  | trough
  | soil
  deriving DecidableEq

/-- Tail of `_determine_environment` when no valid duct is present. -/
def environment_no_duct (soil_layer : Option TrenchLayer) : InstallEnvironment :=
  match soil_layer with
  | some l =>
    if l.kind = TrenchLayerKind.air then InstallEnvironment.air
    else if l.kind = TrenchLayerKind.concrete then InstallEnvironment.trough
    else InstallEnvironment.soil
  | none => InstallEnvironment.soil

/-- `CableAmpacityCalculator._determine_environment`. -/
def determine_environment (system : CableSystem) (depth_mm : ℝ)
    (soil_layer : Option TrenchLayer) : InstallEnvironment :=
  if depth_mm ≤ 0 then InstallEnvironment.air
  else
    match system.duct with
    | some d =>
      if d.has_valid_geometry then
        match soil_layer with
        | some l =>
          if l.kind = TrenchLayerKind.concrete then InstallEnvironment.concreteDuct
          else InstallEnvironment.duct
        | none => InstallEnvironment.duct
      else environment_no_duct soil_layer
    | none => environment_no_duct soil_layer

/-- Shared tail of `_external_resistance` (the `SOIL` / fall-through path). -/
def external_soil_tail (instance_ : CablePhaseInstance) (population : List CablePhaseInstance)
    (surface_y depth_mm resistivity : ℝ) : Option ℝ × List String :=
  match resolve_outer_diameter instance_ with
  | none => (none, ["Outer diameter required for T4."])
  | some od =>
    if od ≤ 0 then (none, ["Outer diameter required for T4."])
    else if depth_mm ≤ 0 then (none, ["Cable axis must be below surface for T4."])
    else t4_direct_buried instance_ population surface_y od depth_mm resistivity

/-- `CableAmpacityCalculator._external_resistance`. -/
def external_resistance (instance_ : CablePhaseInstance) (population : List CablePhaseInstance)
    (params : CalculatorParams) (config : SceneConfig) : Option ℝ × List String :=
  let surface_y := config.surface_level_y
  let centre_y := instance_.position_mm.2
  let depth_mm := max (centre_y - surface_y) 0
  let soil_layer := soil_layer_for_depth config.layers depth_mm
  match soil_layer with
  | none => (none, ["Thermal resistivity for soil layer unavailable."])
  | some sl =>
    let resistivity := sl.thermal_resistivity_k_m_per_w
    if resistivity ≤ 0 then (none, ["Thermal resistivity for soil layer unavailable."])
    else
      let system := instance_.system
      match determine_environment system depth_mm soil_layer with
      | InstallEnvironment.air => t4_air depth_mm
      | InstallEnvironment.duct =>
        match system.duct with
        | some d => t4_duct instance_ system d resistivity depth_mm population surface_y params
        | none => external_soil_tail instance_ population surface_y depth_mm resistivity
      | InstallEnvironment.concreteDuct =>
        match system.duct with
        | some d =>
          let cp := t4_concrete_duct instance_ system d soil_layer depth_mm population surface_y params config
          match cp.1 with
          | some v => (some v, cp.2)
          | none =>
            -- Fall back to the standard duct model if concrete-specific data is incomplete.
            let dp := t4_duct instance_ system d resistivity depth_mm population surface_y params
            (dp.1, cp.2 ++ dp.2)
        | none => external_soil_tail instance_ population surface_y depth_mm resistivity
      | InstallEnvironment.trough => t4_trough instance_ soil_layer depth_mm population surface_y
      | InstallEnvironment.soil => external_soil_tail instance_ population surface_y depth_mm resistivity

/-- `Option ℝ` positivity test used by `valid_inputs`. -/
def opt_pos (o : Option ℝ) : Prop :=
  match o with
  | some v => 0 < v
  | none => False

/-- `Option ℝ` non-negativity test used by `valid_inputs`. -/
def opt_nonneg (o : Option ℝ) : Prop :=
  match o with
  | some v => 0 ≤ v
  | none => False

/-- The ampacity block of `CableAmpacityCalculator._compute_result` (everything
from the `delta_theta` computation to the final `ampacity` value), returning the
ampacity and the issues this block appends. -/
def ampacity_from_parts (params : CalculatorParams) (resistance t1 t2 t3 t4 : Option ℝ) :
    Option ℝ × List String :=
  let delta_theta := params.conductor_temp_c - params.ambient_temp_c
  let issues0 : List String :=
    if delta_theta ≤ 0 then ["Conductor temperature must exceed ambient."] else []
  let valid_inputs := opt_pos resistance ∧ opt_pos t1 ∧ opt_nonneg t3 ∧ opt_pos t4
  let n : ℝ := ((max params.loaded_conductors 1 : ℤ) : ℝ)
  if valid_inputs ∧ 0 < delta_theta then
    let wd_term := params.dielectric_loss_w_per_m *
      (0.5 * t1.getD 0 + n * (t2.getD 0 + t3.getD 0 + t4.getD 0))
    let numerator := delta_theta - wd_term
    let r_value := resistance.getD 0
    let t2_term := t2.getD 0
    let t3_t4 := t3.getD 0 + t4.getD 0
    let denominator := r_value * t1.getD 0
      + n * r_value * (1 + params.sheath_loss_factor) * t2_term
      + n * r_value * (1 + params.sheath_loss_factor + params.armour_loss_factor) * t3_t4
    if numerator ≤ 0 then (none, issues0 ++ ["Dielectric losses exceed allowable temperature rise."])
    else if denominator ≤ 0 then (none, issues0 ++ ["Invalid denominator for current calculation."])
    else (some (Real.sqrt (numerator / denominator)), issues0)
  else
    (none, issues0 ++
      (if resistance = none then ["Conductor resistance unavailable."] else []) ++
      (if t1 = none then ["Insulation resistance T1 unavailable."] else []) ++
      (if t3 = none then ["Outer cable resistance T3 unavailable."] else []) ++
      (if t4 = none then ["Soil resistance T4 unavailable."] else []))

/-- `CableAmpacityCalculator._compute_result`. -/
def compute_result (instance_ : CablePhaseInstance) (params : CalculatorParams)
    (population : List CablePhaseInstance) (config : SceneConfig) : AmpacityResult :=
  let rp := conductor_resistance instance_.system params.conductor_temp_c
  let lp := radial_resistances instance_.system
  let ep := external_resistance instance_ population params config
  let ap := ampacity_from_parts params rp.1 lp.1.1 lp.1.2.1 lp.1.2.2 ep.1
  { label := instance_.label
    system := instance_.system
    position_mm := instance_.position_mm
    conductor_resistance_ohm_per_m := rp.1
    t1 := lp.1.1
    t2 := lp.1.2.1
    t3 := lp.1.2.2
    t4 := ep.1
    ampacity_a := ap.1
    issues := rp.2 ++ lp.2 ++ ep.2 ++ ap.2 }

/-- The per-instance mapping of `refresh_from_scene`: one result per phase instance. -/
def compute_all (population : List CablePhaseInstance) (params : CalculatorParams)
    (config : SceneConfig) : List AmpacityResult :=
  population.map (fun inst => compute_result inst params population config)

/-- `_compute_result` with the calculator's mutable state made explicit: the
method reads `self._scene.config` and writes nothing, so the state is returned
unchanged. -/
def compute_result_stateful (state : SceneConfig) (instance_ : CablePhaseInstance)
    (params : CalculatorParams) (population : List CablePhaseInstance) :
    AmpacityResult × SceneConfig :=
  (compute_result instance_ params population state, state)

/-! ## Mesh builder (`fem/mesh_builder.py`) -/

/-- `_MIN_RESISTIVITY` (shared by `mesh_builder.py` and `analyzer.py`). -/
def MIN_RESISTIVITY : ℝ := 1e-5

/-- `_DEFAULT_LAYER_RESISTIVITY`. -/
def DEFAULT_LAYER_RESISTIVITY : ℝ := 1

/-- `_AIR_GAP_RESISTIVITY`. -/
def AIR_GAP_RESISTIVITY : ℝ := 25

/-- `CableLayerRegion` dataclass. -/
structure CableLayerRegion where
  name : String
  outer_radius_mm : ℝ
  thermal_resistivity_k_m_per_w : ℝ

/-- `MeshCableDefinition` dataclass. -/
structure MeshCableDefinition where
  label : String
  centre_x_mm : ℝ
  centre_y_mm : ℝ
  layers : List CableLayerRegion
  conductor_area_mm2 : ℝ
  conductor_resistivity_ohm_mm2_per_m : Option ℝ
  conductor_temp_coefficient_per_c : ℝ
  nominal_current_a : Option ℝ
  insulation_thickness_mm : Option ℝ
  layer_thicknesses_mm : List (LayerRole × ℝ)

/-- `MeshCableDefinition.conductor_radius_mm` property. -/
def MeshCableDefinition.conductor_radius_mm (c : MeshCableDefinition) : ℝ :=
  match c.layers with
  | [] => 0
  | l :: _ => l.outer_radius_mm

/-- `MeshCableDefinition.overall_radius_mm` property. -/
def MeshCableDefinition.overall_radius_mm (c : MeshCableDefinition) : ℝ :=
  match c.layers.getLast? with
  | none => 0
  | some l => l.outer_radius_mm

/-- `StructuredMesh` dataclass. -/
structure StructuredMesh where
  x_nodes_mm : List ℝ
  y_nodes_mm : List ℝ
  thermal_resistivity_k_m_per_w : List (List ℝ)
  conductor_index : List (List ℤ)
  surface_level_y : ℝ

/-- `MeshBuildOutput` dataclass. -/
structure MeshBuildOutput where
  mesh : StructuredMesh
  cables : List MeshCableDefinition

/-- `MeshDuctDefinition` dataclass. -/
structure MeshDuctDefinition where
  centre_x_mm : ℝ
  centre_y_mm : ℝ
  inner_radius_mm : ℝ
  outer_radius_mm : ℝ
  fill_resistivity_k_m_per_w : ℝ
  wall_resistivity_k_m_per_w : ℝ

/-- A `CableSystemItem` as seen by the builders: a system and its scene position. -/
structure PlacedSystem where
  system : CableSystem
  pos_x : ℝ
  pos_y : ℝ

/-- The `PlacementScene` data consumed by `build_structured_mesh`. -/
structure Scene where
  config : SceneConfig
  items : List PlacedSystem

/-- `_clamped_resistivity`. -/
def clamped_resistivity : Option ℝ → Option ℝ
  | none => none
  | some v => if v ≤ 0 then some MIN_RESISTIVITY else some v

/-- Python falsy `or` on two optional floats (`x or y`: `None`/`0.0` fall through). -/
def py_or_opt (a b : Option ℝ) : Option ℝ :=
  match a with
  | some v => if v = 0 then b else some v
  | none => b

/-- `_layer_label`. -/
def layer_label (layer_spec : LayerSpec) : String :=
  match layer_spec.role with
  | LayerRole.innerScreen => "Inner Screen"
  | LayerRole.insulation => "Insulation"
  | LayerRole.outerScreen => "Outer Screen"
  | LayerRole.sheath => "Sheath"
  | LayerRole.armour => "Armour"
  | LayerRole.serving => "Serving"
  | LayerRole.jacket => "Jacket"

/-- Loop of `_build_layers_from_phase` over the radial profile (argument:
`previous_radius`). -/
def build_layers_loop : List (LayerSpec × ℝ × ℝ) → ℝ → List CableLayerRegion × List (LayerRole × ℝ)
  | [], _ => ([], [])
  | (layer_spec, _, outer_radius) :: rest, previous_radius =>
    let res0 := clamped_resistivity layer_spec.thermal_resistivity
    let res1 :=
      match res0 with
      | some v => some v
      | none => clamped_resistivity layer_spec.material.thermal_resistivity_k_m_per_w
    let res := res1.getD DEFAULT_LAYER_RESISTIVITY
    let recp := build_layers_loop rest outer_radius
    (⟨layer_label layer_spec, outer_radius, res⟩ :: recp.1,
     (layer_spec.role, max (outer_radius - previous_radius) 0) :: recp.2)

/-- `_build_layers_from_phase`. -/
def build_layers_from_phase (phase : CablePhase) : List CableLayerRegion × List (LayerRole × ℝ) :=
  let conductor_radius := phase.conductor.diameter_mm / 2
  let conductor_res :=
    (clamped_resistivity
      (py_or_opt phase.conductor.thermal_resistivity
        phase.conductor.material.thermal_resistivity_k_m_per_w)).getD MIN_RESISTIVITY
  let loopp := build_layers_loop phase.radial_profile_mm conductor_radius
  (⟨"Conductor", conductor_radius, conductor_res⟩ :: loopp.1, loopp.2)

/-- `_find_layer_thickness`. -/
def find_layer_thickness : List (LayerRole × ℝ) → LayerRole → Option ℝ
  | [], _ => none
  | (role, thickness) :: rest, target =>
    if role = target then (if 0 < thickness then some thickness else none)
    else find_layer_thickness rest target

/-- In-place stretch of the last multicore region (`layers[-1].outer_radius_mm = ...`). -/
def stretch_last_region (layers : List CableLayerRegion) (outer_radius : ℝ) : List CableLayerRegion :=
  match layers.getLast? with
  | none => layers
  | some last =>
    if last.outer_radius_mm < outer_radius then
      layers.dropLast ++ [{ last with outer_radius_mm := outer_radius }]
    else layers

/-- `_build_cable_definition`. -/
def build_cable_definition (system : CableSystem) (label : String)
    (centre_x_mm centre_y_mm : ℝ) : Option MeshCableDefinition :=
  match system.kind, system.single_core_phase, system.multicore with
  | CableSystemKind.singleCore, some phase, _ =>
    let lp := build_layers_from_phase phase
    match lp.1 with
    | [] => none
    | _ =>
      some
        { label := label
          centre_x_mm := centre_x_mm
          centre_y_mm := centre_y_mm
          layers := lp.1
          conductor_area_mm2 := phase.conductor.area_mm2
          conductor_resistivity_ohm_mm2_per_m := phase.conductor.electrical_resistivity
          conductor_temp_coefficient_per_c := (phase.conductor.material.temp_coefficient_per_c).getD 0
          nominal_current_a := system.nominal_current_a
          insulation_thickness_mm := find_layer_thickness lp.2 LayerRole.insulation
          layer_thicknesses_mm := lp.2 }
  | CableSystemKind.multicore, _, some mc =>
    let phase := mc.phase
    let lp := build_layers_from_phase phase
    let outer_radius := mc.outer_diameter_mm / 2
    let layers0 :=
      match lp.1 with
      | [] => [⟨"Cable", outer_radius, DEFAULT_LAYER_RESISTIVITY⟩]
      | l :: ls => l :: ls
    let thicknesses :=
      match lp.1 with
      | [] => [(LayerRole.sheath, outer_radius)]
      | _ => lp.2
    let layers1 := stretch_last_region layers0 outer_radius
    some
      { label := label
        centre_x_mm := centre_x_mm
        centre_y_mm := centre_y_mm
        layers := layers1
        conductor_area_mm2 := phase.conductor.area_mm2
        conductor_resistivity_ohm_mm2_per_m := phase.conductor.electrical_resistivity
        conductor_temp_coefficient_per_c := (phase.conductor.material.temp_coefficient_per_c).getD 0
        nominal_current_a := system.nominal_current_a
        insulation_thickness_mm := find_layer_thickness thicknesses LayerRole.insulation
        layer_thicknesses_mm := thicknesses }
  | _, _, _ => none

/-- `_PHASE_LABELS` lookup. -/
def phase_label (index : ℕ) : String :=
  ["A", "B", "C"].getD (index % 3) ("A")

/-- `_phase_centres`. -/
def phase_centres (system : CableSystem) (item : PlacedSystem) : List (ℝ × ℝ) :=
  let offsets := match system.phase_offsets_mm with
    | [] => [((0 : ℝ), (0 : ℝ))]
    | o :: os => o :: os
  offsets.map (fun o => (item.pos_x + o.1, item.pos_y + o.2))

/-- `_collect_cables` for one item. -/
def collect_cables_item (item : PlacedSystem) : List MeshCableDefinition :=
  let system := item.system
  let positions := phase_centres system item
  ((positions.enum).filterMap (fun pc =>
    let label_suffix := if 1 < positions.length then phase_label pc.1 else ""
    let label := (system.name ++ " " ++ label_suffix).trim
    build_cable_definition system label pc.2.1 pc.2.2))

/-- `_collect_cables`. -/
def collect_cables (scene : Scene) : List MeshCableDefinition :=
  scene.items.flatMap collect_cables_item

/-- Lower-cased name contains `"water"`. -/
def name_contains_water (s : String) : Prop :=
  ((s.toLower).splitOn ("water")).length ≠ 1

/-- `_duct_fill_resistivity`. -/
def duct_fill_resistivity (duct : DuctSpecification) : ℝ :=
  if name_contains_water duct.material.name then duct.material.thermal_resistivity_k_m_per_w
  else if duct.material.is_metallic then 1
  else AIR_GAP_RESISTIVITY

/-- `_collect_ducts` for one item. -/
def collect_ducts_item (item : PlacedSystem) : List MeshDuctDefinition :=
  let system := item.system
  match system.duct with
  | none => []
  | some duct =>
    if ¬ duct.has_valid_geometry then []
    else
      let inner_radius := max (duct.inner_diameter_mm * 0.5) 0
      let outer_radius := max (duct.outer_diameter_mm * 0.5) inner_radius
      let wall_res := max duct.material.thermal_resistivity_k_m_per_w MIN_RESISTIVITY
      let fill_res := max (duct_fill_resistivity duct) MIN_RESISTIVITY
      let offsets := match system.phase_offsets_mm with
        | [] => [((0 : ℝ), (0 : ℝ))]
        | o :: os => o :: os
      let centres := offsets.map (fun o => (item.pos_x + o.1, item.pos_y + o.2))
      if duct.occupancy = DuctOccupancy.threePhasesPerDuct then
        let avg_x := (centres.map Prod.fst).sum / centres.length
        let avg_y := (centres.map Prod.snd).sum / centres.length
        [⟨avg_x, avg_y, inner_radius, outer_radius, fill_res, wall_res⟩]
      else
        centres.map (fun c => ⟨c.1, c.2, inner_radius, outer_radius, fill_res, wall_res⟩)

/-- `_collect_ducts`. -/
def collect_ducts (scene : Scene) : List MeshDuctDefinition :=
  scene.items.flatMap collect_ducts_item

/-- Minimum of a nonempty list modelled as Python `min(values)` (catch-all 0 is
unreachable at call sites). -/
def list_min : List ℝ → ℝ
  | [] => 0
  | v :: vs => vs.foldl min v

/-- Maximum of a nonempty list (Python `max(values)`). -/
def list_max : List ℝ → ℝ
  | [] => 0
  | v :: vs => vs.foldl max v

/-- `max(values, default)` (Python). -/
def list_max_default (l : List ℝ) (default : ℝ) : ℝ :=
  match l with
  | [] => default
  | v :: vs => vs.foldl max v

/-- `_minimum_gap_spacing` candidate list, in iteration order. -/
def gap_candidates : List MeshCableDefinition → List ℝ
  | [] => []
  | first :: rest =>
    (rest.filterMap (fun second =>
      let dx := first.centre_x_mm - second.centre_x_mm
      let dy := first.centre_y_mm - second.centre_y_mm
      let centre_distance := Real.sqrt (dx ^ 2 + dy ^ 2)
      let separation := centre_distance - (first.overall_radius_mm + second.overall_radius_mm)
      if separation ≤ 0 then none else some (separation * 0.15))) ++ gap_candidates rest

/-- `_minimum_gap_spacing`. -/
def minimum_gap_spacing (cables : List MeshCableDefinition) : Option ℝ :=
  match gap_candidates cables with
  | [] => none
  | c :: cs => some (cs.foldl min c)

/-- `_near_field_spacing`. -/
def near_field_spacing (cable : MeshCableDefinition) (gap_limit : Option ℝ) : ℝ :=
  let conductor_diameter :=
    match cable.layers with
    | [] => 0
    | l :: _ => l.outer_radius_mm * 2
  let c1 : List ℝ :=
    if 0 < conductor_diameter then
      let circumference := 2 * Real.pi * (conductor_diameter / 2)
      [conductor_diameter / 40] ++ (if 0 < circumference then [circumference / 96] else [])
    else []
  let c2 : List ℝ :=
    match cable.insulation_thickness_mm with
    | some ins => if 0 < ins then [ins / 12] else []
    | none => []
  let c3 : List ℝ :=
    cable.layer_thicknesses_mm.filterMap (fun rt =>
      if rt.2 ≤ 0 then none
      else some (rt.2 / (if rt.1 = LayerRole.insulation then (12 : ℝ) else 6)))
  let c4 : List ℝ :=
    match gap_limit with
    | some g => if 0 < g then [g] else []
    | none => []
  let candidates := (c1 ++ c2 ++ c3 ++ c4).filter (fun v => 0 < v)
  match candidates with
  | [] => 5
  | v :: vs => max 0.1 (vs.foldl min v)

/-- `_soil_spacing`. -/
def soil_spacing (cable : MeshCableDefinition) (default_far_spacing : ℝ) : ℝ :=
  max default_far_spacing (cable.overall_radius_mm * 2 * 0.5)

/-- One directional `while` loop of `_generate_axis_nodes` (fuel-bounded; the
source loop terminates because each step advances by at least the near
spacing). State: current `step` and `distance`. -/
def axis_positions_dir (center bound : ℝ) (positive : Bool)
    (growth far_spacing far_growth far_cap near_extent : ℝ) :
    ℕ → ℝ → ℝ → List ℝ
  | 0, _, _ => []
  | fuel + 1, step, distance =>
    let within := if positive then center + distance < bound - 1e-6 else bound + 1e-6 < center - distance
    if within then
      let pos := if positive then center + distance else center - distance
      let step1 :=
        if distance < near_extent then min (step * growth) far_spacing
        else min (step * far_growth) far_cap
      pos :: axis_positions_dir center bound positive growth far_spacing far_growth far_cap near_extent fuel step1 (distance + step1)
    else []

/-- Per-cable body of `_generate_axis_nodes`. -/
def axis_positions_for_cable (cable : MeshCableDefinition) (axis_is_x : Bool)
    (min_bound max_bound growth_factor : ℝ) (gap_limit : Option ℝ)
    (default_far_spacing : ℝ) (fuel : ℕ) : List ℝ :=
  let center := if axis_is_x then cable.centre_x_mm else cable.centre_y_mm
  let near_spacing := near_field_spacing cable gap_limit
  let far_spacing := max (soil_spacing cable default_far_spacing) near_spacing
  let far_growth_factor := max (growth_factor * 1.3) (growth_factor + 0.2)
  let near_extent := max (4 * cable.overall_radius_mm) 150
  let far_spacing_cap := max (far_spacing * 6) far_spacing
  center ::
    (axis_positions_dir center max_bound true growth_factor far_spacing far_growth_factor far_spacing_cap near_extent fuel near_spacing near_spacing ++
     axis_positions_dir center min_bound false growth_factor far_spacing far_growth_factor far_spacing_cap near_extent fuel near_spacing near_spacing)

/-- Ascending sort used for Python's `sorted(...)`. -/
def sortReal (l : List ℝ) : List ℝ := l.mergeSort

/-- `_generate_axis_nodes` (`sorted(set(positions))` = sort of dedup). -/
def generate_axis_nodes (cables : List MeshCableDefinition) (min_bound max_bound : ℝ)
    (axis_is_x : Bool) (growth_factor : ℝ) (gap_limit : Option ℝ)
    (default_far_spacing : ℝ) (fuel : ℕ) : List ℝ :=
  match cables with
  | [] => [min_bound, max_bound]
  | _ =>
    let positions := [min_bound, max_bound] ++
      cables.flatMap (fun cable =>
        axis_positions_for_cable cable axis_is_x min_bound max_bound growth_factor gap_limit default_far_spacing fuel)
    sortReal positions.dedup

/-- Fold step of `_uniformize_axis_nodes` (accumulator is the reversed result). -/
def uniformize_step (acc : List ℝ) (value : ℝ) : List ℝ :=
  match acc with
  | [] => [value]
  | last :: rest => if 1e-4 < value - last then value :: last :: rest else max last value :: rest

/-- Replace the head of a list (`result[-1] = ...` on the reversed list). -/
def set_head (l : List ℝ) (v : ℝ) : List ℝ :=
  match l with
  | [] => []
  | _ :: rest => v :: rest

/-- `_uniformize_axis_nodes`. -/
def uniformize_axis_nodes (nodes : List ℝ) : List ℝ :=
  match sortReal nodes with
  | [] => []
  | first :: rest =>
    let acc := rest.foldl uniformize_step [first]
    let sorted_last := rest.getLastD first
    (set_head acc sorted_last).reverse

/-- Cumulative layer bottom positions of `_relevant_y_positions`. -/
def cumulative_layer_positions (start : ℝ) : List TrenchLayer → List ℝ
  | [] => []
  | layer :: rest =>
    let c := start + max layer.thickness_mm 0
    c :: cumulative_layer_positions c rest

/-- `_relevant_y_positions`. -/
def relevant_y_positions (scene : Scene) (cables : List MeshCableDefinition) : List ℝ :=
  [scene.config.surface_level_y] ++
    cumulative_layer_positions scene.config.surface_level_y scene.config.layers ++
    cables.map (fun c => c.centre_y_mm)

/-- `_build_domain`. -/
def build_domain (scene : Scene) (cables : List MeshCableDefinition)
    (grid_step_mm padding_mm : ℝ) (fuel : ℕ) : List ℝ × List ℝ :=
  let half_trench_width := max (scene.config.trench_width_mm / 2) 10
  let surface_y := scene.config.surface_level_y
  let trench_depth := max scene.config.trench_depth_mm 10
  let bounds : ℝ × ℝ × ℝ × ℝ :=
    match cables with
    | [] =>
      (-half_trench_width - padding_mm, half_trench_width + padding_mm, surface_y,
        surface_y + max (trench_depth + padding_mm) (scene.config.trench_width_mm + 2 * padding_mm))
    | _ =>
      let cable_min_x := list_min (cables.map (fun c => c.centre_x_mm - c.overall_radius_mm))
      let cable_max_x := list_max (cables.map (fun c => c.centre_x_mm + c.overall_radius_mm))
      let max_radius := list_max_default (cables.map (fun c => c.overall_radius_mm)) 0
      let lateral_margin := max padding_mm (10 * max_radius)
      let min_x := min (cable_min_x - lateral_margin) (-half_trench_width - padding_mm)
      let max_x := max (cable_max_x + lateral_margin) (half_trench_width + padding_mm)
      let vertical_margin := max padding_mm (10 * max_radius)
      let cable_bottom := list_max (cables.map (fun c => c.centre_y_mm + vertical_margin))
      let domain_width := max (max_x - min_x) (grid_step_mm * 4)
      let trench_span := scene.config.trench_width_mm + 2 * padding_mm
      let target_depth := max (max (scene.config.trench_depth_mm + padding_mm) trench_span) domain_width
      (min_x, max_x, surface_y, max cable_bottom (surface_y + target_depth))
  let gap_limit := minimum_gap_spacing cables
  let growth : ℝ := 1.2
  let far_spacing := max grid_step_mm 10
  let x_nodes := generate_axis_nodes cables bounds.1 bounds.2.1 true growth gap_limit far_spacing fuel
  let y_nodes0 := generate_axis_nodes cables bounds.2.2.1 bounds.2.2.2 false growth gap_limit far_spacing fuel
  let y_nodes1 := if surface_y ∈ y_nodes0 then y_nodes0 else y_nodes0 ++ [surface_y]
  let bottom_trench := surface_y + trench_depth
  let y_nodes2 := if bottom_trench ∈ y_nodes1 then y_nodes1 else y_nodes1 ++ [bottom_trench]
  (uniformize_axis_nodes x_nodes, uniformize_axis_nodes y_nodes2)

/-- `min(abs(midpoint - ref) for ref in relevant)` (relevant nonempty at call sites). -/
def min_distance_to (x : ℝ) : List ℝ → ℝ
  | [] => 0
  | r :: rs => rs.foldl (fun m r1 => min m |x - r1|) |x - r|

/-- Subdivision points `a + step * idx`, `idx = 1 .. segments`. -/
def enforce_segments (a step : ℝ) (segments : ℕ) : List ℝ :=
  (List.range segments).map (fun (idx : ℕ) => a + step * ((idx : ℝ) + 1))

/-- One pass of `_enforce_spacing_growth` over consecutive node pairs; returns
the produced tail (everything after `current_nodes[0]`) and the `changed` flag. -/
def enforce_pass_aux (relevant : List ℝ) (growth_ratio min_step : ℝ) :
    List ℝ → List ℝ × Bool
  | [] => ([], false)
  | [_] => ([], false)
  | a :: b :: rest =>
    let tp := enforce_pass_aux relevant growth_ratio min_step (b :: rest)
    let interval := b - a
    if interval ≤ 0 then tp
    else
      let midpoint := (a + b) / 2
      let dist := min_distance_to midpoint relevant
      let allowed := max min_step (dist * growth_ratio)
      if interval ≤ allowed * (1 + 1e-9) then (b :: tp.1, tp.2)
      else
        let segments := max 1 (Int.ceil (interval / allowed)).toNat
        let step := interval / segments
        (enforce_segments a step segments ++ tp.1, true)

/-- One full pass of `_enforce_spacing_growth` (prepends `current_nodes[0]`). -/
def enforce_pass (relevant : List ℝ) (growth_ratio min_step : ℝ) (nodes : List ℝ) :
    List ℝ × Bool :=
  match nodes with
  | [] => ([], false)
  | first :: _ =>
    let tp := enforce_pass_aux relevant growth_ratio min_step nodes
    (first :: tp.1, tp.2)

/-- The `while changed` loop of `_enforce_spacing_growth` (fuel-bounded; the
source loop terminates because interval lengths are bounded below). -/
def enforce_loop (relevant : List ℝ) (growth_ratio min_step : ℝ) :
    ℕ → List ℝ → List ℝ
  | 0, current => current
  | fuel + 1, current =>
    let np := enforce_pass relevant growth_ratio min_step current
    if np.2 then enforce_loop relevant growth_ratio min_step fuel np.1 else np.1

/-- `_enforce_spacing_growth`. -/
def enforce_spacing_growth (nodes relevant_positions : List ℝ)
    (growth_ratio min_step : ℝ) (fuel : ℕ) : List ℝ :=
  if nodes.length < 2 then nodes
  else if growth_ratio ≤ 0 ∨ relevant_positions = [] then nodes
  else
    let current := sortReal nodes.dedup
    let relevant := sortReal ((relevant_positions ++ [current.headD 0, current.getLastD 0]).dedup)
    let min_step1 := max min_step 1e-6
    enforce_loop relevant growth_ratio min_step1 fuel current

/-- `_cell_centres`. -/
def cell_centres : List ℝ → List ℝ
  | [] => []
  | [_] => []
  | a :: b :: rest => ((a + b) / 2) :: cell_centres (b :: rest)

/-- Loop of `_resistivity_for_depth` (returns `none` when the loop falls through). -/
def resistivity_depth_loop (default_res : ℝ) : List TrenchLayer → ℝ → Option ℝ
  | [], _ => none
  | layer :: rest, remaining =>
    let thickness := max layer.thickness_mm 0
    if remaining ≤ thickness then
      some (max ((clamped_resistivity (some layer.thermal_resistivity_k_m_per_w)).getD default_res) MIN_RESISTIVITY)
    else resistivity_depth_loop default_res rest (remaining - thickness)

/-- `_resistivity_for_depth`. -/
def resistivity_for_depth (layers : List TrenchLayer) (depth_mm default_res : ℝ) : ℝ :=
  match layers with
  | [] => max default_res MIN_RESISTIVITY
  | first :: _ =>
    if depth_mm < 0 then
      max ((clamped_resistivity (some first.thermal_resistivity_k_m_per_w)).getD default_res) MIN_RESISTIVITY
    else
      match resistivity_depth_loop default_res layers depth_mm with
      | some v => v
      | none =>
        max ((clamped_resistivity (some ((layers.getLastD first).thermal_resistivity_k_m_per_w))).getD default_res) MIN_RESISTIVITY

/-- `_build_base_resistivity`. -/
def build_base_resistivity (layers : List TrenchLayer) (x_nodes_mm y_nodes_mm : List ℝ)
    (surface_level_y default_res : ℝ) : List (List ℝ) :=
  (cell_centres y_nodes_mm).map (fun cy =>
    let layer_resistivity := resistivity_for_depth layers (cy - surface_level_y) default_res
    (cell_centres x_nodes_mm).map (fun _ => layer_resistivity))

/-- Per-cell update of `_apply_duct_regions` for one duct. -/
def duct_cell_update (duct : MeshDuctDefinition) (xs ys : List ℝ) (j i : ℕ) (v : ℝ) : ℝ :=
  let inner_radius := max duct.inner_radius_mm 0
  let outer_radius := max duct.outer_radius_mm inner_radius
  let fill_res := max duct.fill_resistivity_k_m_per_w MIN_RESISTIVITY
  let wall_res := max duct.wall_resistivity_k_m_per_w MIN_RESISTIVITY
  let cx := (xs.getD i 0 + xs.getD (i + 1) 0) / 2
  let cy := (ys.getD j 0 + ys.getD (j + 1) 0) / 2
  if (duct.centre_x_mm - outer_radius - 1e-6 ≤ cx ∧ cx ≤ duct.centre_x_mm + outer_radius + 1e-6) ∧
     (duct.centre_y_mm - outer_radius - 1e-6 ≤ cy ∧ cy ≤ duct.centre_y_mm + outer_radius + 1e-6) then
    let distance := Real.sqrt ((cx - duct.centre_x_mm) ^ 2 + (cy - duct.centre_y_mm) ^ 2)
    let half_width := 0.5 * (xs.getD (i + 1) 0 - xs.getD i 0)
    let half_height := 0.5 * (ys.getD (j + 1) 0 - ys.getD j 0)
    let half_diag := Real.sqrt (half_width ^ 2 + half_height ^ 2)
    if outer_radius + half_diag < distance then v
    else if distance ≤ inner_radius + half_diag then fill_res
    else wall_res
  else v

/-- `_apply_duct_regions` (sequential in-place updates as a fold). -/
def apply_duct_regions (ducts : List MeshDuctDefinition) (xs ys : List ℝ)
    (resistivity : List (List ℝ)) : List (List ℝ) :=
  ducts.foldl (fun grid duct =>
    grid.mapIdx (fun j row => row.mapIdx (fun i v => duct_cell_update duct xs ys j i v))) resistivity

/-- `_region_resistivity` (empty layer list unreachable at call sites). -/
def region_resistivity : List CableLayerRegion → ℝ → ℝ
  | [], _ => MIN_RESISTIVITY
  | layer :: rest, radius_mm =>
    if radius_mm ≤ layer.outer_radius_mm + 1e-9 then
      max layer.thermal_resistivity_k_m_per_w MIN_RESISTIVITY
    else
      match rest with
      | [] => max layer.thermal_resistivity_k_m_per_w MIN_RESISTIVITY
      | r :: rs => region_resistivity (r :: rs) radius_mm

/-- Geometric test of `_apply_cable_regions` for one cell: inside the bounding
box and within `overall_radius + half_diag` of the centre. -/
def cable_cell_hit (cable : MeshCableDefinition) (xs ys : List ℝ) (j i : ℕ) : Prop :=
  let overall_radius := cable.overall_radius_mm
  let cx := (xs.getD i 0 + xs.getD (i + 1) 0) / 2
  let cy := (ys.getD j 0 + ys.getD (j + 1) 0) / 2
  (cable.centre_x_mm - overall_radius - 1e-6 ≤ cx ∧ cx ≤ cable.centre_x_mm + overall_radius + 1e-6) ∧
  (cable.centre_y_mm - overall_radius - 1e-6 ≤ cy ∧ cy ≤ cable.centre_y_mm + overall_radius + 1e-6) ∧
  Real.sqrt ((cx - cable.centre_x_mm) ^ 2 + (cy - cable.centre_y_mm) ^ 2) ≤
    overall_radius + Real.sqrt ((0.5 * (xs.getD (i + 1) 0 - xs.getD i 0)) ^ 2 +
      (0.5 * (ys.getD (j + 1) 0 - ys.getD j 0)) ^ 2)

/-- Cell distance to the cable centre. -/
def cable_cell_distance (cable : MeshCableDefinition) (xs ys : List ℝ) (j i : ℕ) : ℝ :=
  let cx := (xs.getD i 0 + xs.getD (i + 1) 0) / 2
  let cy := (ys.getD j 0 + ys.getD (j + 1) 0) / 2
  Real.sqrt ((cx - cable.centre_x_mm) ^ 2 + (cy - cable.centre_y_mm) ^ 2)

/-- `_apply_cable_regions` for one cable (updates resistivity and ownership). -/
def apply_cable_regions (cable : MeshCableDefinition) (xs ys : List ℝ)
    (resistivity : List (List ℝ)) (conductor_index : List (List ℤ)) (cable_idx : ℤ) :
    List (List ℝ) × List (List ℤ) :=
  match cable.layers with
  | [] => (resistivity, conductor_index)
  | _ =>
    if cable.overall_radius_mm ≤ 0 then (resistivity, conductor_index)
    else
      (resistivity.mapIdx (fun j row => row.mapIdx (fun i v =>
         if cable_cell_hit cable xs ys j i then
           region_resistivity cable.layers (cable_cell_distance cable xs ys j i)
         else v)),
       conductor_index.mapIdx (fun j row => row.mapIdx (fun i w =>
         if cable_cell_hit cable xs ys j i ∧
            cable_cell_distance cable xs ys j i ≤ cable.conductor_radius_mm +
              Real.sqrt ((0.5 * (xs.getD (i + 1) 0 - xs.getD i 0)) ^ 2 +
                (0.5 * (ys.getD (j + 1) 0 - ys.getD j 0)) ^ 2) then cable_idx
         else w)))

/-- The `for idx, cable in enumerate(cables)` loop of `build_structured_mesh`. -/
def apply_all_cables (cables : List MeshCableDefinition) (xs ys : List ℝ)
    (resistivity : List (List ℝ)) (conductor_index : List (List ℤ)) :
    List (List ℝ) × List (List ℤ) :=
  (cables.enum).foldl
    (fun grids ci => apply_cable_regions ci.2 xs ys grids.1 grids.2 (ci.1 : ℤ))
    (resistivity, conductor_index)

/-- `x_relevant` of `build_structured_mesh`. -/
def x_relevant_positions (cables : List MeshCableDefinition) (ducts : List MeshDuctDefinition) : List ℝ :=
  cables.map (fun c => c.centre_x_mm) ++
    cables.flatMap (fun c =>
      if 0 < c.overall_radius_mm then
        [c.centre_x_mm - c.overall_radius_mm, c.centre_x_mm + c.overall_radius_mm]
      else []) ++
    ducts.map (fun d => d.centre_x_mm) ++
    ducts.flatMap (fun d => [d.centre_x_mm - d.outer_radius_mm, d.centre_x_mm + d.outer_radius_mm])

/-- `y_relevant` of `build_structured_mesh`. -/
def y_relevant_positions (scene : Scene) (cables : List MeshCableDefinition)
    (ducts : List MeshDuctDefinition) : List ℝ :=
  relevant_y_positions scene cables ++
    cables.flatMap (fun c =>
      if 0 < c.overall_radius_mm then
        [c.centre_y_mm - c.overall_radius_mm, c.centre_y_mm + c.overall_radius_mm]
      else []) ++
    ducts.flatMap (fun d =>
      [d.centre_y_mm - d.outer_radius_mm, d.centre_y_mm - d.inner_radius_mm,
       d.centre_y_mm + d.inner_radius_mm, d.centre_y_mm + d.outer_radius_mm])

/-- `build_structured_mesh` (raising `ValueError` modelled as `Except.error`). -/
def build_structured_mesh (scene : Scene) (grid_step_mm0 padding_mm0 max_growth_ratio0 default_resistivity : ℝ)
    (fuel_axis fuel_enforce : ℕ) : Except String MeshBuildOutput :=
  let grid_step_mm := max grid_step_mm0 5
  let padding_mm := max padding_mm0 50
  let max_growth_ratio := max max_growth_ratio0 0
  let cables := collect_cables scene
  let ducts := collect_ducts scene
  let dp := build_domain scene cables grid_step_mm padding_mm fuel_axis
  if dp.1.length < 2 ∨ dp.2.length < 2 then
    Except.error ("FEM mesh domain is degenerate; adjust grid spacing or padding.")
  else
    let x_nodes := uniformize_axis_nodes
      (enforce_spacing_growth dp.1 (x_relevant_positions cables ducts) max_growth_ratio grid_step_mm fuel_enforce)
    let y_nodes := uniformize_axis_nodes
      (enforce_spacing_growth dp.2 (y_relevant_positions scene cables ducts) max_growth_ratio grid_step_mm fuel_enforce)
    let base := build_base_resistivity scene.config.layers x_nodes y_nodes
      scene.config.surface_level_y default_resistivity
    let base1 := match ducts with
      | [] => base
      | _ => apply_duct_regions ducts x_nodes y_nodes base
    let conductor_index0 : List (List ℤ) :=
      (cell_centres y_nodes).map (fun _ => (cell_centres x_nodes).map (fun _ => (-1 : ℤ)))
    let grids := apply_all_cables cables x_nodes y_nodes base1 conductor_index0
    Except.ok
      { mesh :=
          { x_nodes_mm := x_nodes
            y_nodes_mm := y_nodes
            thermal_resistivity_k_m_per_w := grids.1
            conductor_index := grids.2
            surface_level_y := scene.config.surface_level_y }
        cables := cables }

/-! ## FEM analyzer (`fem/analyzer.py`) -/

/-- `CableTemperature` dataclass. -/
structure CableTemperature where
  label : String
  max_temp_c : ℝ
  average_temp_c : ℝ

/-- `CableLoad` dataclass. -/
structure CableLoad where
  definition : MeshCableDefinition
  heat_w_per_m : ℝ
  auto_update : Bool

/-- The input-validation prefix of `CableFemAnalyzer.solve` (lines raising
`ValueError`), followed by the conductivity inversion
`1 / max(resistivity, _MIN_RESISTIVITY)`.  The rest of `solve` (sparse FEM
assembly and linear algebra) is outside the embedded fragment. -/
def solve_validate (mesh : StructuredMesh) : Except String (List (List ℝ)) :=
  let ny := mesh.y_nodes_mm.length
  let nx := mesh.x_nodes_mm.length
  if ny < 2 ∨ nx < 2 then
    Except.error ("FEM mesh must contain at least a 2x2 grid of nodes.")
  else if ¬ (mesh.thermal_resistivity_k_m_per_w.length = ny - 1 ∧
      ∀ row ∈ mesh.thermal_resistivity_k_m_per_w, row.length = nx - 1) then
    Except.error ("Thermal resistivity array dimensions do not match the mesh.")
  else if ¬ (mesh.conductor_index.length = ny - 1 ∧
      ∀ row ∈ mesh.conductor_index, row.length = nx - 1) then
    Except.error ("Conductor index array dimensions do not match the mesh.")
  else if ¬ (mesh.x_nodes_mm.Chain' (· < ·) ∧ mesh.y_nodes_mm.Chain' (· < ·)) then
    Except.error ("Mesh nodes must increase monotonically.")
  else
    Except.ok (mesh.thermal_resistivity_k_m_per_w.map (fun row =>
      row.map (fun rho => 1 / max rho MIN_RESISTIVITY)))

/-- `heat_values = [max(load.heat_w_per_m, 0.0) for load in loads]`. -/
def initial_heat_values (loads : List CableLoad) : List ℝ :=
  loads.map (fun load => max load.heat_w_per_m 0)

/-- `_conductor_area`. -/
def conductor_area (conductor_index : List (List ℤ)) (target_index : ℤ)
    (dx_values dy_values : List ℝ) : ℝ :=
  ((conductor_index.enum).map (fun jrow =>
    if dy_values.length ≤ jrow.1 then 0
    else
      let dy := dy_values.getD jrow.1 0 / 1000
      ((jrow.2.enum).map (fun iv =>
        if dx_values.length ≤ iv.1 then 0
        else if iv.2 = target_index then (dx_values.getD iv.1 0 / 1000) * dy
        else 0)).sum)).sum

/-- Heat-density contribution of one load to one cell in `_populate_heat_cells`. -/
def load_heat_contribution (conductor_index : List (List ℤ)) (dx_values dy_values : List ℝ)
    (idx : ℕ) (heat : ℝ) (j i : ℕ) : ℝ :=
  if heat ≤ 0 then 0
  else
    let area_m2 := conductor_area conductor_index (idx : ℤ) dx_values dy_values
    if area_m2 ≤ 0 then 0
    else if (conductor_index.getD j []).getD i 0 = (idx : ℤ) then heat / area_m2
    else 0

/-- `_populate_heat_cells` (zeroed grid plus accumulated contributions). -/
def populate_heat_cells (conductor_index : List (List ℤ)) (heat_values : List ℝ)
    (dx_values dy_values : List ℝ) (ny nx : ℕ) : List (List ℝ) :=
  (List.range ny).map (fun j => (List.range nx).map (fun i =>
    ((heat_values.enum).map (fun he =>
      load_heat_contribution conductor_index dx_values dy_values he.1 he.2 j i)).sum))

/-- `_temperature_dependent_resistance`. -/
def temperature_dependent_resistance (definition : MeshCableDefinition) (temperature_c : ℝ) :
    Option ℝ :=
  let area := max definition.conductor_area_mm2 0
  match definition.conductor_resistivity_ohm_mm2_per_m with
  | none => none
  | some resistivity =>
    if area ≤ 0 ∨ resistivity ≤ 0 then none
    else
      let alpha := definition.conductor_temp_coefficient_per_c
      let rho_theta := resistivity * (1 + alpha * (temperature_c - 20))
      let resistance := rho_theta / area
      if 0 < resistance then some resistance else none

/-- `temp_map` lookup (`dict` comprehension: the last entry with a label wins). -/
def temp_lookup (temps : List CableTemperature) (label : String) : Option CableTemperature :=
  (temps.reverse).find? (fun e => e.label == label)

/-- One `_update_heat_values` entry. -/
def update_heat_entry (load : CableLoad) (temps : List CableTemperature) (tolerance h : ℝ) : ℝ :=
  if load.auto_update = false then h
  else
    match load.definition.nominal_current_a with
    | none => h
    | some current =>
      if current ≤ 0 then h
      else
        match temp_lookup temps load.definition.label with
        | none => h
        | some temp_info =>
          match temperature_dependent_resistance load.definition temp_info.max_temp_c with
          | none => h
          | some resistance =>
            let new_heat := max (current ^ 2 * resistance) 0
            if tolerance < |new_heat - h| then new_heat else h

/-- `_update_heat_values` (in-place list mutation as a rebuild; `heat_values`
and `loads` have equal length at the call site in `solve`). -/
def update_heat_values (heat_values : List ℝ) (loads : List CableLoad)
    (temps : List CableTemperature) (tolerance : ℝ) : List ℝ :=
  (heat_values.zip loads).map (fun hl => update_heat_entry hl.2 temps tolerance hl.1) ++
    heat_values.drop loads.length

/-- The heat-value state across outer iterations of `solve`, for an arbitrary
sequence of solver-produced cable temperatures (the linear solves themselves
are outside the embedded fragment). -/
def heat_values_after (loads : List CableLoad) (tolerance : ℝ)
    (temps_seq : List (List CableTemperature)) : List ℝ :=
  temps_seq.foldl (fun hv temps => update_heat_values hv loads temps tolerance)
    (initial_heat_values loads)

/-! ## Concrete example data (used by witnesses and counterexamples) -/

/-- A copper-like conductor material (electrical resistivity chosen so the
conductor resistance is a round number). -/
def exMaterialCu : Material := ⟨"Copper", some 24, none, none⟩

/-- 240 mm², 20 mm diameter conductor. -/
def exConductor : ConductorSpec := ⟨240, 20, exMaterialCu, none, none⟩

/-- A PVC-like insulating material with thermal resistivity 6. -/
def exPvc : Material := ⟨"PVC", none, some 6, none⟩

/-- A sheath layer of thickness 2 mm. -/
def exSheathLayer : LayerSpec := ⟨LayerRole.sheath, 2, exPvc, none, none⟩

/-- A phase whose FIRST radial layer is the sheath (no insulation layer before
it), so the T1 group is empty. -/
def exPhaseSheathOnly : CablePhase := ⟨"P", exConductor, [exSheathLayer]⟩

/-- Flat single-core system around `exPhaseSheathOnly`, no duct. -/
def exSystemA : CableSystem :=
  ⟨1, "SysA", CableSystemKind.singleCore, 100, some SingleCoreArrangement.flat,
    some exPhaseSheathOnly, none, none, none⟩

/-- Default trench soil layer (1200 mm of 1.5 K·m/W ground). -/
def exGround : TrenchLayer := ⟨"Native Soil", TrenchLayerKind.ground, 1200, 1.5⟩

/-- Scene configuration: surface at y = 0, one ground layer. -/
def exConfig : SceneConfig := ⟨1200, 1200, 0, [exGround]⟩

/-- Phase instance of `exSystemA` buried 600 mm deep, outer diameter 24 mm. -/
def exInstanceA : CablePhaseInstance := ⟨0, exSystemA, 0, "SysA", (0, 600), some 24⟩

/-- Default-like calculator parameters (ambient 20 °C, conductor 90 °C, three
loaded conductors). -/
def exParamsA : CalculatorParams := ⟨20, 90, 0, 0, 0, 3⟩

/-- Parameters for the ampacity-formula counterexample: ambient 20 °C,
conductor 23 °C, two loaded conductors, no dielectric loss, zero loss factors. -/
def exParamsC1 : CalculatorParams := ⟨20, 23, 0, 0, 0, 2⟩

/-- A large phase: 100 mm conductor with 30 mm insulation (overall 160 mm). -/
def exPhaseBig : CablePhase := ⟨"P", ⟨240, 100, exMaterialCu, none, none⟩, [⟨LayerRole.insulation, 30, exPvc, none, none⟩]⟩

/-- Flat single-core system with 150 mm spacing: touching (150 ≤ 1.05·160). -/
def exSystemTouch : CableSystem :=
  ⟨2, "SysT", CableSystemKind.singleCore, 150, some SingleCoreArrangement.flat,
    some exPhaseBig, none, none, none⟩

/-- Instance of the touching system at 200 mm depth (u = 2.5). -/
def exInstanceT : CablePhaseInstance := ⟨0, exSystemTouch, 0, "SysT", (0, 200), some 160⟩

/-- Same cable with 600 mm spacing: not touching (600 > 1.05·160). -/
def exSystemFar : CableSystem :=
  ⟨3, "SysF", CableSystemKind.singleCore, 600, some SingleCoreArrangement.flat,
    some exPhaseBig, none, none, none⟩

/-- Instance of the non-touching system at 200 mm depth. -/
def exInstanceF : CablePhaseInstance := ⟨0, exSystemFar, 0, "SysF", (0, 200), some 160⟩

/-- Plastic duct contact constants (U = 1.87, V = 0.312, Y = 0.003). -/
def exHdpeContact : DuctContactConstants := ⟨1.87, 0.312, 0.003⟩

/-- HDPE duct material: thermal resistivity 3.5, non-metallic. -/
def exHdpe : DuctMaterial := ⟨"HDPE", 3.5, false, exHdpeContact⟩

/-- A 150 mm ID / 5 mm wall HDPE duct holding all three phases, medium 20 °C. -/
def exDuct : DuctSpecification :=
  ⟨exHdpe, 150, 5, DuctOccupancy.threePhasesPerDuct, none, some 20⟩

/-- 20 mm conductor with 5 mm insulation: overall diameter 30 mm. -/
def exPhaseDuct : CablePhase := ⟨"P", exConductor, [⟨LayerRole.insulation, 5, exPvc, none, none⟩]⟩

/-- Single-core flat system, spacing 300 mm, inside `exDuct` (three phases in
the same duct). -/
def exSystemDuct : CableSystem :=
  ⟨7, "SysD", CableSystemKind.singleCore, 300, some SingleCoreArrangement.flat,
    some exPhaseDuct, none, none, some exDuct⟩

/-- Phase A of `exSystemDuct`, 200 mm deep at x = −300. -/
def exInstD0 : CablePhaseInstance := ⟨0, exSystemDuct, 0, "SysD A", (-300, 200), some 30⟩

/-- Phase B of `exSystemDuct`, 200 mm deep at x = 0 (the target). -/
def exInstD1 : CablePhaseInstance := ⟨1, exSystemDuct, 1, "SysD B", (0, 200), some 30⟩

/-- Phase C of `exSystemDuct`, 200 mm deep at x = 300. -/
def exInstD2 : CablePhaseInstance := ⟨2, exSystemDuct, 2, "SysD C", (300, 200), some 30⟩

/-- The three phases of `exSystemDuct`. -/
def exPopD : List CablePhaseInstance := [exInstD0, exInstD1, exInstD2]

/-- The per-phase factor of the method-of-images product: excluded phases (the
target itself, a skipped system, co-located pairs, zero image distances)
contribute 1, every other phase contributes image distance / direct distance. -/
def image_factor (target : CablePhaseInstance) (surface_level_y : ℝ) (skip_id : Option ℕ)
    (o : CablePhaseInstance) : ℝ :=
  if o.inst_id = target.inst_id then 1
  else if (match skip_id with | some s => o.system.identifier = s | none => False) then 1
  else
    let direct := Real.sqrt ((target.position_mm.1 - o.position_mm.1) ^ 2 +
      (target.position_mm.2 - o.position_mm.2) ^ 2)
    if direct ≤ 0 then 1
    else
      let image := Real.sqrt ((target.position_mm.1 - o.position_mm.1) ^ 2 +
        (((2 * surface_level_y) - target.position_mm.2) - o.position_mm.2) ^ 2)
      if image ≤ 0 then 1 else image / direct

/-- A steel-like armour material (thermal resistivity 0.3). -/
def exArmourMat : Material := ⟨"Steel", some 0.2, some 0.3, none⟩

/-- A full radial stack: insulation (10→15), sheath (15→17), armour (17→19),
jacket (19→22). -/
def exPhaseFull : CablePhase :=
  ⟨"P", exConductor,
    [⟨LayerRole.insulation, 5, exPvc, none, none⟩,
     ⟨LayerRole.sheath, 2, exPvc, none, none⟩,
     ⟨LayerRole.armour, 2, exArmourMat, none, none⟩,
     ⟨LayerRole.jacket, 3, exPvc, none, none⟩]⟩

/-- Single-core system around the full radial stack. -/
def exSystemFull : CableSystem :=
  ⟨4, "SysFull", CableSystemKind.singleCore, 100, some SingleCoreArrangement.flat,
    some exPhaseFull, none, none, none⟩

/-- A multicore system with no multicore cable data: every helper fails with an
issue. -/
def exSystemM : CableSystem :=
  ⟨9, "SysM", CableSystemKind.multicore, 0, none, none, none, none, none⟩

/-- Instance of the degenerate multicore system, 600 mm deep. -/
def exInstanceM : CablePhaseInstance := ⟨0, exSystemM, 0, "SysM", (0, 600), none⟩

/-- A cable-free scene over the default trench configuration. -/
def exScene : Scene := ⟨exConfig, []⟩

/-- A minimal mesh cable definition for solver-load fixtures. -/
def exMeshCable : MeshCableDefinition := ⟨"L1", 0, 0, [], 240, some 24, 0, some 100, none, []⟩

/-- A load with negative heat input (clamped to zero by `solve`). -/
def exLoadNeg : CableLoad := ⟨exMeshCable, -5, true⟩

/-! ## Helper lemmas -/

/-- The running product of `_mutual_factor`'s loop. -/
theorem mutual_factor_foldl (target : CablePhaseInstance) (surf : ℝ) (skip : Option ℕ) :
    ∀ (pop : List CablePhaseInstance) (acc : ℝ × List String),
      (pop.foldl (mutual_factor_step target ((2 * surf) - target.position_mm.2) skip) acc).1 =
        acc.1 * (pop.map (image_factor target surf skip)).prod := by
  intro pop
  induction pop with
  | nil => intro acc; simp
  | cons o rest ih =>
    intro acc
    rw [List.foldl_cons, ih]
    rw [List.map_cons, List.prod_cons]
    have hstep : (mutual_factor_step target ((2 * surf) - target.position_mm.2) skip acc o).1 =
        acc.1 * image_factor target surf skip o := by
      simp only [mutual_factor_step, image_factor]
      split_ifs
      · simp
      · simp
      · simp
      · simp
      · rfl
    rw [hstep]
    ring

/-- Square roots of explicit squares. -/
theorem sqrt_sq_of_nonneg (a : ℝ) (h : 0 ≤ a) : Real.sqrt (a ^ 2) = a := by
  rw [Real.sqrt_sq h]

/-- Minimum spacing of a flat three-phase arrangement is the phase spacing. -/
theorem min_spacing_flat (s : ℝ) (hs : 0 ≤ s) :
    min_spacing_of [(-s, 0), (0, 0), (s, 0)] = some s := by
  have h1 : ((-s : ℝ) - 0) ^ 2 + ((0 : ℝ) - 0) ^ 2 = s ^ 2 := by ring
  have h2 : ((-s : ℝ) - s) ^ 2 + ((0 : ℝ) - 0) ^ 2 = (2 * s) ^ 2 := by ring
  have h3 : ((0 : ℝ) - s) ^ 2 + ((0 : ℝ) - 0) ^ 2 = s ^ 2 := by ring
  simp only [min_spacing_of, pair_distances, List.map_cons, List.map_nil, List.cons_append,
    List.nil_append, h1, h2, h3]
  rw [Real.sqrt_sq hs, Real.sqrt_sq (by linarith : (0:ℝ) ≤ 2 * s)]
  simp only [List.foldl_cons, List.foldl_nil]
  have hmin1 : min s (2 * s) = s := min_eq_left (by linarith)
  rw [hmin1, min_self]

/-- A single-core system always exposes exactly three phase offsets. -/
theorem phase_offsets_len_singleCore (sys : CableSystem)
    (h : sys.kind = CableSystemKind.singleCore) : sys.phase_offsets_mm.length = 3 := by
  unfold CableSystem.phase_offsets_mm
  rw [h]
  rcases sys.arrangement.getD SingleCoreArrangement.flat <;> simp

/-- A population consisting only of the target itself has mutual factor 1 and
appends no issues. -/
theorem mutual_factor_self_only (inst : CablePhaseInstance) (s : ℝ) (k : Option ℕ) :
    mutual_factor inst [inst] s k = (1, []) := by
  simp [mutual_factor, mutual_factor_step]

/-! ## Claim C1 -/

/--
C1 (corrected): for computed, positive `R`, `T1`, `T4` and `T3 ≥ 0`, and at
least one loaded conductor, the ampacity equals
`√(numerator / denominator)` with
`numerator = Δθ − W_d (0.5 T1 + n (T2 + T3 + T4))` and — unlike the claim's
parenthesisation — `denominator = R T1 + n R (1+λ₁) T2 + n R (1+λ₁+λ₂)(T3+T4)`
(the `T1` term is NOT multiplied by `n`); the ampacity is null, with an issue
recorded, exactly when `Δθ ≤ 0`, the numerator is ≤ 0, or the denominator is ≤ 0.
-/
theorem C1_ampacity_formula (params : CalculatorParams) (R T1 T3 T4 : ℝ) (t2 : Option ℝ)
    (hR : 0 < R) (hT1 : 0 < T1) (hT3 : 0 ≤ T3) (hT4 : 0 < T4)
    (hn : 1 ≤ params.loaded_conductors) :
    (let n : ℝ := (params.loaded_conductors : ℝ)
     let delta := params.conductor_temp_c - params.ambient_temp_c
     let numerator := delta - params.dielectric_loss_w_per_m *
       (0.5 * T1 + n * (t2.getD 0 + T3 + T4))
     let denominator := R * T1 + n * R * (1 + params.sheath_loss_factor) * t2.getD 0 +
       n * R * (1 + params.sheath_loss_factor + params.armour_loss_factor) * (T3 + T4)
     let res := ampacity_from_parts params (some R) (some T1) t2 (some T3) (some T4)
     (res.1 = none ↔ delta ≤ 0 ∨ numerator ≤ 0 ∨ denominator ≤ 0) ∧
     (0 < delta → 0 < numerator → 0 < denominator →
       res.1 = some (Real.sqrt (numerator / denominator))) ∧
     (res.1 = none → res.2 ≠ [])) := by
  have hmax : max params.loaded_conductors 1 = params.loaded_conductors := max_eq_left hn
  simp only [ampacity_from_parts, hmax, opt_pos, opt_nonneg, Option.getD_some]
  by_cases hdelta : params.conductor_temp_c - params.ambient_temp_c ≤ 0
  · have hnot : ¬ (0 < params.conductor_temp_c - params.ambient_temp_c) := not_lt.mpr hdelta
    simp only [hdelta, hnot, and_true, and_false, if_false, if_true, ite_true, ite_false]
    refine ⟨?_, ?_, ?_⟩
    · simp [hdelta]
    · intro h; exact h.elim
    · intro _; simp
  · have hdelta1 : 0 < params.conductor_temp_c - params.ambient_temp_c := lt_of_not_le hdelta
    simp only [hdelta, hdelta1, hR, hT1, hT3, hT4, and_true, true_and, if_true, ite_true, if_false, ite_false]
    by_cases hnum : params.conductor_temp_c - params.ambient_temp_c -
        params.dielectric_loss_w_per_m *
          (0.5 * T1 + (params.loaded_conductors : ℝ) * (t2.getD 0 + T3 + T4)) ≤ 0
    · simp only [hnum, ite_true, if_true]
      refine ⟨?_, ?_, ?_⟩
      · simp [hnum]
      · intro _ h _; exact absurd h (by linarith)
      · intro _; simp [hdelta]
    · simp only [hnum, ite_false, if_false]
      by_cases hden : R * T1 + (params.loaded_conductors : ℝ) * R * (1 + params.sheath_loss_factor) * t2.getD 0 +
          (params.loaded_conductors : ℝ) * R * (1 + params.sheath_loss_factor + params.armour_loss_factor) * (T3 + T4) ≤ 0
      · simp only [hden, ite_true, if_true]
        refine ⟨?_, ?_, ?_⟩
        · simp [hden]
        · intro _ _ h; exact absurd h (by linarith)
        · intro _; simp [hdelta]
      · simp only [hden, ite_false, if_false]
        refine ⟨?_, ?_, ?_⟩
        · simp [hdelta, hnum, hden]
        · intro _ _ _; trivial
        · intro h; exact absurd h (by simp)

/-- Witness for C1: concrete inputs satisfying every hypothesis, where the
formula branch applies. -/
theorem C1_ampacity_formula_witness :
    (0:ℝ) < 1 ∧
    (ampacity_from_parts exParamsC1 (some 1) (some 1) (some 0) (some 0) (some 1)).1 =
      some (Real.sqrt (((23:ℝ) - 20 - 0 * (0.5 * 1 + 2 * (0 + 0 + 1))) /
        (1 * 1 + 2 * 1 * (1 + 0) * 0 + 2 * 1 * (1 + 0 + 0) * (0 + 1)))) := by
  constructor
  · norm_num
  · have h := C1_ampacity_formula exParamsC1 1 1 0 1 (some 0)
      (by norm_num) (by norm_num) (by norm_num) (by norm_num) (by norm_num [exParamsC1])
    have h2 := h.2.1 (by norm_num [exParamsC1]) (by norm_num [exParamsC1]) (by norm_num [exParamsC1])
    simpa [exParamsC1] using h2

/--
C1 counterexample: at `R = T1 = T4 = 1`, `T2 = T3 = 0`, `Δθ = 3`, `W_d = 0`,
`λ₁ = λ₂ = 0`, `n = 2`, the code computes `√(3/3) = 1`, while the claim's
formula `√(Δθ / (n R (T1 + (1+λ₁)T2 + (1+λ₁+λ₂)(T3+T4)))) = √(3/4)` differs:
the code does not multiply the `R·T1` term of the denominator by `n`.
-/
theorem C1_counterexample :
    (ampacity_from_parts exParamsC1 (some 1) (some 1) (some 0) (some 0) (some 1)).1 ≠
      some (Real.sqrt (((23:ℝ) - 20 - 0 * (0.5 * 1 + 2 * (0 + 0 + 1))) /
        (2 * 1 * (1 + (1 + 0) * 0 + (1 + 0 + 0) * (0 + 1))))) := by
  have hval : (ampacity_from_parts exParamsC1 (some 1) (some 1) (some 0) (some 0) (some 1)).1 =
      some (Real.sqrt (3 / 3)) := by
    simp only [ampacity_from_parts, exParamsC1, opt_pos, opt_nonneg, Option.getD_some]
    norm_num
  rw [hval]
  have h34 : ((23:ℝ) - 20 - 0 * (0.5 * 1 + 2 * (0 + 0 + 1))) /
      (2 * 1 * (1 + (1 + 0) * 0 + (1 + 0 + 0) * (0 + 1))) = 3 / 4 := by norm_num
  rw [h34]
  have h1 : Real.sqrt (3 / 3) = 1 := by norm_num [Real.sqrt_one]
  have h2 : Real.sqrt (3 / 4) < 1 := by
    have := Real.sqrt_lt_sqrt (by norm_num : (0:ℝ) ≤ 3 / 4) (by norm_num : (3:ℝ) / 4 < 1)
    simpa [Real.sqrt_one] using this
  intro h
  rw [Option.some_inj] at h
  rw [h1] at h
  exact absurd h.symm (ne_of_lt h2)

/-! ## Claim C2 -/

/--
C2 (confirmed): for a single directly buried cable (population = the target
alone, so the mutual-heating factor is 1) with positive outer diameter and
burial depth, and `u = 2·depth/D`: T4 is `(ρ/2π)·ln(u + √(u²−1))` when
`1 < u ≤ 10`, `(ρ/2π)·ln(2u)` when `u > 10`, and null with a recorded issue
when `u ≤ 1`.
-/
theorem C2_kennelly_single (D depth rho surface : ℝ) (inst : CablePhaseInstance)
    (skip : Option ℕ) (hD : 0 < D) (hdepth : 0 < depth) :
    (let u := 2 * depth / D
     (1 < u → u ≤ 10 →
       buried_medium_resistance D depth rho inst [inst] surface skip =
         (some ((rho / (2 * Real.pi)) * Real.log (u + Real.sqrt (u ^ 2 - 1))), [])) ∧
     (10 < u →
       buried_medium_resistance D depth rho inst [inst] surface skip =
         (some ((rho / (2 * Real.pi)) * Real.log (2 * u)), [])) ∧
     (u ≤ 1 →
       buried_medium_resistance D depth rho inst [inst] surface skip =
         (none, ["Depth-to-diameter ratio too small for T4."]))) := by
  have hnd : ¬ (depth ≤ 0) := not_le.mpr hdepth
  have hnD : ¬ (D ≤ 0) := not_le.mpr hD
  refine ⟨?_, ?_, ?_⟩
  · intro hu1 hu10
    have hnu : ¬ (2 * depth / D ≤ 1) := not_le.mpr hu1
    have hn10 : ¬ (10 < 2 * depth / D) := not_lt.mpr hu10
    have hbase : 0 < 2 * depth / D + Real.sqrt ((2 * depth / D) * (2 * depth / D) - 1) := by
      have := Real.sqrt_nonneg ((2 * depth / D) * (2 * depth / D) - 1)
      linarith
    simp only [buried_medium_resistance, hnd, hnD, hnu, hn10, if_false, ite_false,
      mutual_factor_self_only, mul_one]
    rw [if_neg (not_le.mpr hbase)]
    have : (2 * depth / D) * (2 * depth / D) = (2 * depth / D) ^ 2 := by ring
    rw [this]
  · intro hu10
    have hnu : ¬ (2 * depth / D ≤ 1) := not_le.mpr (by linarith)
    have hbase : 0 < 2 * (2 * depth / D) := by linarith
    simp only [buried_medium_resistance, hnd, hnD, hnu, hu10, if_false, ite_false, if_true, ite_true,
      mutual_factor_self_only, mul_one]
    rw [if_neg (not_le.mpr hbase)]
  · intro hu
    simp only [buried_medium_resistance, hnd, hnD, hu, if_false, ite_false, if_true, ite_true]

/-- Witness for C2: D = 100 mm, depth = 300 mm (u = 6), soil 1.5 K·m/W. -/
theorem C2_kennelly_single_witness :
    (0:ℝ) < 100 ∧ (0:ℝ) < 300 ∧
    buried_medium_resistance 100 300 1.5 exInstanceA [exInstanceA] 0 none =
      (some (((1.5:ℝ) / (2 * Real.pi)) * Real.log (6 + Real.sqrt (6 ^ 2 - 1))), []) := by
  refine ⟨by norm_num, by norm_num, ?_⟩
  have h := (C2_kennelly_single 100 300 1.5 0 exInstanceA none (by norm_num) (by norm_num)).1
    (by norm_num) (by norm_num)
  have hu : (2:ℝ) * 300 / 100 = 6 := by norm_num
  rw [hu] at h
  exact h

/-! ## Claim C9 -/

/--
C9 (confirmed): the per-phase computation is idempotent and deterministic — the
calculator state (the scene configuration it reads) is returned unchanged, and
a second invocation on the resulting state yields the identical result.
-/
theorem C9_idempotent (state : SceneConfig) (inst : CablePhaseInstance)
    (params : CalculatorParams) (population : List CablePhaseInstance) :
    (compute_result_stateful (compute_result_stateful state inst params population).2
        inst params population).1 =
      (compute_result_stateful state inst params population).1 ∧
    (compute_result_stateful (compute_result_stateful state inst params population).2
        inst params population).2 = state := by
  exact ⟨rfl, rfl⟩

/-! ## Claim C5 -/

/--
C5 (corrected): for a directly buried grouped single-core system with `D > 0`
and burial ratio `u > 1`, the grouped empirical closed form is used for T4 iff
the cables are touching (minimum inter-phase spacing at most `1.05·D`) AND the
selected form's own preconditions hold: trefoil arrangement, or flat
arrangement with `u ≥ 5` and a positive empirical argument.  When not touching,
T4 falls back to the single-cable formula with the image-method correction
(skipping no same-system phases).
-/
theorem C5_grouped_vs_touching (sys : CableSystem) (rho D : ℝ)
    (hkind : sys.kind = CableSystemKind.singleCore) (hD : 0 < D) :
    (∀ u : ℝ, 1 < u →
      ((grouped_direct_burial_resistance sys rho u D).1 ≠ none ↔
        (match min_spacing_of sys.phase_offsets_mm with
          | some ms => ms ≤ 1.05 * D
          | none => True) ∧
        (sys.arrangement.getD SingleCoreArrangement.flat = SingleCoreArrangement.trefoil ∨
          (sys.arrangement.getD SingleCoreArrangement.flat = SingleCoreArrangement.flat ∧ 5 ≤ u ∧
            0 < (if sheath_is_metallic sys then 0.475 * Real.log (2 * u) - 0.346
                 else 0.475 * Real.log (2 * u) - 0.142))))) ∧
    (∀ (inst : CablePhaseInstance) (pop : List CablePhaseInstance) (surf depth : ℝ),
      inst.system = sys → 0 < rho → 1 < 2 * depth / D →
      (match min_spacing_of sys.phase_offsets_mm with
        | some ms => 1.05 * D < ms
        | none => False) →
      t4_direct_buried inst pop surf D depth rho =
        buried_medium_resistance D depth rho inst pop surf none) := by
  have hlen := phase_offsets_len_singleCore sys hkind
  obtain ⟨a, b, c, habc⟩ := List.length_eq_three.mp hlen
  have hms : ∃ ms, min_spacing_of sys.phase_offsets_mm = some ms := by
    rw [habc]
    exact ⟨_, rfl⟩
  obtain ⟨ms, hms⟩ := hms
  have hoffsne : sys.phase_offsets_mm ≠ [] := by rw [habc]; simp
  have hlen1 : 1 < sys.phase_offsets_mm.length := by rw [hlen]; norm_num
  have hcount : (if sys.phase_offsets_mm.length = 0 then 1 else sys.phase_offsets_mm.length) = 3 := by
    rw [hlen]; norm_num
  constructor
  · intro u hu
    rw [hms]
    have hnu : ¬ (u ≤ 0) := not_le.mpr (by linarith)
    have hn2u : ¬ (2 * u ≤ 0) := not_le.mpr (by linarith)
    by_cases hnt : 1.05 * D < ms
    · -- not touching: grouped returns none
      simp only [grouped_direct_burial_resistance, hkind, hms, hoffsne, hlen1, hD, hcount,
        ne_eq, not_false_eq_true, true_and, and_true, if_true, ite_true]
      rw [if_pos hnt]
      simp only [ne_eq, not_true_eq_false, false_iff, not_and]
      intro h1
      exact absurd h1 (not_le.mpr hnt)
    · -- touching: grouped used iff the form's own preconditions hold
      have htouch : ms ≤ 1.05 * D := not_lt.mp hnt
      simp only [grouped_direct_burial_resistance, hkind, hms, hoffsne, hlen1, hD, hcount,
        ne_eq, not_false_eq_true, true_and, and_true, if_true, ite_true]
      rw [if_neg hnt]
      rcases harr : sys.arrangement.getD SingleCoreArrangement.flat with _ | _
      · -- flat arrangement
        simp only [harr, reduceCtorEq, false_and, and_true, if_false, ite_false, if_true, ite_true]
        by_cases hu5 : u < 5
        · simp only [hu5, ite_true, if_true]
          simp only [ne_eq, not_true_eq_false, false_iff, not_and, false_or]
          intro _ _ h5 _
          linarith
        · have hu5l : 5 ≤ u := not_lt.mp hu5
          simp only [hu5, ite_false, if_false]
          by_cases harg : (if sheath_is_metallic sys then 0.475 * Real.log (2 * u) - 0.346
              else 0.475 * Real.log (2 * u) - 0.142) ≤ 0
          · rw [if_pos harg]
            simp only [ne_eq, not_true_eq_false, false_iff, not_and, false_or]
            intro _ _ _ h
            linarith
          · rw [if_neg harg]
            simp only [ne_eq, reduceCtorEq, not_false_eq_true, true_iff, false_or]
            exact ⟨htouch, trivial, hu5l, lt_of_not_le harg⟩
      · -- trefoil arrangement
        simp only [harr, reduceCtorEq, and_true, true_and, if_true, ite_true, false_and, if_false,
          ite_false, hnu, hn2u]
        by_cases hmet : sheath_is_metallic sys
        · simp only [hmet, ite_true, if_true]
          simp only [ne_eq, reduceCtorEq, not_false_eq_true, true_iff, true_or, and_true]
          exact htouch
        · simp only [hmet, ite_false, if_false, hnu]
          simp only [ne_eq, reduceCtorEq, not_false_eq_true, true_iff, true_or, and_true]
          exact htouch
  · intro inst pop surf depth hsys hrho hu hfar
    have hnrho : ¬ (rho ≤ 0) := not_le.mpr hrho
    have hnu : ¬ (2 * depth / D ≤ 1) := not_le.mpr hu
    have hg : grouped_direct_burial_resistance inst.system rho (2 * depth / D) D = (none, []) := by
      rw [hsys]
      rw [hms] at hfar
      simp only [grouped_direct_burial_resistance, hkind, hms, hoffsne, hlen1, hD, hcount,
        ne_eq, not_false_eq_true, true_and, and_true, if_true, ite_true]
      rw [if_pos hfar]
    simp only [t4_direct_buried, hnrho, hnu, if_false, ite_false, hg]
    simp

/-- Flat phase offsets of the concrete touching system. -/
theorem exSystemTouch_offsets :
    exSystemTouch.phase_offsets_mm = [(-(150:ℝ), 0), (0, 0), (150, 0)] := by
  simp [exSystemTouch, CableSystem.phase_offsets_mm]

/-- Flat phase offsets of the concrete non-touching system. -/
theorem exSystemFar_offsets :
    exSystemFar.phase_offsets_mm = [(-(600:ℝ), 0), (0, 0), (600, 0)] := by
  simp [exSystemFar, CableSystem.phase_offsets_mm]

/--
C5 counterexample: a flat, touching (spacing 150 ≤ 1.05·160 = 168) three-phase
system at burial ratio u = 2.5 does NOT use the grouped closed form (the flat
form requires u ≥ 5); T4 falls back to the single-cable formula although the
cables are in contact — refuting "used exactly when the cables are in contact".
-/
theorem C5_counterexample :
    min_spacing_of exSystemTouch.phase_offsets_mm = some 150 ∧
    (150 : ℝ) ≤ 1.05 * 160 ∧
    (grouped_direct_burial_resistance exSystemTouch 1.5 (2 * 200 / 160) 160).1 = none ∧
    t4_direct_buried exInstanceT [exInstanceT] 0 160 200 1.5 =
      buried_medium_resistance 160 200 1.5 exInstanceT [exInstanceT] 0 none := by
  have hspace : min_spacing_of exSystemTouch.phase_offsets_mm = some 150 := by
    rw [exSystemTouch_offsets]
    exact min_spacing_flat 150 (by norm_num)
  have hgroup : grouped_direct_burial_resistance exSystemTouch 1.5 (2 * 200 / 160) 160 = (none, []) := by
    have hkindT : exSystemTouch.kind = CableSystemKind.singleCore := rfl
    have hneT : exSystemTouch.phase_offsets_mm ≠ [] := by rw [exSystemTouch_offsets]; simp
    have hlenT : 1 < exSystemTouch.phase_offsets_mm.length := by rw [exSystemTouch_offsets]; norm_num
    have hcountT : (if exSystemTouch.phase_offsets_mm.length = 0 then 1
        else exSystemTouch.phase_offsets_mm.length) = 3 := by
      rw [exSystemTouch_offsets]; norm_num
    have hDT : (0:ℝ) < 160 := by norm_num
    have hnt : ¬ ((1.05 : ℝ) * 160 < 150) := by norm_num
    have harrT : exSystemTouch.arrangement.getD SingleCoreArrangement.flat = SingleCoreArrangement.flat := rfl
    have hu5 : (2 : ℝ) * 200 / 160 < 5 := by norm_num
    simp only [grouped_direct_burial_resistance, hkindT, hspace, hneT, hlenT, hDT, hcountT,
      ne_eq, not_false_eq_true, true_and, and_true, if_true, ite_true]
    rw [if_neg hnt]
    simp only [harrT, reduceCtorEq, false_and, and_true, if_false, ite_false, if_true, ite_true,
      hu5]
  refine ⟨hspace, by norm_num, by rw [hgroup], ?_⟩
  have hnrho : ¬ ((1.5 : ℝ) ≤ 0) := by norm_num
  have hnu : ¬ ((2 : ℝ) * 200 / 160 ≤ 1) := by norm_num
  have hsys : exInstanceT.system = exSystemTouch := rfl
  simp only [t4_direct_buried, hnrho, hnu, if_false, ite_false, hsys, hgroup]
  simp

/-- Witness for C5: the same cable with 600 mm spacing is not touching, and T4
falls back to the single-cable formula. -/
theorem C5_grouped_vs_touching_witness :
    exSystemFar.kind = CableSystemKind.singleCore ∧ (0:ℝ) < 160 ∧
    t4_direct_buried exInstanceF [exInstanceF] 0 160 200 1.5 =
      buried_medium_resistance 160 200 1.5 exInstanceF [exInstanceF] 0 none := by
  refine ⟨rfl, by norm_num, ?_⟩
  refine (C5_grouped_vs_touching exSystemFar 1.5 160 rfl (by norm_num)).2
    exInstanceF [exInstanceF] 0 200 rfl (by norm_num) (by norm_num) ?_
  rw [exSystemFar_offsets, min_spacing_flat 600 (by norm_num)]
  norm_num


/-! ## Claim C3 -/

/-- `_mutual_factor` computes exactly the image product over the population. -/
theorem mutual_factor_eq_prod (target : CablePhaseInstance) (surf : ℝ) (skip : Option ℕ)
    (pop : List CablePhaseInstance) :
    (mutual_factor target pop surf skip).1 =
      (pop.map (image_factor target surf skip)).prod := by
  unfold mutual_factor
  rw [mutual_factor_foldl]
  simp

/-- In `_t4_direct_buried`'s grouped branch the mutual correction uses
`skip_system = instance.system` (the factor with the target's own system
excluded). -/
theorem t4_direct_buried_grouped_value (inst : CablePhaseInstance)
    (pop : List CablePhaseInstance) (D depth rho surf g : ℝ)
    (hrho : 0 < rho) (hu : 1 < 2 * depth / D)
    (hg : (grouped_direct_burial_resistance inst.system rho (2 * depth / D) D).1 = some g)
    (hmf : 0 < (mutual_factor inst pop surf (some inst.system.identifier)).1) :
    (t4_direct_buried inst pop surf D depth rho).1 =
      some (if (mutual_factor inst pop surf (some inst.system.identifier)).1 = 1 then g
        else g + (rho / (2 * Real.pi)) *
          Real.log (mutual_factor inst pop surf (some inst.system.identifier)).1) := by
  have hnrho : ¬ (rho ≤ 0) := not_le.mpr hrho
  have hnu : ¬ (2 * depth / D ≤ 1) := not_le.mpr hu
  have hnmf : ¬ ((mutual_factor inst pop surf (some inst.system.identifier)).1 ≤ 0) :=
    not_le.mpr hmf
  simp only [t4_direct_buried, hnrho, hnu, if_false, ite_false, hg, hnmf]
  split_ifs with h1
  · simp [h1]
  · simp

/-- The successful `_t4_duct` path: T4 = T4′ + T4″ + T4‴ where T4‴ is the
buried formula applied to the duct outer diameter with NO system skip. -/
theorem t4_duct_success (inst : CablePhaseInstance) (sys : CableSystem)
    (duct : DuctSpecification) (phase : CablePhase) (rho depth surf : ℝ)
    (pop : List CablePhaseInstance) (params : CalculatorParams)
    (hdepth : ¬ depth ≤ 0) (hkind : sys.kind = CableSystemKind.singleCore)
    (hphase : sys.single_core_phase = some phase)
    (hcd : ¬ phase.overall_diameter_mm ≤ 0)
    (heq : ¬ duct.equivalent_cable_diameter_mm phase.overall_diameter_mm / 1000 ≤ 0)
    (hcu : ¬ duct.contact_constants.u ≤ 0)
    (hden : ¬ duct.contact_constants.denominator (duct.medium_temperature_c.getD params.ambient_temp_c) ≤ 0)
    (hgeom : ¬ (duct.inner_diameter_mm / 1000 ≤ 0 ∨ duct.outer_diameter_mm / 1000 ≤ duct.inner_diameter_mm / 1000))
    (hmet : duct.material.is_metallic = false)
    (hrt : ¬ duct.material.thermal_resistivity_k_m_per_w ≤ 0) :
    (t4_duct inst sys duct rho depth pop surf params).1 =
      (match (buried_medium_resistance duct.outer_diameter_mm depth rho inst pop surf none).1 with
       | none => none
       | some t4_triple_prime =>
         some (duct.contact_constants.u /
            (1 + duct.contact_constants.denominator (duct.medium_temperature_c.getD params.ambient_temp_c) *
              (duct.equivalent_cable_diameter_mm phase.overall_diameter_mm / 1000)) +
           (duct.material.thermal_resistivity_k_m_per_w / (2 * Real.pi)) *
             Real.log ((duct.outer_diameter_mm / 1000) / (duct.inner_diameter_mm / 1000)) +
           t4_triple_prime)) := by
  have hmetrt : ¬ (duct.material.is_metallic = false ∧
      duct.material.thermal_resistivity_k_m_per_w ≤ 0) := by
    rintro ⟨-, h⟩; exact hrt h
  simp only [t4_duct, hdepth, hkind, hphase, hcd, heq, hcu, hden, hgeom, hmetrt, hmet,
    if_false, ite_false, if_true, ite_true]
  rcases hbp : (buried_medium_resistance duct.outer_diameter_mm depth rho inst pop surf none).1 with _ | v
  · simp [hbp, hrt]
  · simp [hbp, hrt]

/-- `_external_resistance` in the plain-duct environment reduces to `_t4_duct`. -/
theorem external_resistance_duct_case (inst : CablePhaseInstance)
    (pop : List CablePhaseInstance) (params : CalculatorParams) (config : SceneConfig)
    (sl : TrenchLayer) (d : DuctSpecification)
    (hsl : soil_layer_for_depth config.layers (max (inst.position_mm.2 - config.surface_level_y) 0) = some sl)
    (hres : ¬ sl.thermal_resistivity_k_m_per_w ≤ 0)
    (hduct : inst.system.duct = some d)
    (henv : determine_environment inst.system (max (inst.position_mm.2 - config.surface_level_y) 0)
      (some sl) = InstallEnvironment.duct) :
    external_resistance inst pop params config =
      t4_duct inst inst.system d sl.thermal_resistivity_k_m_per_w
        (max (inst.position_mm.2 - config.surface_level_y) 0) pop config.surface_level_y params := by
  simp only [external_resistance, hsl, henv, hduct, if_neg hres]

/--
C3 (corrected): every buried-formula evaluation multiplies by the
method-of-images product over the population, where each phase contributes
(image distance / direct distance) unless excluded; the exclusions are the
target itself, exactly co-located phases, and zero image distances.
Same-SYSTEM phases are additionally excluded only where the source passes
`skip_system` — the grouped direct-burial correction (and the concrete-duct
correction); the plain duct formula's T4‴ term calls the buried formula with
NO system skip, so phases sharing the target's duct at distinct positions DO
contribute to its product.
-/
theorem C3_mutual_heating (target : CablePhaseInstance) (surf : ℝ) (skip : Option ℕ)
    (pop : List CablePhaseInstance) :
    ((mutual_factor target pop surf skip).1 =
      (pop.map (image_factor target surf skip)).prod) ∧
    (∀ (inst : CablePhaseInstance) (pop2 : List CablePhaseInstance) (D depth rho surf2 g : ℝ),
      0 < rho → 1 < 2 * depth / D →
      (grouped_direct_burial_resistance inst.system rho (2 * depth / D) D).1 = some g →
      0 < (mutual_factor inst pop2 surf2 (some inst.system.identifier)).1 →
      (t4_direct_buried inst pop2 surf2 D depth rho).1 =
        some (if (mutual_factor inst pop2 surf2 (some inst.system.identifier)).1 = 1 then g
          else g + (rho / (2 * Real.pi)) *
            Real.log (mutual_factor inst pop2 surf2 (some inst.system.identifier)).1)) ∧
    (∀ (inst : CablePhaseInstance) (sys : CableSystem) (duct : DuctSpecification)
       (phase : CablePhase) (rho depth surf2 : ℝ) (pop2 : List CablePhaseInstance)
       (params : CalculatorParams),
      ¬ depth ≤ 0 → sys.kind = CableSystemKind.singleCore →
      sys.single_core_phase = some phase →
      ¬ phase.overall_diameter_mm ≤ 0 →
      ¬ duct.equivalent_cable_diameter_mm phase.overall_diameter_mm / 1000 ≤ 0 →
      ¬ duct.contact_constants.u ≤ 0 →
      ¬ duct.contact_constants.denominator (duct.medium_temperature_c.getD params.ambient_temp_c) ≤ 0 →
      ¬ (duct.inner_diameter_mm / 1000 ≤ 0 ∨ duct.outer_diameter_mm / 1000 ≤ duct.inner_diameter_mm / 1000) →
      duct.material.is_metallic = false →
      ¬ duct.material.thermal_resistivity_k_m_per_w ≤ 0 →
      (t4_duct inst sys duct rho depth pop2 surf2 params).1 =
        (match (buried_medium_resistance duct.outer_diameter_mm depth rho inst pop2 surf2 none).1 with
         | none => none
         | some t4_triple_prime =>
           some (duct.contact_constants.u /
              (1 + duct.contact_constants.denominator (duct.medium_temperature_c.getD params.ambient_temp_c) *
                (duct.equivalent_cable_diameter_mm phase.overall_diameter_mm / 1000)) +
             (duct.material.thermal_resistivity_k_m_per_w / (2 * Real.pi)) *
               Real.log ((duct.outer_diameter_mm / 1000) / (duct.inner_diameter_mm / 1000)) +
             t4_triple_prime))) := by
  refine ⟨mutual_factor_eq_prod target surf skip pop, ?_, ?_⟩
  · intro inst pop2 D depth rho surf2 g hrho hu hg hmf
    exact t4_direct_buried_grouped_value inst pop2 D depth rho surf2 g hrho hu hg hmf
  · intro inst sys duct phase rho depth surf2 pop2 params hdepth hkind hphase hcd heq hcu hden hgeom hmet hrt
    exact t4_duct_success inst sys duct phase rho depth surf2 pop2 params hdepth hkind hphase hcd
      heq hcu hden hgeom hmet hrt

/-- Value of the concrete duct scene's mutual factor with no system skip: the
two sibling phases 300 mm away (sharing the target's duct), 200 mm deep, each
contribute 500/300. -/
theorem exPopD_mutual_factor :
    mutual_factor exInstD1 exPopD 0 none = (1 * (500 / 300) * (500 / 300), []) := by
  have e1 : Real.sqrt 90000 = 300 := by
    rw [show (90000:ℝ) = 300 ^ 2 by norm_num, Real.sqrt_sq (by norm_num : (0:ℝ) ≤ 300)]
  have e2 : Real.sqrt 250000 = 500 := by
    rw [show (250000:ℝ) = 500 ^ 2 by norm_num, Real.sqrt_sq (by norm_num : (0:ℝ) ≤ 500)]
  simp only [mutual_factor, exPopD, List.foldl_cons, List.foldl_nil]
  simp only [mutual_factor_step, exInstD0, exInstD1, exInstD2, exSystemDuct]
  norm_num [e1, e2]

/-- The buried-formula term inside the duct fixture's T4 includes the sibling
image factors. -/
theorem exPopD_buried_value :
    buried_medium_resistance exDuct.outer_diameter_mm 200 1.5 exInstD1 exPopD 0 none =
      (some ((1.5 / (2 * Real.pi)) *
        Real.log ((2 * 200 / 160 + Real.sqrt ((2 * 200 / 160) * (2 * 200 / 160) - 1)) *
          (1 * (500 / 300) * (500 / 300)))), []) := by
  have houter : exDuct.outer_diameter_mm = 160 := by
    simp only [exDuct, DuctSpecification.outer_diameter_mm]
    norm_num
  rw [houter]
  have hu1 : ¬ ((2:ℝ) * 200 / 160 ≤ 1) := by norm_num
  have hbase : ¬ ((10:ℝ) < 2 * 200 / 160) := by norm_num
  have hbasepos : (0:ℝ) < 2 * 200 / 160 + Real.sqrt ((2 * 200 / 160) * (2 * 200 / 160) - 1) := by
    have h := Real.sqrt_nonneg ((2:ℝ) * 200 / 160 * (2 * 200 / 160) - 1)
    have h2 : (0:ℝ) < 2 * 200 / 160 := by norm_num
    linarith
  have hmfpos : (0:ℝ) < 1 * (500 / 300) * (500 / 300) := by norm_num
  simp only [buried_medium_resistance]
  rw [if_neg (by norm_num : ¬ ((200:ℝ) ≤ 0)), if_neg (by norm_num : ¬ ((160:ℝ) ≤ 0)),
    if_neg hu1]
  simp only [hbase, ite_false, if_false, exPopD_mutual_factor]
  rw [if_neg (not_le.mpr (by positivity))]

/-- The external resistance of the duct fixture, end to end. -/
theorem exPopD_external_value :
    (external_resistance exInstD1 exPopD exParamsA exConfig).1 =
      some (1.87 / (1 + 0.1 * (0.312 + 0.003 * 20) * (2.15 * 30 / 1000)) +
        (3.5 / (2 * Real.pi)) * Real.log ((160 / 1000) / (150 / 1000)) +
        (1.5 / (2 * Real.pi)) *
          Real.log ((2 * 200 / 160 + Real.sqrt ((2 * 200 / 160) * (2 * 200 / 160) - 1)) *
            (1 * (500 / 300) * (500 / 300)))) := by
  have hmax : max (exInstD1.position_mm.2 - exConfig.surface_level_y) 0 = (200:ℝ) := by
    norm_num [exInstD1, exConfig]
  have hsoil : soil_layer_for_depth exConfig.layers 200 = some exGround := by
    simp only [exConfig, soil_layer_for_depth, exGround]
    norm_num
  have hvalid : exDuct.has_valid_geometry := by
    simp only [DuctSpecification.has_valid_geometry, exDuct, DuctSpecification.outer_diameter_mm]
    norm_num
  have henv : determine_environment exSystemDuct 200 (some exGround) = InstallEnvironment.duct := by
    simp only [determine_environment, exSystemDuct]
    rw [if_neg (by norm_num : ¬ ((200:ℝ) ≤ 0))]
    simp only [hvalid, if_true, ite_true]
    simp [exGround]
  have hext := external_resistance_duct_case exInstD1 exPopD exParamsA exConfig exGround exDuct
    (by rw [hmax]; exact hsoil) (by norm_num [exGround]) rfl
    (by rw [hmax]; exact henv)
  rw [hext]
  rw [show exInstD1.system = exSystemDuct from rfl, hmax,
    show exGround.thermal_resistivity_k_m_per_w = (1.5:ℝ) from rfl,
    show exConfig.surface_level_y = (0:ℝ) from rfl]
  have hoverall : exPhaseDuct.overall_diameter_mm = 30 := by
    simp only [CablePhase.overall_diameter_mm, exPhaseDuct, exConductor, List.foldl_cons,
      List.foldl_nil]
    norm_num
  have hsucc := t4_duct_success exInstD1 exSystemDuct exDuct exPhaseDuct 1.5 200 0 exPopD
    exParamsA (by norm_num) rfl rfl
    (by rw [hoverall]; norm_num)
    (by simp only [DuctSpecification.equivalent_cable_diameter_mm, exDuct, hoverall]; norm_num)
    (by simp only [DuctSpecification.contact_constants, exDuct, exHdpe, exHdpeContact]; norm_num)
    (by simp only [DuctSpecification.contact_constants, DuctContactConstants.denominator, exDuct,
          exHdpe, exHdpeContact]; norm_num)
    (by simp only [exDuct, DuctSpecification.outer_diameter_mm]; norm_num)
    rfl
    (by simp only [exDuct, exHdpe]; norm_num)
  rw [hsucc]
  have hbp1 : (buried_medium_resistance exDuct.outer_diameter_mm 200 1.5 exInstD1 exPopD 0 none).1 =
      some ((1.5 / (2 * Real.pi)) *
        Real.log ((2 * 200 / 160 + Real.sqrt ((2 * 200 / 160) * (2 * 200 / 160) - 1)) *
          (1 * (500 / 300) * (500 / 300)))) := by
    rw [exPopD_buried_value]
  rw [hbp1]
  simp only [DuctSpecification.contact_constants, DuctContactConstants.denominator,
    DuctSpecification.equivalent_cable_diameter_mm, DuctSpecification.outer_diameter_mm,
    exDuct, exHdpe, exHdpeContact, hoverall]
  norm_num

/--
C3 counterexample: in the duct fixture every other phase shares the target's
(three-phases-per) duct, yet the duct T4‴ evaluation includes their image
factors (25/9 total): the computed T4 differs from the value the claim
requires (with same-duct phases excluded, i.e. mutual product 1).
-/
theorem C3_counterexample :
    (∀ o ∈ exPopD, o.system.identifier = exInstD1.system.identifier) ∧
    exInstD1.system.duct = some exDuct ∧
    exDuct.occupancy = DuctOccupancy.threePhasesPerDuct ∧
    (external_resistance exInstD1 exPopD exParamsA exConfig).1 ≠
      some (1.87 / (1 + 0.1 * (0.312 + 0.003 * 20) * (2.15 * 30 / 1000)) +
        (3.5 / (2 * Real.pi)) * Real.log ((160 / 1000) / (150 / 1000)) +
        (1.5 / (2 * Real.pi)) *
          Real.log (2 * 200 / 160 + Real.sqrt ((2 * 200 / 160) * (2 * 200 / 160) - 1))) := by
  refine ⟨?_, rfl, rfl, ?_⟩
  · intro o ho
    simp only [exPopD, List.mem_cons, List.not_mem_nil, or_false] at ho
    rcases ho with h | h | h
    · rw [h]; rfl
    · rw [h]
    · rw [h]; rfl
  · rw [exPopD_external_value]
    intro h
    rw [Option.some_inj] at h
    have hB : (0:ℝ) < 2 * 200 / 160 + Real.sqrt ((2 * 200 / 160) * (2 * 200 / 160) - 1) := by
      have hs := Real.sqrt_nonneg ((2:ℝ) * 200 / 160 * (2 * 200 / 160) - 1)
      have h2 : (0:ℝ) < 2 * 200 / 160 := by norm_num
      linarith
    have hlt : Real.log (2 * 200 / 160 + Real.sqrt ((2 * 200 / 160) * (2 * 200 / 160) - 1)) <
        Real.log ((2 * 200 / 160 + Real.sqrt ((2 * 200 / 160) * (2 * 200 / 160) - 1)) *
          (1 * (500 / 300) * (500 / 300))) := by
      apply Real.log_lt_log hB
      nlinarith
    have hc : (0:ℝ) < 1.5 / (2 * Real.pi) := by positivity
    nlinarith [h, hlt, hc]

/-- Witness for C3: the duct fixture satisfies every hypothesis of the duct
branch, and its T4 decomposes as T4′ + T4″ + T4‴ with the unskipped buried
term. -/
theorem C3_mutual_heating_witness :
    ¬ ((200:ℝ) ≤ 0) ∧
    (t4_duct exInstD1 exSystemDuct exDuct 1.5 200 exPopD 0 exParamsA).1 =
      (match (buried_medium_resistance exDuct.outer_diameter_mm 200 1.5 exInstD1 exPopD 0 none).1 with
       | none => none
       | some t4_triple_prime =>
         some (exDuct.contact_constants.u /
            (1 + exDuct.contact_constants.denominator (exDuct.medium_temperature_c.getD exParamsA.ambient_temp_c) *
              (exDuct.equivalent_cable_diameter_mm exPhaseDuct.overall_diameter_mm / 1000)) +
           (exDuct.material.thermal_resistivity_k_m_per_w / (2 * Real.pi)) *
             Real.log ((exDuct.outer_diameter_mm / 1000) / (exDuct.inner_diameter_mm / 1000)) +
           t4_triple_prime)) := by
  have hoverall : exPhaseDuct.overall_diameter_mm = 30 := by
    simp only [CablePhase.overall_diameter_mm, exPhaseDuct, exConductor, List.foldl_cons,
      List.foldl_nil]
    norm_num
  refine ⟨by norm_num, ?_⟩
  exact (C3_mutual_heating exInstD1 0 none exPopD).2.2 exInstD1 exSystemDuct exDuct exPhaseDuct
    1.5 200 0 exPopD exParamsA (by norm_num) rfl rfl
    (by rw [hoverall]; norm_num)
    (by simp only [DuctSpecification.equivalent_cable_diameter_mm, exDuct, hoverall]; norm_num)
    (by simp only [DuctSpecification.contact_constants, exDuct, exHdpe, exHdpeContact]; norm_num)
    (by simp only [DuctSpecification.contact_constants, DuctContactConstants.denominator, exDuct,
          exHdpe, exHdpeContact]; norm_num)
    (by simp only [exDuct, DuctSpecification.outer_diameter_mm]; norm_num)
    rfl
    (by simp only [exDuct, exHdpe]; norm_num)

/-! ## Claim C4 -/

/-- Quotients of millimetre radii equal quotients of the metre values used in
the source. -/
theorem div_thousand_div (a b : ℝ) (hb : b ≠ 0) : (a / 1000) / (b / 1000) = a / b := by
  field_simp

/-- `_sum_layer_resistances` on benign layers equals the claim's closed sum. -/
theorem sum_layers_from_benign (label : String) :
    ∀ (layers : List (LayerSpec × ℝ × ℝ)) (acc : ℝ),
    (∀ l ∈ layers, 0 < l.2.1 ∧ l.2.1 < l.2.2 ∧ ∃ r, layer_rho l.1 = some r ∧ 0 < r) →
    sum_layers_from label acc layers =
      (some (acc + (layers.map (fun l =>
        ((layer_rho l.1).getD 0 / (2 * Real.pi)) * Real.log (l.2.2 / l.2.1))).sum), []) := by
  intro layers
  induction layers with
  | nil => intro acc _; simp [sum_layers_from]
  | cons l rest ih =>
    rcases l with ⟨spec, inner, outer⟩
    intro acc h
    obtain ⟨hinner, houter, r, hr, hrpos⟩ := h ⟨spec, inner, outer⟩ (List.mem_cons_self _ _)
    simp only at hinner houter hr hrpos
    have hinner1000 : ¬ (outer / 1000 ≤ inner / 1000) := by
      intro hc
      have : outer ≤ inner := by linarith
      linarith
    simp only [sum_layers_from, hr]
    rw [if_neg (not_le.mpr hrpos), if_neg (not_le.mpr houter), if_pos hinner,
      if_neg hinner1000]
    rw [ih _ (fun l2 hl2 => h l2 (List.mem_cons_of_mem _ hl2))]
    rw [div_thousand_div outer inner (ne_of_gt hinner)]
    rw [List.map_cons, List.sum_cons]
    simp only [hr, Option.getD_some]
    rw [add_assoc]

/-- `_sum_layer_resistances` returns null with an issue if any layer's
resistivity is unresolved or non-positive. -/
theorem sum_layers_from_fail (label : String) :
    ∀ (layers : List (LayerSpec × ℝ × ℝ)) (acc : ℝ),
    (∃ l ∈ layers, layer_rho l.1 = none ∨ ∃ r, layer_rho l.1 = some r ∧ r ≤ 0) →
    (sum_layers_from label acc layers).1 = none ∧ (sum_layers_from label acc layers).2 ≠ [] := by
  intro layers
  induction layers with
  | nil => intro acc h; simp at h
  | cons l rest ih =>
    rcases l with ⟨spec, inner, outer⟩
    intro acc h
    obtain ⟨l0, hl0, hbad⟩ := h
    rcases hrho : layer_rho spec with _ | r
    · simp [sum_layers_from, hrho]
    · by_cases hrle : r ≤ 0
      · simp [sum_layers_from, hrho, hrle]
      · -- head layer is benign; the bad layer is in the tail
        have hl0rest : l0 ∈ rest := by
          rcases List.mem_cons.mp hl0 with heq | hmem
        -- l0 is the head: contradiction with the benign head
          · exfalso
            rw [heq] at hbad
            rcases hbad with hnone | ⟨r2, hr2, hr2le⟩
            · simp only at hnone
              rw [hnone] at hrho
              exact Option.noConfusion hrho
            · simp only at hr2
              rw [hr2] at hrho
              rw [Option.some_inj] at hrho
              exact hrle (hrho ▸ hr2le)
          · exact hmem
        have hrest : ∃ l ∈ rest, layer_rho l.1 = none ∨ ∃ r2, layer_rho l.1 = some r2 ∧ r2 ≤ 0 :=
          ⟨l0, hl0rest, hbad⟩
        simp only [sum_layers_from, hrho]
        rw [if_neg hrle]
        split_ifs <;> exact ih _ hrest

/--
C4 (confirmed): for a single-core phase with a non-empty, role-ordered radial
profile, `_radial_resistances` partitions the ordered layers at the sheath and
armour roles: layers before the sheath form T1, layers from the sheath to the
armour form T2, layers from the armour outward form T3; with no sheath, T2 = 0
and T3 = 0 (nothing remains); with a sheath but no armour, T2 = 0 and the
remaining layers fold into T3.  On layers with positive geometry each group
sum is Σ (resistivity / 2π) · ln(outer_radius / inner_radius); a group
containing a layer with no resolvable (positive) resistivity yields null with
a recorded issue.
-/
theorem C4_radial_partition (sys : CableSystem) (phase : CablePhase)
    (hkind : sys.kind = CableSystemKind.singleCore)
    (hphase : sys.single_core_phase = some phase)
    (hne : phase.radial_profile_mm ≠ [])
    (horder : ∀ i j, find_layer_index phase.radial_profile_mm LayerRole.sheath = some i →
      find_layer_index phase.radial_profile_mm LayerRole.armour = some j → i ≤ j) :
    ((∀ i j, find_layer_index phase.radial_profile_mm LayerRole.sheath = some i →
        find_layer_index phase.radial_profile_mm LayerRole.armour = some j →
        phase.radial_profile_mm.take i ++ ((phase.radial_profile_mm.take j).drop i) ++
          phase.radial_profile_mm.drop j = phase.radial_profile_mm) ∧
     (find_layer_index phase.radial_profile_mm LayerRole.sheath = none →
        radial_resistances sys =
          (((sum_layer_resistances phase.radial_profile_mm ("T1")).1, some 0,
            (sum_layer_resistances [] ("T3")).1),
            (sum_layer_resistances phase.radial_profile_mm ("T1")).2 ++
              (sum_layer_resistances [] ("T3")).2)) ∧
     (∀ i, find_layer_index phase.radial_profile_mm LayerRole.sheath = some i →
        find_layer_index phase.radial_profile_mm LayerRole.armour = none →
        radial_resistances sys =
          (((sum_layer_resistances (phase.radial_profile_mm.take i) ("T1")).1, some 0,
            (sum_layer_resistances (phase.radial_profile_mm.drop i) ("T3")).1),
            (sum_layer_resistances (phase.radial_profile_mm.take i) ("T1")).2 ++
              (sum_layer_resistances (phase.radial_profile_mm.drop i) ("T3")).2)) ∧
     (∀ i j, find_layer_index phase.radial_profile_mm LayerRole.sheath = some i →
        find_layer_index phase.radial_profile_mm LayerRole.armour = some j →
        radial_resistances sys =
          (((sum_layer_resistances (phase.radial_profile_mm.take i) ("T1")).1,
            (sum_layer_resistances ((phase.radial_profile_mm.take j).drop i) ("T2")).1,
            (sum_layer_resistances (phase.radial_profile_mm.drop j) ("T3")).1),
            (sum_layer_resistances (phase.radial_profile_mm.take i) ("T1")).2 ++
              (sum_layer_resistances ((phase.radial_profile_mm.take j).drop i) ("T2")).2 ++
              (sum_layer_resistances (phase.radial_profile_mm.drop j) ("T3")).2)) ∧
     (∀ (layers : List (LayerSpec × ℝ × ℝ)) (label : String),
        (∀ l ∈ layers, 0 < l.2.1 ∧ l.2.1 < l.2.2 ∧ ∃ r, layer_rho l.1 = some r ∧ 0 < r) →
        sum_layer_resistances layers label =
          (some ((layers.map (fun l =>
            ((layer_rho l.1).getD 0 / (2 * Real.pi)) * Real.log (l.2.2 / l.2.1))).sum), [])) ∧
     (∀ (layers : List (LayerSpec × ℝ × ℝ)) (label : String),
        (∃ l ∈ layers, layer_rho l.1 = none ∨ ∃ r, layer_rho l.1 = some r ∧ r ≤ 0) →
        (sum_layer_resistances layers label).1 = none ∧
          (sum_layer_resistances layers label).2 ≠ [])) := by
  obtain ⟨p0, prest, hp⟩ := List.exists_cons_of_ne_nil hne
  refine ⟨?_, ?_, ?_, ?_, ?_, ?_⟩
  · intro i j hi hj
    have hij : i ≤ j := horder i j hi hj
    have h1 : phase.radial_profile_mm.take i ++ (phase.radial_profile_mm.take j).drop i =
        phase.radial_profile_mm.take j := by
      conv_lhs => rw [show phase.radial_profile_mm.take i =
        (phase.radial_profile_mm.take j).take i by rw [List.take_take, min_eq_left hij]]
      exact List.take_append_drop i (phase.radial_profile_mm.take j)
    rw [h1, List.take_append_drop]
  · intro hs
    simp only [radial_resistances, hkind, hphase, hp]
    rw [← hp, hs]
  · intro i hi ha
    simp only [radial_resistances, hkind, hphase, hp]
    rw [← hp, hi, ha]
  · intro i j hi hj
    simp only [radial_resistances, hkind, hphase, hp]
    rw [← hp, hi, hj]
  · intro layers label hben
    match layers with
    | [] => simp [sum_layer_resistances]
    | l :: rest =>
      simp only [sum_layer_resistances]
      rw [sum_layers_from_benign label (l :: rest) 0 hben, zero_add]
  · intro layers label hbad
    match layers with
    | [] =>
      exfalso
      obtain ⟨l, hl, -⟩ := hbad
      exact List.not_mem_nil l hl
    | l :: rest =>
      simp only [sum_layer_resistances]
      exact sum_layers_from_fail label (l :: rest) 0 hbad

/-- Sheath index of the full-stack fixture. -/
theorem exPhaseFull_sheath_index :
    find_layer_index exPhaseFull.radial_profile_mm LayerRole.sheath = some 1 := by
  simp [find_layer_index, find_layer_index_from, CablePhase.radial_profile_mm, radialProfileAux,
    exPhaseFull, exConductor]

/-- Armour index of the full-stack fixture. -/
theorem exPhaseFull_armour_index :
    find_layer_index exPhaseFull.radial_profile_mm LayerRole.armour = some 2 := by
  simp [find_layer_index, find_layer_index_from, CablePhase.radial_profile_mm, radialProfileAux,
    exPhaseFull, exConductor]

/-- Witness for C4 at the full four-layer stack (sheath at index 1, armour at
index 2). -/
theorem C4_radial_partition_witness :
    exPhaseFull.radial_profile_mm ≠ [] ∧
    radial_resistances exSystemFull =
      (((sum_layer_resistances (exPhaseFull.radial_profile_mm.take 1) ("T1")).1,
        (sum_layer_resistances ((exPhaseFull.radial_profile_mm.take 2).drop 1) ("T2")).1,
        (sum_layer_resistances (exPhaseFull.radial_profile_mm.drop 2) ("T3")).1),
        (sum_layer_resistances (exPhaseFull.radial_profile_mm.take 1) ("T1")).2 ++
          (sum_layer_resistances ((exPhaseFull.radial_profile_mm.take 2).drop 1) ("T2")).2 ++
          (sum_layer_resistances (exPhaseFull.radial_profile_mm.drop 2) ("T3")).2) := by
  have hne : exPhaseFull.radial_profile_mm ≠ [] := by
    simp [CablePhase.radial_profile_mm, exPhaseFull, radialProfileAux, exConductor]
  have horder : ∀ i j, find_layer_index exPhaseFull.radial_profile_mm LayerRole.sheath = some i →
      find_layer_index exPhaseFull.radial_profile_mm LayerRole.armour = some j → i ≤ j := by
    intro i j h1 h2
    have e1 := exPhaseFull_sheath_index.symm.trans h1
    have e2 := exPhaseFull_armour_index.symm.trans h2
    rw [Option.some_inj] at e1 e2
    rw [← e1, ← e2]
    norm_num
  exact ⟨hne, (C4_radial_partition exSystemFull exPhaseFull rfl rfl hne horder).2.2.2.1 1 2
    exPhaseFull_sheath_index exPhaseFull_armour_index⟩

/-! ## Claim C6 -/

/-- Four-way append of issue lists is non-empty when any part is. -/
theorem issues_append_ne_nil (a b c d : List String)
    (h : a ≠ [] ∨ b ≠ [] ∨ c ≠ [] ∨ d ≠ []) : a ++ b ++ c ++ d ≠ [] := by
  intro hcon
  rw [List.append_eq_nil, List.append_eq_nil, List.append_eq_nil] at hcon
  obtain ⟨⟨⟨h1, h2⟩, h3⟩, h4⟩ := hcon
  rcases h with h | h | h | h
  · exact h h1
  · exact h h2
  · exact h h3
  · exact h h4

/-- A null conductor resistance is always accompanied by an issue. -/
theorem conductor_resistance_none_issue (sys : CableSystem) (t : ℝ) :
    (conductor_resistance sys t).1 = none → (conductor_resistance sys t).2 ≠ [] := by
  rcases hk : sys.kind <;> rcases hp : sys.single_core_phase with _ | phase <;>
    simp only [conductor_resistance, hk, hp] <;> try simp
  rcases hres : phase.conductor.electrical_resistivity with _ | r <;> simp only [hres] <;>
    split_ifs <;> simp

/-- A null layer-group sum is always accompanied by an issue (loop form). -/
theorem sum_layers_from_none_ne (label : String) :
    ∀ (layers : List (LayerSpec × ℝ × ℝ)) (acc : ℝ),
    (sum_layers_from label acc layers).1 = none → (sum_layers_from label acc layers).2 ≠ [] := by
  intro layers
  induction layers with
  | nil => intro acc h; simp [sum_layers_from] at h
  | cons l rest ih =>
    rcases l with ⟨spec, inner, outer⟩
    intro acc
    simp only [sum_layers_from]
    rcases hrho : layer_rho spec with _ | r
    · simp [hrho]
    · simp only [hrho]
      split_ifs <;> first | exact ih _ | simp

/-- A null layer-group sum is always accompanied by an issue. -/
theorem sum_layer_resistances_none_ne (layers : List (LayerSpec × ℝ × ℝ)) (label : String) :
    (sum_layer_resistances layers label).1 = none → (sum_layer_resistances layers label).2 ≠ [] := by
  cases layers with
  | nil => intro h; simp [sum_layer_resistances] at h
  | cons l rest =>
    simp only [sum_layer_resistances]
    exact sum_layers_from_none_ne label (l :: rest) 0

/-- On a non-single-core system the conductor-resistance helper records its
unsupported-system issue. -/
theorem conductor_resistance_not_single (sys : CableSystem) (t : ℝ)
    (h : sys.kind = CableSystemKind.multicore ∨ sys.single_core_phase = none) :
    (conductor_resistance sys t).2 ≠ [] := by
  rcases h with hk | hp
  · rcases hp2 : sys.single_core_phase with _ | phase <;>
      simp [conductor_resistance, hk, hp2]
  · rcases hk2 : sys.kind <;> simp [conductor_resistance, hk2, hp]

/-- In the single-core path a null T2 is always accompanied by a radial issue. -/
theorem radial_t2_none_core (sys : CableSystem) (phase : CablePhase)
    (hk : sys.kind = CableSystemKind.singleCore)
    (hp : sys.single_core_phase = some phase) :
    (radial_resistances sys).1.2.1 = none → (radial_resistances sys).2 ≠ [] := by
  rcases hprof : phase.radial_profile_mm with _ | ⟨l0, rest⟩
  · simp [radial_resistances, hk, hp, hprof]
  · rcases hsi : find_layer_index (l0 :: rest) LayerRole.sheath with _ | i
    · simp [radial_resistances, hk, hp, hprof, hsi]
    · rcases hai : find_layer_index (l0 :: rest) LayerRole.armour with _ | j
      · simp [radial_resistances, hk, hp, hprof, hsi, hai]
      · simp only [radial_resistances, hk, hp, hprof, hsi, hai]
        intro ht2 hcon
        rw [List.append_eq_nil, List.append_eq_nil] at hcon
        exact sum_layer_resistances_none_ne _ _ ht2 hcon.1.2

/-- When R, T1, T3 or T4 is null, the ampacity block itself records the
corresponding "unavailable" issue. -/
theorem ampacity_parts_none_issue (params : CalculatorParams) (r t1 t2 t3 t4 : Option ℝ)
    (h : r = none ∨ t1 = none ∨ t3 = none ∨ t4 = none) :
    (ampacity_from_parts params r t1 t2 t3 t4).2 ≠ [] := by
  have hnv : ¬ ((opt_pos r ∧ opt_pos t1 ∧ opt_nonneg t3 ∧ opt_pos t4) ∧
      0 < params.conductor_temp_c - params.ambient_temp_c) := by
    rcases h with h | h | h | h <;> rw [h] <;> simp [opt_pos, opt_nonneg]
  simp only [ampacity_from_parts]
  rw [if_neg hnv]
  rcases h with h | h | h | h <;> rw [h] <;> simp [List.append_eq_nil]

/-- Conductor-resistance field of `_compute_result` (definitional). -/
theorem compute_result_R (inst : CablePhaseInstance) (params : CalculatorParams)
    (pop : List CablePhaseInstance) (config : SceneConfig) :
    (compute_result inst params pop config).conductor_resistance_ohm_per_m =
      (conductor_resistance inst.system params.conductor_temp_c).1 := rfl

/-- T1 field of `_compute_result` (definitional). -/
theorem compute_result_t1 (inst : CablePhaseInstance) (params : CalculatorParams)
    (pop : List CablePhaseInstance) (config : SceneConfig) :
    (compute_result inst params pop config).t1 = (radial_resistances inst.system).1.1 := rfl

/-- T2 field of `_compute_result` (definitional). -/
theorem compute_result_t2 (inst : CablePhaseInstance) (params : CalculatorParams)
    (pop : List CablePhaseInstance) (config : SceneConfig) :
    (compute_result inst params pop config).t2 = (radial_resistances inst.system).1.2.1 := rfl

/-- T3 field of `_compute_result` (definitional). -/
theorem compute_result_t3 (inst : CablePhaseInstance) (params : CalculatorParams)
    (pop : List CablePhaseInstance) (config : SceneConfig) :
    (compute_result inst params pop config).t3 = (radial_resistances inst.system).1.2.2 := rfl

/-- T4 field of `_compute_result` (definitional). -/
theorem compute_result_t4 (inst : CablePhaseInstance) (params : CalculatorParams)
    (pop : List CablePhaseInstance) (config : SceneConfig) :
    (compute_result inst params pop config).t4 = (external_resistance inst pop params config).1 := rfl

/-- Ampacity field of `_compute_result` (definitional). -/
theorem compute_result_amp (inst : CablePhaseInstance) (params : CalculatorParams)
    (pop : List CablePhaseInstance) (config : SceneConfig) :
    (compute_result inst params pop config).ampacity_a =
      (ampacity_from_parts params (conductor_resistance inst.system params.conductor_temp_c).1
        (radial_resistances inst.system).1.1 (radial_resistances inst.system).1.2.1
        (radial_resistances inst.system).1.2.2
        (external_resistance inst pop params config).1).1 := rfl

/-- Issue list of `_compute_result` (definitional): the four helpers' issues in
source order. -/
theorem compute_result_issues (inst : CablePhaseInstance) (params : CalculatorParams)
    (pop : List CablePhaseInstance) (config : SceneConfig) :
    (compute_result inst params pop config).issues =
      (conductor_resistance inst.system params.conductor_temp_c).2 ++
      (radial_resistances inst.system).2 ++
      (external_resistance inst pop params config).2 ++
      (ampacity_from_parts params (conductor_resistance inst.system params.conductor_temp_c).1
        (radial_resistances inst.system).1.1 (radial_resistances inst.system).1.2.1
        (radial_resistances inst.system).1.2.2
        (external_resistance inst pop params config).1).2 := rfl

/--
C6 (corrected): the analytical ampacity computation is total — every evaluation
path of `_compute_result` yields a value (the embedding is a total function and
`refresh_from_scene` returns exactly one `AmpacityResult` per phase instance) —
and whenever the conductor resistance, T1, T2, T3 or T4 field of a result is
null, the result's issue list is non-empty.  The ampacity field itself is NOT
covered: it can be null with an empty issue list (see the counterexample).
-/
theorem C6_nulls_have_issues (inst : CablePhaseInstance) (params : CalculatorParams)
    (population : List CablePhaseInstance) (config : SceneConfig) :
    (compute_all population params config).length = population.length ∧
    ((compute_result inst params population config).conductor_resistance_ohm_per_m = none →
      (compute_result inst params population config).issues ≠ []) ∧
    ((compute_result inst params population config).t1 = none →
      (compute_result inst params population config).issues ≠ []) ∧
    ((compute_result inst params population config).t2 = none →
      (compute_result inst params population config).issues ≠ []) ∧
    ((compute_result inst params population config).t3 = none →
      (compute_result inst params population config).issues ≠ []) ∧
    ((compute_result inst params population config).t4 = none →
      (compute_result inst params population config).issues ≠ []) := by
  refine ⟨by simp [compute_all], ?_, ?_, ?_, ?_, ?_⟩
  · intro h
    rw [compute_result_R] at h
    rw [compute_result_issues]
    exact issues_append_ne_nil _ _ _ _ (Or.inr (Or.inr (Or.inr
      (ampacity_parts_none_issue params _ _ _ _ _ (Or.inl h)))))
  · intro h
    rw [compute_result_t1] at h
    rw [compute_result_issues]
    exact issues_append_ne_nil _ _ _ _ (Or.inr (Or.inr (Or.inr
      (ampacity_parts_none_issue params _ _ _ _ _ (Or.inr (Or.inl h))))))
  · intro h
    rw [compute_result_t2] at h
    rw [compute_result_issues]
    rcases hk : inst.system.kind with _ | _
    · rcases hp : inst.system.single_core_phase with _ | phase
      · exact issues_append_ne_nil _ _ _ _
          (Or.inl (conductor_resistance_not_single _ _ (Or.inr hp)))
      · exact issues_append_ne_nil _ _ _ _
          (Or.inr (Or.inl (radial_t2_none_core inst.system phase hk hp h)))
    · exact issues_append_ne_nil _ _ _ _
        (Or.inl (conductor_resistance_not_single _ _ (Or.inl hk)))
  · intro h
    rw [compute_result_t3] at h
    rw [compute_result_issues]
    exact issues_append_ne_nil _ _ _ _ (Or.inr (Or.inr (Or.inr
      (ampacity_parts_none_issue params _ _ _ _ _ (Or.inr (Or.inr (Or.inl h)))))))
  · intro h
    rw [compute_result_t4] at h
    rw [compute_result_issues]
    exact issues_append_ne_nil _ _ _ _ (Or.inr (Or.inr (Or.inr
      (ampacity_parts_none_issue params _ _ _ _ _ (Or.inr (Or.inr (Or.inr h)))))))

/-- `_external_resistance` in the soil environment reduces to the direct-burial
tail. -/
theorem external_resistance_soil_case (inst : CablePhaseInstance)
    (pop : List CablePhaseInstance) (params : CalculatorParams) (config : SceneConfig)
    (sl : TrenchLayer)
    (hsl : soil_layer_for_depth config.layers (max (inst.position_mm.2 - config.surface_level_y) 0) = some sl)
    (hres : ¬ sl.thermal_resistivity_k_m_per_w ≤ 0)
    (henv : determine_environment inst.system (max (inst.position_mm.2 - config.surface_level_y) 0)
      (some sl) = InstallEnvironment.soil) :
    external_resistance inst pop params config =
      external_soil_tail inst pop config.surface_level_y
        (max (inst.position_mm.2 - config.surface_level_y) 0) sl.thermal_resistivity_k_m_per_w := by
  simp only [external_resistance, hsl, henv, if_neg hres]

/-- Flat phase offsets of the sheath-only fixture system. -/
theorem exSystemA_offsets :
    exSystemA.phase_offsets_mm = [(-(100:ℝ), 0), (0, 0), (100, 0)] := by
  simp [exSystemA, CableSystem.phase_offsets_mm]

/-- The sheath-only fixture is not touching (spacing 100 > 1.05·24), so the
grouped form is not used. -/
theorem exA_grouped :
    grouped_direct_burial_resistance exSystemA 1.5 (2 * 600 / 24) 24 = (none, []) := by
  have hspace : min_spacing_of exSystemA.phase_offsets_mm = some 100 := by
    rw [exSystemA_offsets]
    exact min_spacing_flat 100 (by norm_num)
  have hkindA : exSystemA.kind = CableSystemKind.singleCore := rfl
  have hneA : exSystemA.phase_offsets_mm ≠ [] := by rw [exSystemA_offsets]; simp
  have hlenA : 1 < exSystemA.phase_offsets_mm.length := by rw [exSystemA_offsets]; norm_num
  have hcountA : (if exSystemA.phase_offsets_mm.length = 0 then 1
      else exSystemA.phase_offsets_mm.length) = 3 := by
    rw [exSystemA_offsets]; norm_num
  have hDA : (0:ℝ) < 24 := by norm_num
  have hnt : (1.05 : ℝ) * 24 < 100 := by norm_num
  simp only [grouped_direct_burial_resistance, hkindA, hspace, hneA, hlenA, hDA, hcountA,
    ne_eq, not_false_eq_true, true_and, and_true, if_true, ite_true]
  rw [if_pos hnt]

/-- The single-cable buried value of the sheath-only fixture (u = 50 > 10, so
the asymptotic base 2u is used; the lone-population mutual factor is 1). -/
theorem exA_buried :
    buried_medium_resistance 24 600 1.5 exInstanceA [exInstanceA] 0 none =
      (some ((1.5 / (2 * Real.pi)) * Real.log (2 * (2 * 600 / 24) * 1)), []) := by
  have hu1 : ¬ ((2:ℝ) * 600 / 24 ≤ 1) := by norm_num
  have hbase : (10:ℝ) < 2 * 600 / 24 := by norm_num
  simp only [buried_medium_resistance]
  rw [if_neg (by norm_num : ¬ ((600:ℝ) ≤ 0)), if_neg (by norm_num : ¬ ((24:ℝ) ≤ 0)),
    if_neg hu1]
  simp only [hbase, if_true, ite_true, mutual_factor_self_only]
  rw [if_neg (not_le.mpr (by norm_num : (0:ℝ) < 2 * (2 * 600 / 24) * 1))]

/-- Conductor resistance of the sheath-only fixture: 24·(1+0·Δt)/240. -/
theorem exA_resistance :
    conductor_resistance exSystemA exParamsA.conductor_temp_c =
      (some (24 * (1 + 0 * (90 - 20)) / 240), []) := by
  have harea : max (240:ℝ) 0 = 240 := max_eq_left (by norm_num)
  simp only [conductor_resistance, exSystemA, exPhaseSheathOnly, exConductor, exMaterialCu,
    ConductorSpec.electrical_resistivity, exParamsA, harea, Option.getD_none]
  rw [if_neg (by norm_num : ¬ ((240:ℝ) ≤ 0)),
    if_neg (by norm_num : ¬ ((24:ℝ) * (1 + 0 * (90 - 20)) / 240 ≤ 0))]

/-- Radial profile of the sheath-only fixture: one sheath layer from 10 to 12 mm. -/
theorem exA_profile : exPhaseSheathOnly.radial_profile_mm = [(exSheathLayer, 10, 12)] := by
  simp only [CablePhase.radial_profile_mm, exPhaseSheathOnly, exConductor, radialProfileAux,
    exSheathLayer]
  norm_num

/-- Radial resistances of the sheath-only fixture: the sheath is the FIRST
layer, so T1 sums an empty group and is 0 (present but non-positive); no
armour, so T2 = 0 and T3 takes the sheath; no issues are recorded. -/
theorem exA_radial :
    radial_resistances exSystemA =
      ((some 0, some 0, some (0 + 6 / (2 * Real.pi) * Real.log (12 / 1000 / (10 / 1000)))), []) := by
  have hk : exSystemA.kind = CableSystemKind.singleCore := rfl
  have hp : exSystemA.single_core_phase = some exPhaseSheathOnly := rfl
  have hsi : find_layer_index [((exSheathLayer : LayerSpec), (10:ℝ), (12:ℝ))] LayerRole.sheath =
      some 0 := by
    simp [find_layer_index, find_layer_index_from, exSheathLayer]
  have hai : find_layer_index [((exSheathLayer : LayerSpec), (10:ℝ), (12:ℝ))] LayerRole.armour =
      none := by
    simp [find_layer_index, find_layer_index_from, exSheathLayer]
  have hrho : layer_rho exSheathLayer = some 6 := rfl
  have ht1 : sum_layer_resistances ([] : List (LayerSpec × ℝ × ℝ)) ("T1") = (some 0, []) := rfl
  have ht3 : sum_layer_resistances [((exSheathLayer : LayerSpec), (10:ℝ), (12:ℝ))] ("T3") =
      (some (0 + 6 / (2 * Real.pi) * Real.log (12 / 1000 / (10 / 1000))), []) := by
    simp only [sum_layer_resistances, sum_layers_from, hrho]
    rw [if_neg (by norm_num : ¬ ((6:ℝ) ≤ 0)), if_neg (by norm_num : ¬ ((12:ℝ) ≤ 10)),
      if_pos (by norm_num : (0:ℝ) < 10), if_neg (by norm_num : ¬ ((12:ℝ) / 1000 ≤ 10 / 1000))]
  simp only [radial_resistances, hk, hp, exA_profile, hsi, hai, List.take_zero, List.drop_zero,
    ht1, ht3]
  rfl

/-- External resistance of the sheath-only fixture, end to end: soil
environment, single-cable fallback, no issues. -/
theorem exA_t4 :
    external_resistance exInstanceA [exInstanceA] exParamsA exConfig =
      (some ((1.5 / (2 * Real.pi)) * Real.log (2 * (2 * 600 / 24) * 1)), []) := by
  have hmax : max (exInstanceA.position_mm.2 - exConfig.surface_level_y) 0 = (600:ℝ) := by
    norm_num [exInstanceA, exConfig]
  have hsoil : soil_layer_for_depth exConfig.layers 600 = some exGround := by
    simp only [exConfig, soil_layer_for_depth, exGround]
    norm_num
  have henv : determine_environment exSystemA 600 (some exGround) = InstallEnvironment.soil := by
    simp only [determine_environment, exSystemA]
    rw [if_neg (by norm_num : ¬ ((600:ℝ) ≤ 0))]
    simp [environment_no_duct, exGround]
  have hext := external_resistance_soil_case exInstanceA [exInstanceA] exParamsA exConfig exGround
    (by rw [hmax]; exact hsoil) (by norm_num [exGround]) (by rw [hmax]; exact henv)
  rw [hext, hmax, show exConfig.surface_level_y = (0:ℝ) from rfl,
    show exGround.thermal_resistivity_k_m_per_w = (1.5:ℝ) from rfl]
  have hod : resolve_outer_diameter exInstanceA = some 24 := by
    simp only [resolve_outer_diameter, exInstanceA]
    norm_num
  simp only [external_soil_tail, hod]
  rw [if_neg (by norm_num : ¬ ((24:ℝ) ≤ 0)), if_neg (by norm_num : ¬ ((600:ℝ) ≤ 0))]
  have hsys : exInstanceA.system = exSystemA := rfl
  have hnrho : ¬ ((1.5:ℝ) ≤ 0) := by norm_num
  have hnu : ¬ ((2:ℝ) * 600 / 24 ≤ 1) := by norm_num
  simp only [t4_direct_buried, hnrho, hnu, if_false, ite_false, hsys, exA_grouped, exA_buried]
  rfl

/-- The ampacity block with T1 = 0 and every part present: `valid_inputs`
fails on T1 > 0, and the null-field else-branch appends nothing. -/
theorem ampacity_parts_t1_zero (params : CalculatorParams) (r t2v t3v t4v : ℝ)
    (hdelta : ¬ params.conductor_temp_c - params.ambient_temp_c ≤ 0) :
    ampacity_from_parts params (some r) (some 0) (some t2v) (some t3v) (some t4v) = (none, []) := by
  have hnv : ¬ ((opt_pos (some r) ∧ opt_pos (some 0) ∧ opt_nonneg (some t3v) ∧ opt_pos (some t4v)) ∧
      0 < params.conductor_temp_c - params.ambient_temp_c) := by
    rintro ⟨⟨-, h1, -⟩, -⟩
    simp only [opt_pos] at h1
    exact lt_irrefl 0 h1
  simp only [ampacity_from_parts]
  rw [if_neg hnv, if_neg hdelta]
  simp

/--
C6 counterexample: for the sheath-only fixture every component quantity is
present (R = 0.1, T1 = 0 because the sheath is the first radial layer, T2 = 0,
T3 and T4 positive) and Δθ = 70 > 0, yet `valid_inputs` fails on T1 > 0 and the
else-branch appends nothing: the returned ampacity is null while the issue
list is EMPTY — refuting "each null is accompanied by at least one
human-readable issue string".
-/
theorem C6_counterexample :
    (compute_result exInstanceA exParamsA [exInstanceA] exConfig).ampacity_a = none ∧
    (compute_result exInstanceA exParamsA [exInstanceA] exConfig).issues = [] := by
  have hsys : exInstanceA.system = exSystemA := rfl
  have hdelta : ¬ exParamsA.conductor_temp_c - exParamsA.ambient_temp_c ≤ 0 := by
    norm_num [exParamsA]
  have hampRw : ampacity_from_parts exParamsA (some (24 * (1 + 0 * (90 - 20)) / 240)) (some 0)
      (some 0) (some (0 + 6 / (2 * Real.pi) * Real.log (12 / 1000 / (10 / 1000))))
      (some ((1.5 / (2 * Real.pi)) * Real.log (2 * (2 * 600 / 24) * 1))) = (none, []) :=
    ampacity_parts_t1_zero exParamsA _ _ _ _ hdelta
  constructor
  · simp only [compute_result_amp, hsys, exA_resistance, exA_radial, exA_t4, hampRw]
  · simp only [compute_result_issues, hsys, exA_resistance, exA_radial, exA_t4, hampRw]
    rfl

/-- Witness for C6: the degenerate multicore instance has every component
field null, and the theorem yields a non-empty issue list for each. -/
theorem C6_nulls_have_issues_witness :
    (compute_all [exInstanceM] exParamsA exConfig).length = 1 ∧
    (compute_result exInstanceM exParamsA [exInstanceM] exConfig).conductor_resistance_ohm_per_m = none ∧
    (compute_result exInstanceM exParamsA [exInstanceM] exConfig).t1 = none ∧
    (compute_result exInstanceM exParamsA [exInstanceM] exConfig).t2 = none ∧
    (compute_result exInstanceM exParamsA [exInstanceM] exConfig).t3 = none ∧
    (compute_result exInstanceM exParamsA [exInstanceM] exConfig).t4 = none ∧
    (compute_result exInstanceM exParamsA [exInstanceM] exConfig).issues ≠ [] := by
  have h := C6_nulls_have_issues exInstanceM exParamsA [exInstanceM] exConfig
  have hR : (compute_result exInstanceM exParamsA [exInstanceM] exConfig).conductor_resistance_ohm_per_m = none := rfl
  have h1 : (compute_result exInstanceM exParamsA [exInstanceM] exConfig).t1 = none := rfl
  have h2 : (compute_result exInstanceM exParamsA [exInstanceM] exConfig).t2 = none := rfl
  have h3 : (compute_result exInstanceM exParamsA [exInstanceM] exConfig).t3 = none := rfl
  have h4 : (compute_result exInstanceM exParamsA [exInstanceM] exConfig).t4 = none := by
    have hmaxM : max (exInstanceM.position_mm.2 - exConfig.surface_level_y) 0 = (600:ℝ) := by
      norm_num [exInstanceM, exConfig]
    have hsoilM : soil_layer_for_depth exConfig.layers 600 = some exGround := by
      simp only [exConfig, soil_layer_for_depth, exGround]
      norm_num
    have henvM : determine_environment exSystemM 600 (some exGround) = InstallEnvironment.soil := by
      simp only [determine_environment, exSystemM]
      rw [if_neg (by norm_num : ¬ ((600:ℝ) ≤ 0))]
      simp [environment_no_duct, exGround]
    have hextM := external_resistance_soil_case exInstanceM [exInstanceM] exParamsA exConfig
      exGround (by rw [hmaxM]; exact hsoilM) (by norm_num [exGround]) (by rw [hmaxM]; exact henvM)
    rw [compute_result_t4, hextM]
    rfl
  exact ⟨h.1.trans rfl, hR, h1, h2, h3, h4, h.2.2.2.2.2 h4⟩

/-! ## Claim C7: mesh-builder invariants -/

/-- `sorted(...)` really sorts. -/
theorem sortReal_sorted (l : List ℝ) : List.Sorted (· ≤ ·) (sortReal l) :=
  List.sorted_mergeSort' l

/-- `sorted(...)` is a permutation of the input. -/
theorem sortReal_perm (l : List ℝ) : (sortReal l).Perm l :=
  List.mergeSort_perm l _

/-- Sorting a sorted list is the identity. -/
theorem sortReal_eq_self {l : List ℝ} (h : List.Sorted (· ≤ ·) l) : sortReal l = l :=
  List.mergeSort_eq_self h

/-- A sorted rearrangement is THE sort. -/
theorem sortReal_eq_of_perm {l target : List ℝ} (hp : l.Perm target)
    (hs : List.Sorted (· ≤ ·) target) : sortReal l = target :=
  List.eq_of_perm_of_sorted ((sortReal_perm l).trans hp) (sortReal_sorted l) hs

/-- The 1e-4 separation relation is transitive, so separated chains are
pairwise separated. -/
theorem gap_chain_pairwise {l : List ℝ} (h : List.Chain' (fun a b : ℝ => 1e-4 < b - a) l) :
    List.Pairwise (fun a b : ℝ => 1e-4 < b - a) l := by
  haveI : IsTrans ℝ (fun a b : ℝ => 1e-4 < b - a) := ⟨fun a b c h1 h2 => by linarith⟩
  exact List.chain'_iff_pairwise.mp h

/-- Separated chains are strictly increasing. -/
theorem gap_chain_lt {l : List ℝ} (h : List.Chain' (fun a b : ℝ => 1e-4 < b - a) l) :
    List.Chain' (· < ·) l :=
  h.imp (fun a b hab => by linarith)

/-- Separated chains are sorted. -/
theorem gap_chain_sorted {l : List ℝ} (h : List.Chain' (fun a b : ℝ => 1e-4 < b - a) l) :
    List.Sorted (· ≤ ·) l :=
  (gap_chain_pairwise h).imp (fun hab => by linarith)

/-- Separated chains have no duplicates. -/
theorem gap_chain_nodup {l : List ℝ} (h : List.Chain' (fun a b : ℝ => 1e-4 < b - a) l) :
    l.Nodup :=
  (gap_chain_pairwise h).imp (fun hab => by intro he; rw [he] at hab; linarith)

/-- `getLast?` of a cons in `getLastD` form. -/
theorem getLast_cons_getLastD {α : Type _} : ∀ (l : List α) (a : α),
    (a :: l).getLast? = some (l.getLastD a) := by
  intro l
  induction l with
  | nil => intro a; rfl
  | cons b t ih =>
    intro a
    rw [List.getLast?_cons_cons, ih b, List.getLastD_cons]

/-- The last element of a `≤`-chain is its running maximum. -/
theorem chain_le_getLastD_foldl_max : ∀ (l : List ℝ) (a : ℝ),
    List.Chain' (· ≤ ·) (a :: l) → l.getLastD a = l.foldl max a := by
  intro l
  induction l with
  | nil => intro a _; rfl
  | cons b t ih =>
    intro a h
    obtain ⟨hab, hbt⟩ := List.chain'_cons.mp h
    rw [List.getLastD_cons, List.foldl_cons, max_eq_right hab]
    exact ih b hbt

/-- Invariant of the `_uniformize_axis_nodes` fold: the accumulator stays a
(reversed) 1e-4-separated chain whose head is the running maximum. -/
theorem uniformize_fold_max : ∀ (l : List ℝ) (h : ℝ) (t : List ℝ),
    List.Chain' (fun a b : ℝ => 1e-4 < a - b) (h :: t) →
    ∃ t2, l.foldl uniformize_step (h :: t) = (l.foldl max h) :: t2 ∧
      List.Chain' (fun a b : ℝ => 1e-4 < a - b) ((l.foldl max h) :: t2) := by
  intro l
  induction l with
  | nil => intro h t hc; exact ⟨t, rfl, hc⟩
  | cons v vs ih =>
    intro h t hc
    rw [List.foldl_cons, List.foldl_cons]
    by_cases hpush : 1e-4 < v - h
    · have hstep : uniformize_step (h :: t) v = v :: h :: t := by
        simp only [uniformize_step]
        rw [if_pos hpush]
      rw [hstep, max_eq_right (by linarith : h ≤ v)]
      exact ih v (h :: t) (List.chain'_cons.mpr ⟨hpush, hc⟩)
    · have hstep : uniformize_step (h :: t) v = max h v :: t := by
        simp only [uniformize_step]
        rw [if_neg hpush]
      rw [hstep]
      refine ih (max h v) t ?_
      rcases t with _ | ⟨u, t2⟩
      · exact List.chain'_singleton _
      · obtain ⟨hhu, hut⟩ := List.chain'_cons.mp hc
        exact List.chain'_cons.mpr ⟨by have := le_max_left h v; linarith, hut⟩

/-- `_uniformize_axis_nodes` always produces a 1e-4-separated (hence strictly
increasing) chain. -/
theorem uniformize_chain (nodes : List ℝ) :
    List.Chain' (fun a b : ℝ => 1e-4 < b - a) (uniformize_axis_nodes nodes) := by
  rcases hs : sortReal nodes with _ | ⟨first, rest⟩
  · simp [uniformize_axis_nodes, hs]
  · have hsort : List.Sorted (· ≤ ·) (first :: rest) := hs ▸ sortReal_sorted nodes
    have hchain_le : List.Chain' (· ≤ ·) (first :: rest) := hsort.chain'
    obtain ⟨t2, heq, hch⟩ := uniformize_fold_max rest first [] (List.chain'_singleton _)
    have hlast : rest.getLastD first = rest.foldl max first :=
      chain_le_getLastD_foldl_max rest first hchain_le
    simp only [uniformize_axis_nodes, hs, heq, hlast, set_head]
    rw [List.chain'_reverse]
    exact hch

/-- On an already separated chain the `_uniformize_axis_nodes` fold only pushes. -/
theorem uniformize_fold_push : ∀ (rest : List ℝ) (last : ℝ) (t : List ℝ),
    List.Chain' (fun a b : ℝ => 1e-4 < b - a) (last :: rest) →
    rest.foldl uniformize_step (last :: t) = rest.reverse ++ last :: t := by
  intro rest
  induction rest with
  | nil => intro last t _; rfl
  | cons v vs ih =>
    intro last t h
    obtain ⟨hlv, hvt⟩ := List.chain'_cons.mp h
    rw [List.foldl_cons]
    have hstep : uniformize_step (last :: t) v = v :: last :: t := by
      simp only [uniformize_step]
      rw [if_pos hlv]
    rw [hstep, ih v (last :: t) hvt, List.reverse_cons, List.append_assoc, List.cons_append,
      List.nil_append]

/-- Replacing the head by its own value is the identity. -/
theorem set_head_eq_of_head {l : List ℝ} {v : ℝ} (h : l.head? = some v) : set_head l v = l := by
  rcases l with _ | ⟨a, t⟩
  · rfl
  · simp only [List.head?_cons, Option.some_inj] at h
    rw [set_head, h]

/-- `_uniformize_axis_nodes` is the identity on 1e-4-separated chains. -/
theorem uniformize_eq_self (l : List ℝ) (h : List.Chain' (fun a b : ℝ => 1e-4 < b - a) l) :
    uniformize_axis_nodes l = l := by
  rcases l with _ | ⟨first, rest⟩
  · have hs : sortReal ([] : List ℝ) = [] := sortReal_eq_self (by simp)
    simp [uniformize_axis_nodes, hs]
  · have hs : sortReal (first :: rest) = first :: rest := sortReal_eq_self (gap_chain_sorted h)
    have hfold := uniformize_fold_push rest first [] h
    have hhead : ((rest.reverse ++ first :: []).head? : Option ℝ) = some (rest.getLastD first) := by
      rcases rest with _ | ⟨r, rs⟩
      · rfl
      · rw [List.head?_append, List.head?_reverse, getLast_cons_getLastD rs r,
          List.getLastD_cons]
        rfl
    simp only [uniformize_axis_nodes, hs, hfold, set_head_eq_of_head hhead]
    rw [List.reverse_append, List.reverse_reverse, List.reverse_cons, List.reverse_nil,
      List.nil_append, List.singleton_append]

/-- Head-recursion form of the subdivision points. -/
theorem enforce_segments_succ (a step : ℝ) (n : ℕ) :
    enforce_segments a step (n + 1) = (a + step) :: enforce_segments (a + step) step n := by
  simp only [enforce_segments, List.range_succ_eq_map, List.map_cons, List.map_map,
    List.cons.injEq]
  constructor
  · push_cast
    ring
  · apply List.map_congr_left
    intro k _
    simp only [Function.comp]
    push_cast
    ring

/-- The subdivision produces `segments` points. -/
theorem enforce_segments_length (a step : ℝ) (n : ℕ) :
    (enforce_segments a step n).length = n := by
  rw [enforce_segments, List.length_map, List.length_range]

/-- Subdivision points with step above the merge threshold chain onto a tail
starting at the segment end. -/
theorem enforce_segments_chain (step : ℝ) (hstep : 1e-4 < step) :
    ∀ (n : ℕ) (a : ℝ) (t : List ℝ),
      List.Chain' (fun x y : ℝ => 1e-4 < y - x) ((a + step * n) :: t) →
      List.Chain' (fun x y : ℝ => 1e-4 < y - x) (a :: (enforce_segments a step n ++ t)) := by
  intro n
  induction n with
  | zero =>
    intro a t h
    rw [show ((0:ℕ):ℝ) = 0 by norm_num, mul_zero, add_zero] at h
    simpa [enforce_segments] using h
  | succ n ih =>
    intro a t h
    rw [enforce_segments_succ, List.cons_append, List.chain'_cons]
    refine ⟨by linarith, ?_⟩
    refine ih (a + step) t ?_
    have hcast : (a + step) + step * (n : ℝ) = a + step * (((n + 1 : ℕ)) : ℝ) := by
      push_cast
      ring
    rw [hcast]
    exact h

/-- Arithmetic of the subdivision branch: at least one segment, and the
realised step stays above half the allowed spacing (hence above the 1e-4
merge threshold). -/
theorem subdiv_facts (interval allowed : ℝ) (hall : 2 * 1e-4 < allowed)
    (hint : allowed * (1 + 1e-9) < interval) :
    (max 1 (Int.ceil (interval / allowed)).toNat ≠ 0) ∧
    1e-4 < interval / ((max 1 (Int.ceil (interval / allowed)).toNat : ℕ) : ℝ) := by
  have hallpos : 0 < allowed := by linarith
  have hintpos : 0 < interval := by nlinarith
  have hq1 : 1 < interval / allowed := (one_lt_div hallpos).mpr (by nlinarith)
  have hceil2 : 2 ≤ Int.ceil (interval / allowed) := by
    have h1 : (1 : ℤ) < Int.ceil (interval / allowed) := Int.lt_ceil.mpr (by exact_mod_cast hq1)
    omega
  have hmax : max 1 (Int.ceil (interval / allowed)).toNat = (Int.ceil (interval / allowed)).toNat :=
    max_eq_right (by omega)
  have hcast : (((Int.ceil (interval / allowed)).toNat : ℕ) : ℝ) =
      ((Int.ceil (interval / allowed) : ℤ) : ℝ) := by
    exact_mod_cast congrArg (fun z : ℤ => (z : ℝ)) (Int.toNat_of_nonneg (by omega))
  have hlt : ((Int.ceil (interval / allowed) : ℤ) : ℝ) < interval / allowed + 1 :=
    Int.ceil_lt_add_one _
  have hqpos : 0 < interval / allowed := by positivity
  have hlt2 : interval / allowed + 1 < 2 * (interval / allowed) := by linarith
  have hc_pos : (0:ℝ) < (((Int.ceil (interval / allowed)).toNat : ℕ) : ℝ) := by
    rw [hcast]
    have : ((2:ℤ) : ℝ) ≤ ((Int.ceil (interval / allowed) : ℤ) : ℝ) := by exact_mod_cast hceil2
    linarith
  refine ⟨by omega, ?_⟩
  rw [hmax]
  have heq : allowed / 2 = interval / (2 * (interval / allowed)) := by
    field_simp
    ring
  have hfin : interval / (2 * (interval / allowed)) <
      interval / (((Int.ceil (interval / allowed)).toNat : ℕ) : ℝ) := by
    apply div_lt_div_of_pos_left hintpos hc_pos
    rw [hcast]
    linarith
  linarith [heq ▸ hfin]

/-- One pass of `_enforce_spacing_growth` keeps the nodes a 1e-4-separated
chain and never empties the tail (for `min_step` above twice the merge
threshold). -/
theorem enforce_pass_aux_chain (rel : List ℝ) (ratio ms : ℝ) (hms : 2 * 1e-4 < ms) :
    ∀ (l : List ℝ) (a : ℝ),
      List.Chain' (fun x y : ℝ => 1e-4 < y - x) (a :: l) →
      List.Chain' (fun x y : ℝ => 1e-4 < y - x) (a :: (enforce_pass_aux rel ratio ms (a :: l)).1) ∧
      (l ≠ [] → (enforce_pass_aux rel ratio ms (a :: l)).1 ≠ []) := by
  intro l
  induction l with
  | nil =>
    intro a _
    refine ⟨?_, fun hc => absurd rfl hc⟩
    simp [enforce_pass_aux]
  | cons b rest ih =>
    intro a h
    obtain ⟨hab, hbt⟩ := List.chain'_cons.mp h
    obtain ⟨ihc, ihne⟩ := ih b hbt
    have hint_pos : ¬ (b - a ≤ 0) := by linarith
    simp only [enforce_pass_aux]
    rw [if_neg hint_pos]
    have hall : 2 * 1e-4 < max ms (min_distance_to ((a + b) / 2) rel * ratio) := by
      have := le_max_left ms (min_distance_to ((a + b) / 2) rel * ratio)
      linarith
    by_cases hkeep : b - a ≤ max ms (min_distance_to ((a + b) / 2) rel * ratio) * (1 + 1e-9)
    · rw [if_pos hkeep]
      exact ⟨List.chain'_cons.mpr ⟨hab, ihc⟩, fun _ => by simp⟩
    · rw [if_neg hkeep]
      obtain ⟨hne0, hstep⟩ := subdiv_facts (b - a)
        (max ms (min_distance_to ((a + b) / 2) rel * ratio)) hall (lt_of_not_le hkeep)
      have hc0 : (((max 1 (Int.ceil ((b - a) / max ms (min_distance_to ((a + b) / 2) rel * ratio))).toNat : ℕ) : ℝ)) ≠ 0 := by
        exact_mod_cast hne0
      constructor
      · apply enforce_segments_chain _ hstep
        have hend : a + (b - a) /
            ((max 1 (Int.ceil ((b - a) / max ms (min_distance_to ((a + b) / 2) rel * ratio))).toNat : ℕ) : ℝ) *
            ((max 1 (Int.ceil ((b - a) / max ms (min_distance_to ((a + b) / 2) rel * ratio))).toNat : ℕ) : ℝ) = b := by
          field_simp
        rw [hend]
        exact ihc
      · intro _ hcon
        dsimp only at hcon
        rw [List.append_eq_nil] at hcon
        have hlen := enforce_segments_length a
          ((b - a) / ((max 1 (Int.ceil ((b - a) / max ms (min_distance_to ((a + b) / 2) rel * ratio))).toNat : ℕ) : ℝ))
          (max 1 (Int.ceil ((b - a) / max ms (min_distance_to ((a + b) / 2) rel * ratio))).toNat)
        rw [hcon.1] at hlen
        simp only [List.length_nil] at hlen
        exact hne0 hlen.symm

/-- A full `_enforce_spacing_growth` pass preserves the separated chain and
keeps at least two nodes. -/
theorem enforce_pass_chain (rel : List ℝ) (ratio ms : ℝ) (hms : 2 * 1e-4 < ms)
    (nodes : List ℝ) (h : List.Chain' (fun x y : ℝ => 1e-4 < y - x) nodes)
    (hlen : 2 ≤ nodes.length) :
    List.Chain' (fun x y : ℝ => 1e-4 < y - x) (enforce_pass rel ratio ms nodes).1 ∧
    2 ≤ (enforce_pass rel ratio ms nodes).1.length := by
  rcases nodes with _ | ⟨a, l⟩
  · norm_num at hlen
  · rcases l with _ | ⟨b, rest⟩
    · norm_num at hlen
    · obtain ⟨hc, hne⟩ := enforce_pass_aux_chain rel ratio ms hms (b :: rest) a h
      have hne2 := hne (by simp)
      simp only [enforce_pass]
      refine ⟨hc, ?_⟩
      rcases ht : (enforce_pass_aux rel ratio ms (a :: b :: rest)).1 with _ | ⟨x, xs⟩
      · exact absurd ht hne2
      · simp [ht]

/-- The `while changed` loop of `_enforce_spacing_growth` preserves the
separated chain and node count for any fuel. -/
theorem enforce_loop_chain (rel : List ℝ) (ratio ms : ℝ) (hms : 2 * 1e-4 < ms) :
    ∀ (fuel : ℕ) (cur : List ℝ), List.Chain' (fun x y : ℝ => 1e-4 < y - x) cur →
      2 ≤ cur.length →
      List.Chain' (fun x y : ℝ => 1e-4 < y - x) (enforce_loop rel ratio ms fuel cur) ∧
      2 ≤ (enforce_loop rel ratio ms fuel cur).length := by
  intro fuel
  induction fuel with
  | zero => intro cur h hl; exact ⟨h, hl⟩
  | succ f ih =>
    intro cur h hl
    obtain ⟨hc, hlen⟩ := enforce_pass_chain rel ratio ms hms cur h hl
    simp only [enforce_loop]
    by_cases hflag : (enforce_pass rel ratio ms cur).2 = true
    · rw [if_pos hflag]
      exact ih _ hc hlen
    · rw [if_neg hflag]
      exact ⟨hc, hlen⟩

/-- `_enforce_spacing_growth` preserves the separated chain and (for inputs
with at least two nodes) the node count, whenever `min_step ≥ 5`. -/
theorem enforce_growth_chain (nodes rel : List ℝ) (ratio ms : ℝ) (fuel : ℕ)
    (hms : 5 ≤ ms) (h : List.Chain' (fun x y : ℝ => 1e-4 < y - x) nodes) :
    List.Chain' (fun x y : ℝ => 1e-4 < y - x) (enforce_spacing_growth nodes rel ratio ms fuel) ∧
    (2 ≤ nodes.length → 2 ≤ (enforce_spacing_growth nodes rel ratio ms fuel).length) := by
  simp only [enforce_spacing_growth]
  split_ifs with h1 h2
  · exact ⟨h, id⟩
  · exact ⟨h, id⟩
  · have hcur : sortReal nodes.dedup = nodes := by
      rw [List.dedup_eq_self.mpr (gap_chain_nodup h)]
      exact sortReal_eq_self (gap_chain_sorted h)
    rw [hcur]
    have hms1 : 2 * 1e-4 < max ms 1e-6 := by
      have := le_max_left ms 1e-6
      linarith
    have hlen2 : 2 ≤ nodes.length := not_lt.mp h1
    obtain ⟨hc, hl⟩ := enforce_loop_chain
      (sortReal ((rel ++ [nodes.headD 0, nodes.getLastD 0]).dedup)) ratio (max ms 1e-6) hms1
      fuel nodes h hlen2
    exact ⟨hc, fun _ => hl⟩

/-- Both components of `_build_domain` are `_uniformize_axis_nodes` outputs. -/
theorem build_domain_eq (scene : Scene) (cables : List MeshCableDefinition) (g p : ℝ)
    (fuel : ℕ) :
    ∃ X Y, build_domain scene cables g p fuel =
      (uniformize_axis_nodes X, uniformize_axis_nodes Y) :=
  ⟨_, _, rfl⟩

/-- Values seen by `enumerate` come from the list. -/
theorem snd_mem_of_mem_enum {α : Type _} {p : ℕ × α} {l : List α} (h : p ∈ l.enum) :
    p.2 ∈ l := by
  rcases p with ⟨i, x⟩
  obtain ⟨-, hi, hx⟩ := List.mem_enumFrom h
  rw [hx]
  exact List.getElem_mem _

/-- Indices seen by `enumerate` are below the list length. -/
theorem fst_lt_of_mem_enum {α : Type _} {p : ℕ × α} {l : List α} (h : p ∈ l.enum) :
    p.1 < l.length := by
  rcases p with ⟨i, x⟩
  obtain ⟨-, hi, -⟩ := List.mem_enumFrom h
  simpa using hi

/-- Members of an indexed map are images of members. -/
theorem mem_of_mem_mapIdx {α β : Type _} {f : ℕ → α → β} {l : List α} {b : β}
    (h : b ∈ l.mapIdx f) : ∃ i a, a ∈ l ∧ b = f i a := by
  rw [List.mapIdx_eq_enum_map] at h
  obtain ⟨p, hp, he⟩ := List.mem_map.mp h
  exact ⟨p.1, p.2, snd_mem_of_mem_enum hp, he.symm⟩

/-- `_cell_centres` yields one centre per interval. -/
theorem cell_centres_length : ∀ (l : List ℝ), (cell_centres l).length = l.length - 1 := by
  intro l
  induction l with
  | nil => rfl
  | cons a rest ih =>
    rcases rest with _ | ⟨b, rest2⟩
    · rfl
    · simp only [cell_centres, List.length_cons] at ih ⊢
      omega

/-- The per-depth resistivity loop only returns floored values. -/
theorem resistivity_depth_loop_ge (dres : ℝ) :
    ∀ (layers : List TrenchLayer) (rem v : ℝ),
      resistivity_depth_loop dres layers rem = some v → MIN_RESISTIVITY ≤ v := by
  intro layers
  induction layers with
  | nil => intro rem v h; simp [resistivity_depth_loop] at h
  | cons layer rest ih =>
    intro rem v h
    simp only [resistivity_depth_loop] at h
    split_ifs at h
    · rw [Option.some_inj] at h
      rw [← h]
      exact le_max_right _ _
    · exact ih _ v h

/-- `_resistivity_for_depth` is always at least the floor. -/
theorem resistivity_for_depth_ge (layers : List TrenchLayer) (depth dres : ℝ) :
    MIN_RESISTIVITY ≤ resistivity_for_depth layers depth dres := by
  rcases hl : layers with _ | ⟨first, rest⟩
  · simp only [resistivity_for_depth]
    exact le_max_right _ _
  · simp only [resistivity_for_depth]
    split_ifs
    · exact le_max_right _ _
    · rcases hloop : resistivity_depth_loop dres (first :: rest) depth with _ | v
      · simp only [hloop]
        exact le_max_right _ _
      · simp only [hloop]
        exact resistivity_depth_loop_ge dres (first :: rest) depth v hloop

/-- `_region_resistivity` is always at least the floor. -/
theorem region_resistivity_ge : ∀ (layers : List CableLayerRegion) (radius : ℝ),
    MIN_RESISTIVITY ≤ region_resistivity layers radius := by
  intro layers
  induction layers with
  | nil => intro radius; exact le_refl _
  | cons layer rest ih =>
    intro radius
    rcases rest with _ | ⟨r, rs⟩
    · simp only [region_resistivity]
      split_ifs <;> exact le_max_right _ _
    · simp only [region_resistivity]
      by_cases hr : radius ≤ layer.outer_radius_mm + 1e-9
      · rw [if_pos hr]
        exact le_max_right _ _
      · rw [if_neg hr]
        exact ih radius

/-- A duct update keeps cell resistivities at or above the floor. -/
theorem duct_cell_update_ge (duct : MeshDuctDefinition) (xs ys : List ℝ) (j i : ℕ) (v : ℝ)
    (h : MIN_RESISTIVITY ≤ v) : MIN_RESISTIVITY ≤ duct_cell_update duct xs ys j i v := by
  simp only [duct_cell_update]
  split_ifs
  · exact h
  · exact le_max_right _ _
  · exact le_max_right _ _
  · exact h

/-- A doubly indexed map preserves grid shape. -/
theorem mapIdx_grid_shape {α : Type _} (g : List (List α)) (f : ℕ → ℕ → α → α) (rn cn : ℕ)
    (h1 : g.length = rn) (h2 : ∀ row ∈ g, row.length = cn) :
    (g.mapIdx (fun j row => row.mapIdx (fun i v => f j i v))).length = rn ∧
    ∀ row ∈ g.mapIdx (fun j row => row.mapIdx (fun i v => f j i v)), row.length = cn := by
  constructor
  · rw [List.length_mapIdx]
    exact h1
  · intro row hrow
    obtain ⟨j, row0, hrow0, heq⟩ := mem_of_mem_mapIdx hrow
    rw [heq, List.length_mapIdx]
    exact h2 row0 hrow0

/-- A doubly indexed map preserves a per-entry property closed under the
update. -/
theorem mapIdx_grid_entries {α : Type _} (g : List (List α)) (f : ℕ → ℕ → α → α)
    (P : α → Prop) (hf : ∀ j i v, P v → P (f j i v))
    (h : ∀ row ∈ g, ∀ v ∈ row, P v) :
    ∀ row ∈ g.mapIdx (fun j row => row.mapIdx (fun i v => f j i v)), ∀ v ∈ row, P v := by
  intro row hrow v hv
  obtain ⟨j, row0, hrow0, heq⟩ := mem_of_mem_mapIdx hrow
  rw [heq] at hv
  obtain ⟨i, v0, hv0, hev⟩ := mem_of_mem_mapIdx hv
  rw [hev]
  exact hf j i v0 (h row0 hrow0 v0 hv0)

/-- `_apply_duct_regions` preserves shape and the resistivity floor. -/
theorem apply_duct_regions_inv (ducts : List MeshDuctDefinition) (xs ys : List ℝ) (rn cn : ℕ) :
    ∀ (g : List (List ℝ)), g.length = rn → (∀ row ∈ g, row.length = cn) →
    (∀ row ∈ g, ∀ v ∈ row, MIN_RESISTIVITY ≤ v) →
    (apply_duct_regions ducts xs ys g).length = rn ∧
    (∀ row ∈ apply_duct_regions ducts xs ys g, row.length = cn) ∧
    (∀ row ∈ apply_duct_regions ducts xs ys g, ∀ v ∈ row, MIN_RESISTIVITY ≤ v) := by
  induction ducts with
  | nil =>
    intro g h1 h2 h3
    exact ⟨h1, h2, h3⟩
  | cons d ds ih =>
    intro g h1 h2 h3
    obtain ⟨hs1, hs2⟩ := mapIdx_grid_shape g (fun j i v => duct_cell_update d xs ys j i v) rn cn h1 h2
    have hs3 := mapIdx_grid_entries g (fun j i v => duct_cell_update d xs ys j i v) _
      (fun j i v hv => duct_cell_update_ge d xs ys j i v hv) h3
    exact ih _ hs1 hs2 hs3

/-- `_apply_cable_regions` preserves grid shapes. -/
theorem apply_cable_regions_shape (c : MeshCableDefinition) (xs ys : List ℝ)
    (res : List (List ℝ)) (ci : List (List ℤ)) (idx : ℤ) (rn cn : ℕ)
    (hr1 : res.length = rn) (hr2 : ∀ row ∈ res, row.length = cn)
    (hc1 : ci.length = rn) (hc2 : ∀ row ∈ ci, row.length = cn) :
    (apply_cable_regions c xs ys res ci idx).1.length = rn ∧
    (∀ row ∈ (apply_cable_regions c xs ys res ci idx).1, row.length = cn) ∧
    (apply_cable_regions c xs ys res ci idx).2.length = rn ∧
    (∀ row ∈ (apply_cable_regions c xs ys res ci idx).2, row.length = cn) := by
  rcases hl : c.layers with _ | ⟨l0, ls⟩
  · simp only [apply_cable_regions, hl]
    exact ⟨hr1, hr2, hc1, hc2⟩
  · simp only [apply_cable_regions, hl]
    split_ifs
    · exact ⟨hr1, hr2, hc1, hc2⟩
    · obtain ⟨ha1, ha2⟩ := mapIdx_grid_shape res
        (fun j i v => if cable_cell_hit c xs ys j i then
          region_resistivity (l0 :: ls) (cable_cell_distance c xs ys j i) else v) rn cn hr1 hr2
      obtain ⟨hb1, hb2⟩ := mapIdx_grid_shape ci
        (fun j i w => if cable_cell_hit c xs ys j i ∧
            cable_cell_distance c xs ys j i ≤ c.conductor_radius_mm +
              Real.sqrt ((0.5 * (xs.getD (i + 1) 0 - xs.getD i 0)) ^ 2 +
                (0.5 * (ys.getD (j + 1) 0 - ys.getD j 0)) ^ 2) then idx else w) rn cn hc1 hc2
      exact ⟨ha1, ha2, hb1, hb2⟩

/-- `_apply_cable_regions` preserves the resistivity floor. -/
theorem apply_cable_regions_res_ge (c : MeshCableDefinition) (xs ys : List ℝ)
    (res : List (List ℝ)) (ci : List (List ℤ)) (idx : ℤ)
    (h : ∀ row ∈ res, ∀ v ∈ row, MIN_RESISTIVITY ≤ v) :
    ∀ row ∈ (apply_cable_regions c xs ys res ci idx).1, ∀ v ∈ row, MIN_RESISTIVITY ≤ v := by
  rcases hl : c.layers with _ | ⟨l0, ls⟩
  · simp only [apply_cable_regions, hl]
    exact h
  · simp only [apply_cable_regions, hl]
    split_ifs
    · exact h
    · exact mapIdx_grid_entries res
        (fun j i v => if cable_cell_hit c xs ys j i then
          region_resistivity (l0 :: ls) (cable_cell_distance c xs ys j i) else v) _
        (fun j i v hv => by
          dsimp only
          split_ifs
          · exact region_resistivity_ge (l0 :: ls) _
          · exact hv) h

/-- `_apply_cable_regions` writes only `-1` or the given cable index into the
ownership grid. -/
theorem apply_cable_regions_own (c : MeshCableDefinition) (xs ys : List ℝ)
    (res : List (List ℝ)) (ci : List (List ℤ)) (idx : ℤ) (N : ℕ)
    (hidx : idx = -1 ∨ (0 ≤ idx ∧ idx.toNat < N))
    (h : ∀ row ∈ ci, ∀ w ∈ row, w = -1 ∨ (0 ≤ w ∧ w.toNat < N)) :
    ∀ row ∈ (apply_cable_regions c xs ys res ci idx).2, ∀ w ∈ row,
      w = -1 ∨ (0 ≤ w ∧ w.toNat < N) := by
  rcases hl : c.layers with _ | ⟨l0, ls⟩
  · simp only [apply_cable_regions, hl]
    exact h
  · simp only [apply_cable_regions, hl]
    split_ifs
    · exact h
    · exact mapIdx_grid_entries ci
        (fun j i w => if cable_cell_hit c xs ys j i ∧
            cable_cell_distance c xs ys j i ≤ c.conductor_radius_mm +
              Real.sqrt ((0.5 * (xs.getD (i + 1) 0 - xs.getD i 0)) ^ 2 +
                (0.5 * (ys.getD (j + 1) 0 - ys.getD j 0)) ^ 2) then idx else w) _
        (fun j i w hw => by
          dsimp only
          split_ifs
          · exact hidx
          · exact hw) h

/-- The cable loop of `build_structured_mesh` preserves shapes, the
resistivity floor, and ownership validity. -/
theorem apply_all_cables_inv (cables : List MeshCableDefinition) (xs ys : List ℝ)
    (rgrid : List (List ℝ)) (cgrid : List (List ℤ)) (rn cn : ℕ)
    (hr1 : rgrid.length = rn) (hr2 : ∀ row ∈ rgrid, row.length = cn)
    (hc1 : cgrid.length = rn) (hc2 : ∀ row ∈ cgrid, row.length = cn)
    (hrv : ∀ row ∈ rgrid, ∀ v ∈ row, MIN_RESISTIVITY ≤ v)
    (hcv : ∀ row ∈ cgrid, ∀ w ∈ row, w = -1 ∨ (0 ≤ w ∧ w.toNat < cables.length)) :
    (apply_all_cables cables xs ys rgrid cgrid).1.length = rn ∧
    (∀ row ∈ (apply_all_cables cables xs ys rgrid cgrid).1, row.length = cn) ∧
    (apply_all_cables cables xs ys rgrid cgrid).2.length = rn ∧
    (∀ row ∈ (apply_all_cables cables xs ys rgrid cgrid).2, row.length = cn) ∧
    (∀ row ∈ (apply_all_cables cables xs ys rgrid cgrid).1, ∀ v ∈ row, MIN_RESISTIVITY ≤ v) ∧
    (∀ row ∈ (apply_all_cables cables xs ys rgrid cgrid).2, ∀ w ∈ row,
      w = -1 ∨ (0 ≤ w ∧ w.toNat < cables.length)) := by
  rw [apply_all_cables]
  refine List.foldlRecOn cables.enum _ (rgrid, cgrid)
    (motive := fun p => p.1.length = rn ∧ (∀ row ∈ p.1, row.length = cn) ∧
      p.2.length = rn ∧ (∀ row ∈ p.2, row.length = cn) ∧
      (∀ row ∈ p.1, ∀ v ∈ row, MIN_RESISTIVITY ≤ v) ∧
      (∀ row ∈ p.2, ∀ w ∈ row, w = -1 ∨ (0 ≤ w ∧ w.toNat < cables.length)))
    ⟨hr1, hr2, hc1, hc2, hrv, hcv⟩ ?_
  intro p hp ci2 hmem
  obtain ⟨hp1, hp2, hp3, hp4, hp5, hp6⟩ := hp
  obtain ⟨hq1, hq2, hq3, hq4⟩ :=
    apply_cable_regions_shape ci2.2 xs ys p.1 p.2 (ci2.1 : ℤ) rn cn hp1 hp2 hp3 hp4
  refine ⟨hq1, hq2, hq3, hq4, ?_, ?_⟩
  · exact apply_cable_regions_res_ge ci2.2 xs ys p.1 p.2 (ci2.1 : ℤ) hp5
  · refine apply_cable_regions_own ci2.2 xs ys p.1 p.2 (ci2.1 : ℤ) cables.length ?_ hp6
    right
    refine ⟨Int.natCast_nonneg _, ?_⟩
    rw [Int.toNat_natCast]
    exact fst_lt_of_mem_enum hmem

/-- `_build_base_resistivity`: shape and floor. -/
theorem build_base_resistivity_spec (layers : List TrenchLayer) (xs ys : List ℝ)
    (surf dres : ℝ) :
    (build_base_resistivity layers xs ys surf dres).length = ys.length - 1 ∧
    (∀ row ∈ build_base_resistivity layers xs ys surf dres, row.length = xs.length - 1) ∧
    (∀ row ∈ build_base_resistivity layers xs ys surf dres, ∀ v ∈ row, MIN_RESISTIVITY ≤ v) := by
  refine ⟨?_, ?_, ?_⟩
  · rw [build_base_resistivity, List.length_map, cell_centres_length]
  · intro row hrow
    rw [build_base_resistivity] at hrow
    obtain ⟨cy, hcy, heq⟩ := List.mem_map.mp hrow
    rw [← heq, List.length_map, cell_centres_length]
  · intro row hrow v hv
    rw [build_base_resistivity] at hrow
    obtain ⟨cy, hcy, heq⟩ := List.mem_map.mp hrow
    rw [← heq] at hv
    obtain ⟨cx, hcx, hev⟩ := List.mem_map.mp hv
    rw [← hev]
    exact resistivity_for_depth_ge layers _ dres

/-- The optional duct pass keeps the base grid's shape and floor. -/
theorem base1_inv (ducts : List MeshDuctDefinition) (xs ys : List ℝ)
    (base : List (List ℝ)) (rn cn : ℕ)
    (h1 : base.length = rn) (h2 : ∀ row ∈ base, row.length = cn)
    (h3 : ∀ row ∈ base, ∀ v ∈ row, MIN_RESISTIVITY ≤ v) :
    ((match ducts with
      | [] => base
      | _ => apply_duct_regions ducts xs ys base : List (List ℝ))).length = rn ∧
    (∀ row ∈ ((match ducts with
      | [] => base
      | _ => apply_duct_regions ducts xs ys base : List (List ℝ))), row.length = cn) ∧
    (∀ row ∈ ((match ducts with
      | [] => base
      | _ => apply_duct_regions ducts xs ys base : List (List ℝ))), ∀ v ∈ row, MIN_RESISTIVITY ≤ v) := by
  rcases ducts with _ | ⟨d, ds⟩
  · exact ⟨h1, h2, h3⟩
  · exact apply_duct_regions_inv (d :: ds) xs ys rn cn base h1 h2 h3

/-- Shape, floor and ownership of the final grids produced by the cable loop
on the base grid and the fresh `-1` ownership grid. -/
theorem mesh_grids_core (cables : List MeshCableDefinition) (XN YN : List ℝ)
    (base1 : List (List ℝ))
    (hb1 : base1.length = YN.length - 1)
    (hb2 : ∀ row ∈ base1, row.length = XN.length - 1)
    (hb3 : ∀ row ∈ base1, ∀ v ∈ row, MIN_RESISTIVITY ≤ v) :
    (apply_all_cables cables XN YN base1
      ((cell_centres YN).map (fun _ => (cell_centres XN).map (fun _ => (-1 : ℤ))))).1.length = YN.length - 1 ∧
    (∀ row ∈ (apply_all_cables cables XN YN base1
      ((cell_centres YN).map (fun _ => (cell_centres XN).map (fun _ => (-1 : ℤ))))).1, row.length = XN.length - 1) ∧
    (apply_all_cables cables XN YN base1
      ((cell_centres YN).map (fun _ => (cell_centres XN).map (fun _ => (-1 : ℤ))))).2.length = YN.length - 1 ∧
    (∀ row ∈ (apply_all_cables cables XN YN base1
      ((cell_centres YN).map (fun _ => (cell_centres XN).map (fun _ => (-1 : ℤ))))).2, row.length = XN.length - 1) ∧
    (∀ row ∈ (apply_all_cables cables XN YN base1
      ((cell_centres YN).map (fun _ => (cell_centres XN).map (fun _ => (-1 : ℤ))))).1, ∀ v ∈ row, MIN_RESISTIVITY ≤ v) ∧
    (∀ row ∈ (apply_all_cables cables XN YN base1
      ((cell_centres YN).map (fun _ => (cell_centres XN).map (fun _ => (-1 : ℤ))))).2, ∀ w ∈ row,
      w = -1 ∨ (0 ≤ w ∧ w.toNat < cables.length)) := by
  have hc1 : ((cell_centres YN).map (fun _ => (cell_centres XN).map (fun _ => (-1 : ℤ)))).length =
      YN.length - 1 := by
    rw [List.length_map, cell_centres_length]
  have hc2 : ∀ row ∈ (cell_centres YN).map (fun _ => (cell_centres XN).map (fun _ => (-1 : ℤ))),
      row.length = XN.length - 1 := by
    intro row hrow
    obtain ⟨cy, hcy, heq⟩ := List.mem_map.mp hrow
    rw [← heq, List.length_map, cell_centres_length]
  have hc3 : ∀ row ∈ (cell_centres YN).map (fun _ => (cell_centres XN).map (fun _ => (-1 : ℤ))),
      ∀ w ∈ row, w = -1 ∨ (0 ≤ w ∧ w.toNat < cables.length) := by
    intro row hrow w hw
    obtain ⟨cy, hcy, heq⟩ := List.mem_map.mp hrow
    rw [← heq] at hw
    obtain ⟨cx, hcx, hew⟩ := List.mem_map.mp hw
    rw [← hew]
    exact Or.inl rfl
  exact apply_all_cables_inv cables XN YN base1 _ (YN.length - 1) (XN.length - 1)
    hb1 hb2 hc1 hc2 hb3 hc3

/--
C7 (confirmed): every mesh returned by a successful `build_structured_mesh`
has strictly increasing x and y node arrays with at least 2 nodes each, its
resistivity and conductor-ownership grids have shape
(len(y_nodes)−1) × (len(x_nodes)−1), every resistivity entry is at least the
positive floor `_MIN_RESISTIVITY` (hence never zero or negative), and every
ownership entry is −1 or a valid index into the returned cable list.
-/
theorem C7_mesh_invariants (scene : Scene) (g0 p0 r0 dres : ℝ) (fa fe : ℕ)
    (out : MeshBuildOutput)
    (hok : build_structured_mesh scene g0 p0 r0 dres fa fe = Except.ok out) :
    (List.Chain' (· < ·) out.mesh.x_nodes_mm ∧ 2 ≤ out.mesh.x_nodes_mm.length) ∧
    (List.Chain' (· < ·) out.mesh.y_nodes_mm ∧ 2 ≤ out.mesh.y_nodes_mm.length) ∧
    (out.mesh.thermal_resistivity_k_m_per_w.length = out.mesh.y_nodes_mm.length - 1 ∧
      ∀ row ∈ out.mesh.thermal_resistivity_k_m_per_w,
        row.length = out.mesh.x_nodes_mm.length - 1) ∧
    (out.mesh.conductor_index.length = out.mesh.y_nodes_mm.length - 1 ∧
      ∀ row ∈ out.mesh.conductor_index, row.length = out.mesh.x_nodes_mm.length - 1) ∧
    (0 < MIN_RESISTIVITY ∧
      ∀ row ∈ out.mesh.thermal_resistivity_k_m_per_w, ∀ v ∈ row, MIN_RESISTIVITY ≤ v) ∧
    (∀ row ∈ out.mesh.conductor_index, ∀ w ∈ row,
      w = -1 ∨ (0 ≤ w ∧ w.toNat < out.cables.length)) := by
  simp only [build_structured_mesh] at hok
  obtain ⟨X, Y, hdp⟩ := build_domain_eq scene (collect_cables scene) (max g0 5) (max p0 50) fa
  rw [hdp] at hok
  split at hok
  · simp at hok
  · rename_i hguard
    rw [Except.ok.injEq] at hok
    subst hok
    push_neg at hguard
    obtain ⟨hgx, hgy⟩ := hguard
    have hxchain0 := uniformize_chain X
    have hychain0 := uniformize_chain Y
    have hgs : (5:ℝ) ≤ max g0 5 := le_max_right _ _
    obtain ⟨hxc, hxl⟩ := enforce_growth_chain (uniformize_axis_nodes X)
      (x_relevant_positions (collect_cables scene) (collect_ducts scene)) (max r0 0)
      (max g0 5) fe hgs hxchain0
    obtain ⟨hyc, hyl⟩ := enforce_growth_chain (uniformize_axis_nodes Y)
      (y_relevant_positions scene (collect_cables scene) (collect_ducts scene)) (max r0 0)
      (max g0 5) fe hgs hychain0
    have hxeq := uniformize_eq_self _ hxc
    have hyeq := uniformize_eq_self _ hyc
    dsimp only
    rw [hxeq, hyeq]
    obtain ⟨hbs1, hbs2, hbs3⟩ := build_base_resistivity_spec scene.config.layers
      (enforce_spacing_growth (uniformize_axis_nodes X)
        (x_relevant_positions (collect_cables scene) (collect_ducts scene)) (max r0 0) (max g0 5) fe)
      (enforce_spacing_growth (uniformize_axis_nodes Y)
        (y_relevant_positions scene (collect_cables scene) (collect_ducts scene)) (max r0 0) (max g0 5) fe)
      scene.config.surface_level_y dres
    obtain ⟨hb1, hb2, hb3⟩ := base1_inv (collect_ducts scene)
      (enforce_spacing_growth (uniformize_axis_nodes X)
        (x_relevant_positions (collect_cables scene) (collect_ducts scene)) (max r0 0) (max g0 5) fe)
      (enforce_spacing_growth (uniformize_axis_nodes Y)
        (y_relevant_positions scene (collect_cables scene) (collect_ducts scene)) (max r0 0) (max g0 5) fe)
      _ _ _ hbs1 hbs2 hbs3
    obtain ⟨hm1, hm2, hm3, hm4, hm5, hm6⟩ := mesh_grids_core (collect_cables scene)
      (enforce_spacing_growth (uniformize_axis_nodes X)
        (x_relevant_positions (collect_cables scene) (collect_ducts scene)) (max r0 0) (max g0 5) fe)
      (enforce_spacing_growth (uniformize_axis_nodes Y)
        (y_relevant_positions scene (collect_cables scene) (collect_ducts scene)) (max r0 0) (max g0 5) fe)
      _ hb1 hb2 hb3
    refine ⟨⟨gap_chain_lt hxc, hxl hgx⟩, ⟨gap_chain_lt hyc, hyl hgy⟩,
      ⟨hm1, hm2⟩, ⟨hm3, hm4⟩, ⟨by norm_num [MIN_RESISTIVITY], hm5⟩, hm6⟩

/-- `_uniformize_axis_nodes` returns the sort when the sort is already a
separated chain. -/
theorem uniformize_eq_of_sorted (l m : List ℝ) (hs : sortReal l = m)
    (h : List.Chain' (fun a b : ℝ => 1e-4 < b - a) m) : uniformize_axis_nodes l = m := by
  rcases m with _ | ⟨first, rest⟩
  · simp [uniformize_axis_nodes, hs]
  · have hfold := uniformize_fold_push rest first [] h
    have hhead : ((rest.reverse ++ first :: []).head? : Option ℝ) = some (rest.getLastD first) := by
      rcases rest with _ | ⟨r, rs⟩
      · rfl
      · rw [List.head?_append, List.head?_reverse, getLast_cons_getLastD rs r,
          List.getLastD_cons]
        rfl
    simp only [uniformize_axis_nodes, hs, hfold, set_head_eq_of_head hhead]
    rw [List.reverse_append, List.reverse_reverse, List.reverse_cons, List.reverse_nil,
      List.nil_append, List.singleton_append]

/-- The witness scene's domain: a 1300 × 1300 box around the trench. -/
theorem exScene_domain :
    build_domain exScene [] 5 50 0 = ([-650, 650], [0, 1200, 1300]) := by
  have hxu : uniformize_axis_nodes [(-650:ℝ), 650] = [-650, 650] := by
    refine uniformize_eq_of_sorted _ _ (sortReal_eq_self ?_) ?_
    · simp [List.sorted_cons]
    · rw [List.chain'_cons]
      exact ⟨by norm_num, List.chain'_singleton _⟩
  have hyu : uniformize_axis_nodes [(0:ℝ), 1300, 1200] = [0, 1200, 1300] := by
    refine uniformize_eq_of_sorted _ _ (sortReal_eq_of_perm ?_ ?_) ?_
    · exact List.Perm.cons 0 (List.Perm.swap 1200 1300 [])
    · simp only [List.sorted_cons, List.mem_cons, List.mem_singleton, List.not_mem_nil,
        List.sorted_nil, and_true]
      norm_num
    · rw [List.chain'_cons]
      refine ⟨by norm_num, ?_⟩
      rw [List.chain'_cons]
      exact ⟨by norm_num, List.chain'_singleton _⟩
  simp only [build_domain, exScene, exConfig, generate_axis_nodes, minimum_gap_spacing,
    gap_candidates]
  norm_num [max_def]
  constructor
  · exact hxu
  · exact hyu

/-- Depth resistivity of the witness trench at 600 mm. -/
theorem exGround_loop_600 : resistivity_depth_loop 1 [exGround] 600 = some 1.5 := by
  simp only [resistivity_depth_loop, exGround, clamped_resistivity]
  rw [if_pos (by norm_num [max_def] : (600:ℝ) ≤ max 1200 0)]
  rw [if_neg (by norm_num : ¬ ((1.5:ℝ) ≤ 0))]
  rw [Option.getD_some]
  rw [max_eq_left (by norm_num [MIN_RESISTIVITY])]

/-- Depth resistivity lookup at 600 mm. -/
theorem exGround_res_600 : resistivity_for_depth [exGround] 600 1 = 1.5 := by
  simp only [resistivity_for_depth]
  rw [if_neg (by norm_num : ¬ ((600:ℝ) < 0)), exGround_loop_600]

/-- The loop falls through below the trench bottom. -/
theorem exGround_loop_1250 : resistivity_depth_loop 1 [exGround] 1250 = none := by
  simp only [resistivity_depth_loop, exGround]
  rw [if_neg (by norm_num [max_def] : ¬ ((1250:ℝ) ≤ max 1200 0))]

/-- Depth resistivity lookup at 1250 mm uses the deepest layer. -/
theorem exGround_res_1250 : resistivity_for_depth [exGround] 1250 1 = 1.5 := by
  simp only [resistivity_for_depth]
  rw [if_neg (by norm_num : ¬ ((1250:ℝ) < 0)), exGround_loop_1250]
  simp only [List.getLastD_cons, List.getLastD_nil, exGround, clamped_resistivity]
  rw [if_neg (by norm_num : ¬ ((1.5:ℝ) ≤ 0)), Option.getD_some]
  rw [max_eq_left (by norm_num [MIN_RESISTIVITY])]

/-- Full evaluation of `build_structured_mesh` on the cable-free witness
scene. -/
theorem exScene_build :
    build_structured_mesh exScene 0 0 0 1 0 0 = Except.ok
      ⟨⟨[-650, 650], [0, 1200, 1300], [[1.5], [1.5]], [[-1], [-1]], 0⟩, []⟩ := by
  have hg : max (0:ℝ) 5 = 5 := max_eq_right (by norm_num)
  have hp : max (0:ℝ) 50 = 50 := max_eq_right (by norm_num)
  have hr : max (0:ℝ) 0 = 0 := max_self 0
  have hcc : collect_cables exScene = [] := rfl
  have hcd : collect_ducts exScene = [] := rfl
  have hxenf : enforce_spacing_growth [(-650:ℝ), 650] (x_relevant_positions [] []) 0 5 0 =
      [-650, 650] := by
    simp only [enforce_spacing_growth]
    rw [if_neg (by norm_num : ¬ (([(-650:ℝ), 650]).length < 2))]
    rw [if_pos (Or.inl le_rfl)]
  have hyenf : enforce_spacing_growth [(0:ℝ), 1200, 1300]
      (y_relevant_positions exScene [] []) 0 5 0 = [0, 1200, 1300] := by
    simp only [enforce_spacing_growth]
    rw [if_neg (by norm_num : ¬ (([(0:ℝ), 1200, 1300]).length < 2))]
    rw [if_pos (Or.inl le_rfl)]
  have hxu : uniformize_axis_nodes [(-650:ℝ), 650] = [-650, 650] := by
    refine uniformize_eq_of_sorted _ _ (sortReal_eq_self (by simp [List.sorted_cons])) ?_
    rw [List.chain'_cons]
    exact ⟨by norm_num, List.chain'_singleton _⟩
  have hyu : uniformize_axis_nodes [(0:ℝ), 1200, 1300] = [0, 1200, 1300] := by
    refine uniformize_eq_of_sorted _ _ (sortReal_eq_self ?_) ?_
    · simp only [List.sorted_cons, List.mem_cons, List.mem_singleton, List.not_mem_nil,
        List.sorted_nil, and_true]
      norm_num
    · rw [List.chain'_cons]
      refine ⟨by norm_num, ?_⟩
      rw [List.chain'_cons]
      exact ⟨by norm_num, List.chain'_singleton _⟩
  have hcells_y : cell_centres [(0:ℝ), 1200, 1300] = [600, 1250] := by
    simp only [cell_centres]
    norm_num
  have hcells_x : cell_centres [(-650:ℝ), 650] = [0] := by
    simp only [cell_centres]
    norm_num
  have hbase : build_base_resistivity exConfig.layers [(-650:ℝ), 650] [(0:ℝ), 1200, 1300]
      exConfig.surface_level_y 1 = [[1.5], [1.5]] := by
    simp only [build_base_resistivity, hcells_y, hcells_x, exConfig, List.map_cons, List.map_nil]
    norm_num [exGround_res_600, exGround_res_1250]
  simp only [build_structured_mesh, hg, hp, hr, hcc, hcd, exScene_domain]
  rw [if_neg (by norm_num :
    ¬ (([(-650:ℝ), 650]).length < 2 ∨ ([(0:ℝ), 1200, 1300]).length < 2))]
  have hconf : exScene.config = exConfig := rfl
  simp only [hconf, hxenf, hyenf, hxu, hyu, hbase, hcells_y, hcells_x,
    apply_all_cables, List.enum_nil, List.foldl_nil, List.map_cons, List.map_nil]
  rfl

/-- Witness for C7: the cable-free scene builds successfully and its mesh
satisfies every invariant. -/
theorem C7_mesh_invariants_witness :
    build_structured_mesh exScene 0 0 0 1 0 0 = Except.ok
      ⟨⟨[-650, 650], [0, 1200, 1300], [[1.5], [1.5]], [[-1], [-1]], 0⟩, []⟩ ∧
    ((List.Chain' (· < ·) ([(-650:ℝ), 650]) ∧ 2 ≤ ([(-650:ℝ), 650]).length) ∧
     (List.Chain' (· < ·) ([(0:ℝ), 1200, 1300]) ∧ 2 ≤ ([(0:ℝ), 1200, 1300]).length) ∧
     (([[(1.5:ℝ)], [1.5]]).length = ([(0:ℝ), 1200, 1300]).length - 1 ∧
       ∀ row ∈ ([[(1.5:ℝ)], [1.5]]), row.length = ([(-650:ℝ), 650]).length - 1) ∧
     (([[(-1:ℤ)], [-1]]).length = ([(0:ℝ), 1200, 1300]).length - 1 ∧
       ∀ row ∈ ([[(-1:ℤ)], [-1]]), row.length = ([(-650:ℝ), 650]).length - 1) ∧
     (0 < MIN_RESISTIVITY ∧
       ∀ row ∈ ([[(1.5:ℝ)], [1.5]]), ∀ v ∈ row, MIN_RESISTIVITY ≤ v) ∧
     (∀ row ∈ ([[(-1:ℤ)], [-1]]), ∀ w ∈ row,
       w = -1 ∨ (0 ≤ w ∧ w.toNat < ([] : List MeshCableDefinition).length))) := by
  refine ⟨exScene_build, ?_⟩
  exact C7_mesh_invariants exScene 0 0 0 1 0 0
    ⟨⟨[-650, 650], [0, 1200, 1300], [[1.5], [1.5]], [[-1], [-1]], 0⟩, []⟩ exScene_build

/-! ## Claim C8: solver input validation -/

/--
C8 (confirmed): `CableFemAnalyzer.solve` raises (modelled as `Except.error`)
exactly when the mesh has fewer than 2 nodes on either axis, a grid shape
differs from (len(y)−1) × (len(x)−1), or the nodes are not strictly
increasing on both axes; on success the conductivity grid is the entrywise
inversion `1 / max(ρ, _MIN_RESISTIVITY)`, whose denominator is always
positive.
-/
theorem C8_solve_validation (mesh : StructuredMesh) :
    ((∃ e, solve_validate mesh = Except.error e) ↔
      (mesh.y_nodes_mm.length < 2 ∨ mesh.x_nodes_mm.length < 2) ∨
      ¬ (mesh.thermal_resistivity_k_m_per_w.length = mesh.y_nodes_mm.length - 1 ∧
         ∀ row ∈ mesh.thermal_resistivity_k_m_per_w, row.length = mesh.x_nodes_mm.length - 1) ∨
      ¬ (mesh.conductor_index.length = mesh.y_nodes_mm.length - 1 ∧
         ∀ row ∈ mesh.conductor_index, row.length = mesh.x_nodes_mm.length - 1) ∨
      ¬ (List.Chain' (· < ·) mesh.x_nodes_mm ∧ List.Chain' (· < ·) mesh.y_nodes_mm)) ∧
    (∀ conductivity, solve_validate mesh = Except.ok conductivity →
      conductivity = mesh.thermal_resistivity_k_m_per_w.map (fun row =>
        row.map (fun rho => 1 / max rho MIN_RESISTIVITY))) ∧
    (∀ rho : ℝ, 0 < max rho MIN_RESISTIVITY) := by
  refine ⟨?_, ?_, fun rho =>
    lt_of_lt_of_le (by norm_num [MIN_RESISTIVITY]) (le_max_right _ _)⟩
  · simp only [solve_validate]
    by_cases h1 : mesh.y_nodes_mm.length < 2 ∨ mesh.x_nodes_mm.length < 2
    · rw [if_pos h1]
      exact ⟨fun _ => Or.inl h1, fun _ => ⟨_, rfl⟩⟩
    · rw [if_neg h1]
      by_cases h2 : ¬ (mesh.thermal_resistivity_k_m_per_w.length = mesh.y_nodes_mm.length - 1 ∧
          ∀ row ∈ mesh.thermal_resistivity_k_m_per_w, row.length = mesh.x_nodes_mm.length - 1)
      · rw [if_pos h2]
        exact ⟨fun _ => Or.inr (Or.inl h2), fun _ => ⟨_, rfl⟩⟩
      · rw [if_neg h2]
        by_cases h3 : ¬ (mesh.conductor_index.length = mesh.y_nodes_mm.length - 1 ∧
            ∀ row ∈ mesh.conductor_index, row.length = mesh.x_nodes_mm.length - 1)
        · rw [if_pos h3]
          exact ⟨fun _ => Or.inr (Or.inr (Or.inl h3)), fun _ => ⟨_, rfl⟩⟩
        · rw [if_neg h3]
          by_cases h4 : ¬ (List.Chain' (· < ·) mesh.x_nodes_mm ∧
              List.Chain' (· < ·) mesh.y_nodes_mm)
          · rw [if_pos h4]
            exact ⟨fun _ => Or.inr (Or.inr (Or.inr h4)), fun _ => ⟨_, rfl⟩⟩
          · rw [if_neg h4]
            constructor
            · rintro ⟨e, he⟩
              exact absurd he (by simp)
            · intro hrhs
              rcases hrhs with h | h | h | h
              · exact absurd h h1
              · exact absurd h h2
              · exact absurd h h3
              · exact absurd h h4
  · intro c hc
    simp only [solve_validate] at hc
    split_ifs at hc
    rw [Except.ok.injEq] at hc
    exact hc.symm

/-- Witness for C8: the witness mesh passes validation (with the inverted,
floored conductivities), and a 1×1 mesh is rejected. -/
theorem C8_solve_validation_witness :
    solve_validate ⟨[-650, 650], [0, 1200, 1300], [[1.5], [1.5]], [[-1], [-1]], 0⟩ =
      Except.ok ([[(1.5:ℝ)], [1.5]].map (fun row =>
        row.map (fun rho => 1 / max rho MIN_RESISTIVITY))) ∧
    (∃ e, solve_validate ⟨[0], [0], [], [], 0⟩ = Except.error e) := by
  constructor
  · simp only [solve_validate]
    rw [if_neg (by norm_num : ¬ (([(0:ℝ), 1200, 1300]).length < 2 ∨ ([(-650:ℝ), 650]).length < 2))]
    rw [if_neg (not_not_intro (by
      refine ⟨by norm_num, ?_⟩
      intro row hrow
      rcases List.mem_cons.mp hrow with h | h
      · rw [h]; norm_num
      · rcases List.mem_cons.mp h with h2 | h2
        · rw [h2]; norm_num
        · exact absurd h2 (List.not_mem_nil row)))]
    rw [if_neg (not_not_intro (by
      refine ⟨by norm_num, ?_⟩
      intro row hrow
      rcases List.mem_cons.mp hrow with h | h
      · rw [h]; norm_num
      · rcases List.mem_cons.mp h with h2 | h2
        · rw [h2]; norm_num
        · exact absurd h2 (List.not_mem_nil row)))]
    rw [if_neg (not_not_intro (by
      constructor
      · rw [List.chain'_cons]
        exact ⟨by norm_num, List.chain'_singleton _⟩
      · rw [List.chain'_cons]
        refine ⟨by norm_num, ?_⟩
        rw [List.chain'_cons]
        exact ⟨by norm_num, List.chain'_singleton _⟩))]
  · exact (C8_solve_validation ⟨[0], [0], [], [], 0⟩).1.mpr
      (Or.inl (Or.inl (by norm_num)))

/-! ## Claim C10: heat non-negativity -/

/-- The auto-update path never drives a heat value negative: the recomputed
value is itself clamped at zero, and otherwise the previous value is kept. -/
theorem update_heat_entry_nonneg (load : CableLoad) (temps : List CableTemperature)
    (tol h : ℝ) (hh : 0 ≤ h) : 0 ≤ update_heat_entry load temps tol h := by
  simp only [update_heat_entry]
  split_ifs with h1
  · exact hh
  · rcases hcur : load.definition.nominal_current_a with _ | cur <;> simp only [hcur]
    · exact hh
    · split_ifs with h2
      · exact hh
      · rcases hl : temp_lookup temps load.definition.label with _ | info <;> simp only [hl]
        · exact hh
        · rcases hres : temperature_dependent_resistance load.definition info.max_temp_c with _ | res <;>
            simp only [hres]
          · exact hh
          · split_ifs with h3
            · exact le_max_right _ _
            · exact hh

/-- One `_update_heat_values` sweep preserves non-negativity. -/
theorem update_heat_values_nonneg (hv : List ℝ) (loads : List CableLoad)
    (temps : List CableTemperature) (tol : ℝ) (h : ∀ v ∈ hv, 0 ≤ v) :
    ∀ v ∈ update_heat_values hv loads temps tol, 0 ≤ v := by
  intro v hvmem
  rw [update_heat_values] at hvmem
  rcases List.mem_append.mp hvmem with hm | hm
  · obtain ⟨p, hp, he⟩ := List.mem_map.mp hm
    rw [← he]
    exact update_heat_entry_nonneg p.2 temps tol p.1 (h p.1 (List.of_mem_zip hp).1)
  · exact h v (List.mem_of_mem_drop hm)

/-- A conductor owning no cells has zero area. -/
theorem conductor_area_eq_zero (ci : List (List ℤ)) (idx : ℤ) (dx dy : List ℝ)
    (h : ∀ row ∈ ci, ∀ w ∈ row, w ≠ idx) :
    conductor_area ci idx dx dy = 0 := by
  rw [conductor_area]
  apply List.sum_eq_zero
  intro x hx
  obtain ⟨jrow, hjrow, hxe⟩ := List.mem_map.mp hx
  rw [← hxe]
  have hrow : jrow.2 ∈ ci := snd_mem_of_mem_enum hjrow
  split_ifs
  · rfl
  · apply List.sum_eq_zero
    intro y hy
    obtain ⟨iv, hiv, hye⟩ := List.mem_map.mp hy
    rw [← hye]
    have hmem2 : iv.2 ∈ jrow.2 := snd_mem_of_mem_enum hiv
    split_ifs with hx1 hx2
    · rfl
    · exact absurd hx2 (h jrow.2 hrow iv.2 hmem2)
    · rfl

/--
C10 (confirmed): every load's heat input is clamped to zero from below before
use; a load with non-positive heat or with no owned cells (zero conductor
area) injects nothing into the heat grid; and every entry of the heat value
sequence — initial and after any number of auto-update sweeps (whose
recomputed values are themselves clamped at zero) — is non-negative.
-/
theorem C10_heat_nonneg (loads : List CableLoad) (tol : ℝ)
    (temps_seq : List (List CableTemperature)) (ci : List (List ℤ)) (idx : ℕ)
    (dx dy : List ℝ) (heat : ℝ) (j i : ℕ) :
    (initial_heat_values loads = loads.map (fun load => max load.heat_w_per_m 0) ∧
      ∀ v ∈ initial_heat_values loads, 0 ≤ v) ∧
    (heat ≤ 0 → load_heat_contribution ci dx dy idx heat j i = 0) ∧
    ((∀ row ∈ ci, ∀ w ∈ row, w ≠ (idx : ℤ)) →
      conductor_area ci (idx : ℤ) dx dy = 0 ∧
      load_heat_contribution ci dx dy idx heat j i = 0) ∧
    (∀ v ∈ heat_values_after loads tol temps_seq, 0 ≤ v) := by
  have hinit : ∀ v ∈ initial_heat_values loads, 0 ≤ v := by
    intro v hv
    obtain ⟨load, -, he⟩ := List.mem_map.mp hv
    rw [← he]
    exact le_max_right _ _
  refine ⟨⟨rfl, hinit⟩, ?_, ?_, ?_⟩
  · intro hheat
    simp only [load_heat_contribution]
    rw [if_pos hheat]
  · intro hown
    have harea := conductor_area_eq_zero ci (idx : ℤ) dx dy hown
    refine ⟨harea, ?_⟩
    simp only [load_heat_contribution]
    split_ifs with h1 h2
    · rfl
    · rfl
    · exact absurd (le_of_eq harea) h2
    · rfl
  · rw [heat_values_after]
    refine List.foldlRecOn temps_seq _ (initial_heat_values loads)
      (motive := fun hv => ∀ v ∈ hv, 0 ≤ v) hinit ?_
    intro hv hok temps _
    exact update_heat_values_nonneg hv loads temps tol hok

/-- Witness for C10: a negative-heat load contributes nothing, an unused
conductor index has zero area, and every initial heat value is non-negative. -/
theorem C10_heat_nonneg_witness :
    ((-5:ℝ) ≤ 0 ∧ load_heat_contribution [[-1]] [100] [100] 0 (-5) 0 0 = 0) ∧
    ((∀ row ∈ ([[-1]] : List (List ℤ)), ∀ w ∈ row, w ≠ ((0:ℕ) : ℤ)) ∧
      conductor_area [[-1]] ((0:ℕ) : ℤ) [100] [100] = 0) ∧
    (∀ v ∈ heat_values_after [exLoadNeg] 0.1 [], 0 ≤ v) := by
  have h := C10_heat_nonneg [exLoadNeg] 0.1 [] [[-1]] 0 [100] [100] (-5) 0 0
  have hne : ∀ row ∈ ([[-1]] : List (List ℤ)), ∀ w ∈ row, w ≠ ((0:ℕ) : ℤ) := by decide
  exact ⟨⟨by norm_num, h.2.1 (by norm_num)⟩, ⟨hne, (h.2.2.1 hne).1⟩, h.2.2.2⟩

end

end IEC60287Spec
